import Mathlib

/-!
# chess client: command dispatch and state reconciliation

A shallow embedding of the interactive chess client (`cli-client/`): the command
registry (`client/command/registry.go`), the session (`client/session/session.go`),
the transport client (`client/api/client.go`) and the command handlers
(`client/command/game.go`, `auth.go`, `debug.go`).

Modelling conventions.

* Go strings are Lean `String`s (input is taken to be valid UTF-8).
* Go `int` is `Int`; `len xs` is `(xs.length : Int)`.
* Go `error` is `Option Error` (`none` is `nil`); a call returning `(T, error)` is
  `Except Error T`.  A handler that receives an error never reads the value returned
  next to it, so `Except` loses nothing.
* A `*GameResponse` held by the session is `Option GameResponse` (`none` is `nil`).
* Handlers mutate the session, read standard input, print, sleep and call the remote
  service.  All of that is explicit state passing over `World`: the session, the
  unread lines of standard input, the number of answers obtained from the outside so
  far and the chronological trace of effects.  The remote service and the terminal are an
  arbitrary `Service`: each method answers as a function of the round-trip number and
  of the arguments sent.
* `Command.Handler` is a function value in Go; here it is the name of the handler
  (`Handler`) and `runHandler` maps each name to the function it denotes.
-/

namespace ChessClient

abbrev Error := String

/-! ## `client/api/types.go` -/

namespace api

structure PlayerConfig where
  Type_ : Int
  Level : Int
  SearchTime : Int
deriving DecidableEq, Repr

structure CreateGameRequest where
  White : PlayerConfig
  Black : PlayerConfig
  FEN : String
deriving DecidableEq, Repr

structure PlayerInfo where
  ID : String
  Type_ : Int
  Level : Int
  SearchTime : Int
deriving DecidableEq, Repr

structure PlayersResponse where
  White : PlayerInfo
  Black : PlayerInfo
deriving DecidableEq, Repr

structure MoveInfo where
  Move : String
  PlayerColor : String
  Score : Int
  Depth : Int
deriving DecidableEq, Repr

structure GameResponse where
  GameID : String
  FEN : String
  Turn : String
  State : String
  Moves : List String
  Players : PlayersResponse
  LastMove : Option MoveInfo
deriving DecidableEq, Repr

structure BoardResponse where
  FEN : String
  Board : String
deriving DecidableEq, Repr

structure AuthResponse where
  Token : String
  UserID : String
  Username : String
deriving DecidableEq, Repr

/-- User record; the two `time.Time` fields are carried as Unix seconds. -/
structure UserResponse where
  UserID : String
  Username : String
  Email : String
  CreatedAt : Int
  LastLogin : Option Int
deriving DecidableEq, Repr

structure HealthResponse where
  Status : String
  Time : Int
  Storage : String
deriving DecidableEq, Repr

/-- The transport client of `client/api/client.go` (the `http.Client` is left out). -/
structure Client where
  BaseURL : String
  AuthToken : String
  Verbose : Bool
deriving DecidableEq, Repr

/-- One round trip of the transport: the `Client` method called and its arguments. -/
inductive Request where
  | Health
  | CreateGame (req : CreateGameRequest)
  | GetGame (gameID : String)
  | GetGameWithPoll (gameID : String) (moveCount : Int)
  | DeleteGame (gameID : String)
  | MakeMove (gameID : String) (move : String)
  | UndoMoves (gameID : String) (count : Int)
  | GetBoard (gameID : String)
  | Register (username : String) (password : String) (email : String)
  | Login (identifier : String) (password : String)
  | GetCurrentUser
  | RawRequest (method : String) (path : String) (body : String)
deriving DecidableEq, Repr

end api

/-! ## `client/session/session.go` -/

namespace session

structure Session where
  APIBaseURL : String
  CurrentGame : String
  CurrentUser : String
  AuthToken : String
  Username : String
  LastMoveCount : Int
  Client : api.Client
  Verbose : Bool
  CurrentGameState : Option api.GameResponse
  PlayerColor : String
deriving DecidableEq, Repr

namespace Session

def GetCurrentGame (s : Session) : String := s.CurrentGame
def SetCurrentGame (s : Session) (id : String) : Session := { s with CurrentGame := id }
def GetCurrentUser (s : Session) : String := s.CurrentUser
def SetCurrentUser (s : Session) (id : String) : Session := { s with CurrentUser := id }
def GetAuthToken (s : Session) : String := s.AuthToken
def SetAuthToken (s : Session) (token : String) : Session := { s with AuthToken := token }
def GetUsername (s : Session) : String := s.Username
def SetUsername (s : Session) (name : String) : Session := { s with Username := name }
def GetLastMoveCount (s : Session) : Int := s.LastMoveCount
def SetLastMoveCount (s : Session) (count : Int) : Session := { s with LastMoveCount := count }
def GetAPIBaseURL (s : Session) : String := s.APIBaseURL
def SetAPIBaseURL (s : Session) (url : String) : Session := { s with APIBaseURL := url }
def IsVerbose (s : Session) : Bool := s.Verbose

/-- The method `SetGameState`; every caller passes a `*api.GameResponse`, so the type
assertion in the source succeeds. -/
def SetGameState (s : Session) (game : api.GameResponse) : Session :=
  { s with CurrentGameState := some game }

def SetPlayerColor (s : Session) (color : String) : Session := { s with PlayerColor := color }
def GetPlayerColor (s : Session) : String := s.PlayerColor

end Session

end session

open session (Session)

/-! ## The outside world -/

/-- An observable effect of a handler, in the order performed. -/
inductive Event where
  | call (req : api.Request)
  | sleep (ms : Nat)
  | print (text : String)
  | readPassword (prompt : String)
deriving DecidableEq, Repr

/-- The remote service and the terminal.  The first argument of every method is the
number of answers the client has obtained before this one (`World.calls`), so that the
same request may be answered differently at different times.  `ReadPassword` is
`term.ReadPassword` on standard input.  `formatTime` is `time.Time.Format` with the
layout `2006-01-02 15:04:05` on a Unix time, and `marshalIndent` is `json.MarshalIndent`
with the indent of `PrettyPrintJSON`. -/
structure Service where
  Health : Nat → Except Error api.HealthResponse
  CreateGame : Nat → api.CreateGameRequest → Except Error api.GameResponse
  GetGame : Nat → String → Except Error api.GameResponse
  GetGameWithPoll : Nat → String → Int → Except Error api.GameResponse
  DeleteGame : Nat → String → Option Error
  MakeMove : Nat → String → String → Except Error api.GameResponse
  UndoMoves : Nat → String → Int → Except Error api.GameResponse
  GetBoard : Nat → String → Except Error api.BoardResponse
  Register : Nat → String → String → String → Except Error api.AuthResponse
  Login : Nat → String → String → Except Error api.AuthResponse
  GetCurrentUser : Nat → Except Error api.UserResponse
  RawRequest : Nat → String → String → String → Option Error
  ReadPassword : Nat → Except Error String
  formatTime : Int → String
  marshalIndent : api.GameResponse → String

/-- Everything a handler reads and writes. -/
structure World where
  s : Session
  stdin : List String
  calls : Nat
  events : List Event
deriving DecidableEq, Repr

namespace World

/-- Append one effect to the trace. -/
def emit (w : World) (e : Event) : World :=
  { w with events := w.events ++ [e] }

/-- Write `text` to standard output (`fmt.Print`, `fmt.Printf`). -/
def print (w : World) (text : String) : World :=
  w.emit (.print text)

/-- Record one round trip. -/
def roundTrip (w : World) (req : api.Request) : World :=
  { w with calls := w.calls + 1, events := w.events ++ [.call req] }

/-- The `scanner.Scan(); scanner.Text()` pair: the next line of standard input, the
empty string at end of input.  `stdin` is what the scanner of the running handler reads:
each reading handler builds its own `bufio.NewScanner(os.Stdin)`, which reads ahead, so the
lines one handler leaves unread need not reach the scanner of the next; the field describes
the input of one handler. -/
def scan (w : World) : World × String :=
  match w.stdin with
  | [] => (w, "")
  | l :: ls => ({ w with stdin := ls }, l)

end World

/-! ## Go library functions used by the client -/

namespace unicode

/-- The Go predicate `unicode.IsSpace` (the `White_Space` property). -/
def IsSpace (c : Char) : Bool :=
  let n := c.toNat
  (9 ≤ n && n ≤ 13) || n == 32 || n == 133 || n == 160 || n == 5760 ||
  (8192 ≤ n && n ≤ 8202) || n == 8232 || n == 8233 || n == 8239 || n == 8287 || n == 12288

end unicode

namespace strings

/-- Worker of `Fields`: `cur` is the field being read. -/
def fieldsAux : List Char → List Char → List String
  | [], cur => if cur = [] then [] else [String.mk cur]
  | c :: cs, cur =>
    if unicode.IsSpace c then
      if cur = [] then fieldsAux cs [] else String.mk cur :: fieldsAux cs []
    else fieldsAux cs (cur ++ [c])

/-- The Go function `strings.Fields`: the maximal runs of non-space characters. -/
def Fields (s : String) : List String :=
  fieldsAux s.data []

/-- The Go function `strings.TrimSpace`. -/
def TrimSpace (s : String) : String :=
  String.mk ((s.data.dropWhile unicode.IsSpace).reverse.dropWhile unicode.IsSpace).reverse

/-- The Go function `strings.ToLower`, on the ASCII letters.  The client only compares
the result with `""`, `"h"` and `"c"`, and no non-ASCII character lowers to `c`. -/
def ToLower (s : String) : String :=
  String.mk (s.data.map Char.toLower)

/-- The Go function `strings.ToUpper`, on the ASCII letters.  Go also maps letters
outside ASCII (U+017F to `S`, for one), which this function leaves as they are; the client
calls it only in `rawRequestHandler`, on the method of the request. -/
def ToUpper (s : String) : String :=
  String.mk (s.data.map Char.toUpper)

/-- The Go function `strings.HasPrefix`. -/
def HasPrefix (s pre : String) : Bool :=
  pre.data.isPrefixOf s.data

/-- The Go function `strings.Join`. -/
def Join (xs : List String) (sep : String) : String :=
  sep.intercalate xs

end strings

namespace strconv

/-- Value of a string of decimal digits. -/
def digitsValue (ds : List Char) : Nat :=
  ds.foldl (fun a c => 10 * a + (c.toNat - 48)) 0

/-- The Go function `strconv.Atoi` on a 64-bit `int`: an optional sign and decimal
digits; `0` with an error on any other text, the nearest bound with an error when out
of range. -/
def Atoi (s : String) : Int × Option Error :=
  let cs := s.data
  let neg := cs.head? == some (Char.ofNat 45)
  let ds := if cs.head? == some (Char.ofNat 43) || neg then cs.tail else cs
  if ds = [] || !(ds.all Char.isDigit) then
    (0, some ("strconv.Atoi: parsing " ++ s ++ ": not a number"))
  else
    let v : Int := if neg then - (digitsValue ds : Int) else (digitsValue ds : Int)
    if v > 9223372036854775807 then
      (9223372036854775807, some ("strconv.Atoi: parsing " ++ s ++ ": value out of range"))
    else if v < -9223372036854775808 then
      (-9223372036854775808, some ("strconv.Atoi: parsing " ++ s ++ ": value out of range"))
    else (v, none)

end strconv

namespace time

/-- The Go function `time.Sleep`, in milliseconds. -/
def Sleep (w : World) (ms : Nat) : World :=
  w.emit (.sleep ms)

end time

/-! ## `client/display/colors.go` -/

namespace display

def Reset : String := "\x1b[0m"
def Red : String := "\x1b[31m"
def Green : String := "\x1b[32m"
def Yellow : String := "\x1b[33m"
def Blue : String := "\x1b[34m"
def Magenta : String := "\x1b[35m"
def Cyan : String := "\x1b[36m"
def White : String := "\x1b[37m"

/-- Wraps text with colour and reset codes. -/
def C (color text : String) : String :=
  color ++ text ++ Reset

/-- The function `display.Print`; `text` is the format with its arguments filled in. -/
def Print (w : World) (color text : String) : World :=
  w.print (C color text)

/-- The function `display.Println`; `text` is the format with its arguments filled in. -/
def Println (w : World) (color text : String) : World :=
  w.print (C color text ++ "\n")

end display

/-! ## `client/api/client.go` -/

namespace api.Client

/-- The method `Client.SetVerbose`. -/
def SetVerbose (c : Client) (v : Bool) : Client :=
  { c with Verbose := v }

/-- The method `Client.SetToken`. -/
def SetToken (c : Client) (token : String) : Client :=
  { c with AuthToken := token }

/-- The Go function `strings.TrimRight` with the cutset `"/"`. -/
def trimRightSlash (url : String) : String :=
  String.mk (url.data.reverse.dropWhile (fun c => c == Char.ofNat 47)).reverse

/-- The method `Client.SetBaseURL`. -/
def SetBaseURL (c : Client) (url : String) : Client :=
  { c with BaseURL := trimRightSlash url }

/-! The request methods of `Client`: one round trip each (`doRequest`), answered by the
service; the world takes the place of the receiver. -/

def Health (svc : Service) (w : World) : World × Except Error api.HealthResponse :=
  (w.roundTrip .Health, svc.Health w.calls)

def CreateGame (svc : Service) (w : World) (req : api.CreateGameRequest) :
    World × Except Error api.GameResponse :=
  (w.roundTrip (.CreateGame req), svc.CreateGame w.calls req)

def GetGame (svc : Service) (w : World) (gameID : String) :
    World × Except Error api.GameResponse :=
  (w.roundTrip (.GetGame gameID), svc.GetGame w.calls gameID)

def GetGameWithPoll (svc : Service) (w : World) (gameID : String) (moveCount : Int) :
    World × Except Error api.GameResponse :=
  (w.roundTrip (.GetGameWithPoll gameID moveCount), svc.GetGameWithPoll w.calls gameID moveCount)

def DeleteGame (svc : Service) (w : World) (gameID : String) : World × Option Error :=
  (w.roundTrip (.DeleteGame gameID), svc.DeleteGame w.calls gameID)

def MakeMove (svc : Service) (w : World) (gameID move : String) :
    World × Except Error api.GameResponse :=
  (w.roundTrip (.MakeMove gameID move), svc.MakeMove w.calls gameID move)

def UndoMoves (svc : Service) (w : World) (gameID : String) (count : Int) :
    World × Except Error api.GameResponse :=
  (w.roundTrip (.UndoMoves gameID count), svc.UndoMoves w.calls gameID count)

def GetBoard (svc : Service) (w : World) (gameID : String) :
    World × Except Error api.BoardResponse :=
  (w.roundTrip (.GetBoard gameID), svc.GetBoard w.calls gameID)

def Register (svc : Service) (w : World) (username password email : String) :
    World × Except Error api.AuthResponse :=
  (w.roundTrip (.Register username password email), svc.Register w.calls username password email)

def Login (svc : Service) (w : World) (identifier password : String) :
    World × Except Error api.AuthResponse :=
  (w.roundTrip (.Login identifier password), svc.Login w.calls identifier password)

def GetCurrentUser (svc : Service) (w : World) : World × Except Error api.UserResponse :=
  (w.roundTrip .GetCurrentUser, svc.GetCurrentUser w.calls)

def RawRequest (svc : Service) (w : World) (method path body : String) : World × Option Error :=
  (w.roundTrip (.RawRequest method path body), svc.RawRequest w.calls method path body)

end api.Client

/-! ## `client/command/registry.go`: the registry -/

namespace command

/-- The handler functions of the package, by name. -/
inductive Handler where
  | newGameHandler | joinGameHandler | moveHandler | computerMoveHandler | undoHandler
  | showBoardHandler | gameStateHandler | deleteGameHandler | pollHandler
  | registerHandler | loginHandler | logoutHandler | whoamiHandler | setUserHandler
  | healthHandler | urlHandler | rawRequestHandler
  | helpHandler | exitHandler
deriving DecidableEq, Repr

/-- Command defines a client command with its handler. -/
structure Command where
  Name : String
  ShortName : String
  Description : String
  Usage : String
  Handler : Handler
deriving DecidableEq, Repr

/-- The registry: `commands` is the Go map, as an association list whose first entry
for a key is the current one. -/
structure Registry where
  commands : List (String × Command)
deriving DecidableEq, Repr

namespace Registry

/-- The map read `r.commands[key]`. -/
def get (r : Registry) (key : String) : Option Command :=
  r.commands.lookup key

/-- The map write `r.commands[key] = cmd`. -/
def set (r : Registry) (key : String) (cmd : Command) : Registry :=
  { commands := (key, cmd) :: r.commands }

def Register (r : Registry) (cmd : Command) : Registry :=
  let r := r.set cmd.Name cmd
  if cmd.ShortName ≠ "" then r.set cmd.ShortName cmd else r

/-- The commands registered by `registerGameCommands`, in order (`game.go`). -/
def gameCommands : List Command :=
  [ { Name := "new", ShortName := "n", Description := "Create a new game",
      Usage := "new", Handler := .newGameHandler },
    { Name := "join", ShortName := "j", Description := "Join/set current game ID",
      Usage := "join <gameId>", Handler := .joinGameHandler },
    { Name := "move", ShortName := "m", Description := "Make a move",
      Usage := "move <uci-move>", Handler := .moveHandler },
    { Name := "computer", ShortName := "c", Description := "Trigger computer move",
      Usage := "computer", Handler := .computerMoveHandler },
    { Name := "undo", ShortName := "u", Description := "Undo moves",
      Usage := "undo [count]", Handler := .undoHandler },
    { Name := "show", ShortName := "h", Description := "Show board and game state",
      Usage := "show", Handler := .showBoardHandler },
    { Name := "state", ShortName := "s", Description := "Show raw game JSON",
      Usage := "state", Handler := .gameStateHandler },
    { Name := "delete", ShortName := "d", Description := "Delete a game",
      Usage := "delete [gameId]", Handler := .deleteGameHandler },
    { Name := "poll", ShortName := "p", Description := "Long-poll for game updates",
      Usage := "poll", Handler := .pollHandler } ]

/-- The commands registered by `registerAuthCommands`, in order (`auth.go`). -/
def authCommands : List Command :=
  [ { Name := "register", ShortName := "r", Description := "Register a new user",
      Usage := "register", Handler := .registerHandler },
    { Name := "login", ShortName := "l", Description := "Login with credentials",
      Usage := "login", Handler := .loginHandler },
    { Name := "logout", ShortName := "o", Description := "Clear authentication",
      Usage := "logout", Handler := .logoutHandler },
    { Name := "whoami", ShortName := "i", Description := "Show current user",
      Usage := "whoami", Handler := .whoamiHandler },
    { Name := "user", ShortName := "e", Description := "Set user ID manually",
      Usage := "user <userId>", Handler := .setUserHandler } ]

/-- The commands registered by `registerDebugCommands`, in order (`debug.go`). -/
def debugCommands : List Command :=
  [ { Name := "health", ShortName := ".", Description := "Check server health",
      Usage := "health", Handler := .healthHandler },
    { Name := "url", ShortName := "/", Description := "Set API base URL",
      Usage := "url [apiUrl]", Handler := .urlHandler },
    { Name := "raw", ShortName := ":", Description := "Send raw API request",
      Usage := "raw <method> <path> [json-body]", Handler := .rawRequestHandler } ]

/-- The help command registered by `NewRegistry`. -/
def helpCommand : Command :=
  { Name := "help", ShortName := "?", Description := "Show available commands",
    Usage := "help [command]", Handler := .helpHandler }

/-- The exit command registered by `NewRegistry`. -/
def exitCommand : Command :=
  { Name := "exit", ShortName := "x", Description := "Exit the client",
    Usage := "exit", Handler := .exitHandler }

def registerGameCommands (r : Registry) : Registry :=
  gameCommands.foldl Register r

def registerAuthCommands (r : Registry) : Registry :=
  authCommands.foldl Register r

def registerDebugCommands (r : Registry) : Registry :=
  debugCommands.foldl Register r

end Registry

open Registry in
/-- Registry manages command registration and execution. -/
def NewRegistry : Registry :=
  let r : Registry := { commands := [] }
  let r := r.registerGameCommands
  let r := r.registerAuthCommands
  let r := r.registerDebugCommands
  let r := r.Register helpCommand
  let r := r.Register exitCommand
  r

/-- What `Registry.Execute` decides before it runs anything: nothing to do, an unknown
key, or a command to invoke with its arguments. -/
inductive Dispatch where
  | empty
  | unknown (cmdName : String)
  | invoke (cmd : Command) (args : List String)
deriving DecidableEq, Repr

/-- The first half of `Registry.Execute`: tokenise and look the key up. -/
def Registry.dispatch (r : Registry) (input : String) : Dispatch :=
  match strings.Fields input with
  | [] => .empty
  | cmdName :: args =>
    match r.get cmdName with
    | none => .unknown cmdName
    | some cmd => .invoke cmd args

/-! ## `client/command/game.go` -/

/-- The block of `newGameHandler` that asks for one player (it appears twice in the
source, for White and for Black): the type, and for a computer its level and search
time.  Returns the world after the prompts and the `PlayerConfig` built. -/
def askPlayer (w : World) (typePrompt : String) : World × api.PlayerConfig :=
  let w := display.Print w display.Yellow typePrompt
  let (w, line) := w.scan
  let playerType := strings.ToLower (strings.TrimSpace line)
  let playerType := if playerType = "" then "h" else playerType
  if playerType = "c" then
    let w := display.Print w display.Yellow "Computer level (0-20) [10]: "
    let (w, line) := w.scan
    let levelStr := strings.TrimSpace line
    let level : Int := if levelStr = "" then 10 else (strconv.Atoi levelStr).1
    let w := display.Print w display.Yellow "Search time (100-10000ms) [1000]: "
    let (w, line) := w.scan
    let timeStr := strings.TrimSpace line
    let searchTime : Int := if timeStr = "" then 1000 else (strconv.Atoi timeStr).1
    (w, { Type_ := 2, Level := level, SearchTime := searchTime })
  else
    (w, { Type_ := 1, Level := 0, SearchTime := 0 })

def newGameHandler (svc : Service) (w : World) (_args : List String) : World × Option Error :=
  let w := display.Println w display.Cyan "\nCreating new game..."
  let white := askPlayer w "White player type (h/c) [h]: "
  let w := white.1
  let black := askPlayer w "Black player type (h/c) [h]: "
  let w := black.1
  let w := display.Print w display.Yellow "Starting position (FEN) [default]: "
  let (w, line) := w.scan
  let fen := strings.TrimSpace line
  let req : api.CreateGameRequest := { White := white.2, Black := black.2, FEN := fen }
  let (w, r) := api.Client.CreateGame svc w req
  match r with
  | .error err => (w, some err)
  | .ok resp =>
    let s := w.s
    let s := { s with CurrentGame := resp.GameID }
    let s := { s with LastMoveCount := (resp.Moves.length : Int) }
    let s := { s with CurrentGameState := some resp }
    let s :=
      if s.CurrentUser ≠ "" then
        if resp.Players.White.ID = s.CurrentUser then { s with PlayerColor := "w" }
        else if resp.Players.Black.ID = s.CurrentUser then { s with PlayerColor := "b" }
        else s
      else s
    let w := { w with s := s }
    let w := display.Println w display.Green ("Game created: " ++ resp.GameID)
    let w := display.Println w display.Cyan ("Current game set to: " ++ resp.GameID)
    let w :=
      if white.2.Type_ = 2 then
        display.Println w display.Magenta
          "\nWhite is computer. Use 'computer' or 'c' to trigger first move."
      else w
    (w, none)

def joinGameHandler (svc : Service) (w : World) (args : List String) : World × Option Error :=
  match args with
  | [] => (w, some "usage: join <gameId>")
  | gameID :: _ =>
    let (w, r) := api.Client.GetGame svc w gameID
    match r with
    | .error err => (w, some err)
    | .ok resp =>
      let s := w.s
      let s := s.SetCurrentGame gameID
      let s := s.SetLastMoveCount (resp.Moves.length : Int)
      let s := s.SetGameState resp
      let s :=
        if s.GetCurrentUser ≠ "" then
          if resp.Players.White.ID = s.GetCurrentUser then s.SetPlayerColor "w"
          else if resp.Players.Black.ID = s.GetCurrentUser then s.SetPlayerColor "b"
          else s.SetPlayerColor ""
        else s
      let w := { w with s := s }
      let w := w.print (display.Green ++ "Joined game: " ++ gameID ++ display.Reset ++ "\n")
      let w := w.print ("Turn: " ++ resp.Turn ++ " | State: " ++ resp.State ++ " | Moves: "
        ++ toString (resp.Moves.length : Int) ++ "\n")
      (w, none)

def moveHandler (svc : Service) (w : World) (args : List String) : World × Option Error :=
  match args with
  | [] => (w, some "usage: move <uci-move>")
  | move :: _ =>
    let gameID := w.s.CurrentGame
    if gameID = "" then (w, some "no current game, use 'new' or 'join <gameId>'")
    else
      let (w, r) := api.Client.MakeMove svc w gameID move
      match r with
      | .error err => (w, some err)
      | .ok resp =>
        let s := w.s
        let s := { s with LastMoveCount := (resp.Moves.length : Int) }
        let s := { s with CurrentGameState := some resp }
        let w := { w with s := s }
        let w := display.Println w display.Green "Move accepted"
        let w :=
          if resp.State = "checkmate" then
            let winner := if resp.Turn = "b" then "White" else "Black"
            display.Println w display.Green ("\nCHECKMATE! " ++ winner ++ " wins!")
          else if resp.State = "stalemate" then
            display.Println w display.Yellow "\nSTALEMATE! Game drawn."
          else if resp.State = "draw" then
            display.Println w display.Yellow "\nDRAW! Game drawn."
          else if resp.State = "ongoing" then
            let currentTurn := resp.Turn
            let computerPlayer : Option api.PlayerInfo :=
              if currentTurn = "w" ∧ resp.Players.White.Type_ = 2 then some resp.Players.White
              else if currentTurn = "b" ∧ resp.Players.Black.Type_ = 2 then some resp.Players.Black
              else none
            if computerPlayer ≠ none then
              display.Println w display.Magenta
                "\nComputer's turn. Use 'computer' or 'c' to trigger move."
            else w
          else w
        (w, none)

/-- The body of the polling loop of `computerMoveHandler` once a fetch has returned a
state other than `pending`: store it, report the move and the end of the game. -/
def computerMoveDone (w : World) (resp2 : api.GameResponse) : World :=
  let s := w.s
  let s := { s with LastMoveCount := (resp2.Moves.length : Int) }
  let s := { s with CurrentGameState := some resp2 }
  let w := { w with s := s }
  let w :=
    match resp2.LastMove with
    | some lastMove =>
      let w := display.Print w display.Magenta ("Computer played: " ++ lastMove.Move)
      let w :=
        if lastMove.Depth > 0 then
          w.print (" (depth " ++ toString lastMove.Depth ++ ", score "
            ++ toString lastMove.Score ++ ")")
        else w
      w.print "\n"
    | none => w
  if resp2.State = "checkmate" then
    let winner := if resp2.Turn = "b" then "White" else "Black"
    display.Println w display.Green ("\nCHECKMATE! " ++ winner ++ " wins!")
  else if resp2.State = "stalemate" then
    display.Println w display.Yellow "\nSTALEMATE! Game drawn."
  else if resp2.State = "draw" then
    display.Println w display.Yellow "\nDRAW! Game drawn."
  else w

/-- The loop `for i := 0; i < 50; i++` of `computerMoveHandler`, followed by the
timeout return; the first argument is the number of iterations left, `50 - i`. -/
def computerMoveLoop (svc : Service) (gameID : String) : Nat → World → World × Option Error
  | 0, w => (w, some "timeout waiting for computer move")
  | n + 1, w =>
    let w := time.Sleep w 200
    let (w, r) := api.Client.GetGame svc w gameID
    match r with
    | .ok resp2 =>
      if resp2.State ≠ "pending" then (computerMoveDone w resp2, none)
      else computerMoveLoop svc gameID n w
    | .error _ => computerMoveLoop svc gameID n w

def computerMoveHandler (svc : Service) (w : World) (_args : List String) :
    World × Option Error :=
  let gameID := w.s.CurrentGame
  if gameID = "" then (w, some "no current game, use 'new' or 'join <gameId>'")
  else
    let (w, r) := api.Client.MakeMove svc w gameID "cccc"
    match r with
    | .error err => (w, some err)
    | .ok resp =>
      if resp.State = "pending" then
        let w := display.Println w display.Magenta "Computer is thinking..."
        computerMoveLoop svc gameID 50 w
      else
        let s := w.s
        let s := { s with LastMoveCount := (resp.Moves.length : Int) }
        let s := { s with CurrentGameState := some resp }
        let w := { w with s := s }
        let w := display.Println w display.Green "Move triggered"
        (w, none)

def undoHandler (svc : Service) (w : World) (args : List String) : World × Option Error :=
  let gameID := w.s.GetCurrentGame
  if gameID = "" then (w, some "no current game, use 'new' or 'join <gameId>'")
  else
    let parsed : Int × Option Error :=
      match args with
      | [] => (1, none)
      | a :: _ =>
        match strconv.Atoi a with
        | (_, some _) => (0, some ("invalid count: " ++ a))
        | (count, none) => (count, none)
    match parsed with
    | (_, some err) => (w, some err)
    | (count, none) =>
      let (w, r) := api.Client.UndoMoves svc w gameID count
      match r with
      | .error err => (w, some err)
      | .ok resp =>
        let s := w.s
        let s := s.SetLastMoveCount (resp.Moves.length : Int)
        let s := s.SetGameState resp
        let w := { w with s := s }
        let w := display.Println w display.Green ("Undid " ++ toString count ++ " move(s)")
        (w, none)

end command

/-! ## `client/display/board.go` -/

namespace display

/-- The Go function `strings.Split` with the separator `"\n"`. -/
def splitLines : List Char → List Char → List String
  | [], cur => [String.mk cur]
  | c :: cs, cur =>
    if c.toNat = 10 then String.mk cur :: splitLines cs [] else splitLines cs (cur ++ [c])

/-- The colour `RenderBoard` gives one character. -/
def renderChar (isRankLine : Bool) (char : Char) : String :=
  let n := char.toNat
  if 97 ≤ n ∧ n ≤ 104 ∧ isRankLine then C Cyan (String.singleton char)
  else if 65 ≤ n ∧ n ≤ 90 then C Blue (String.singleton char)
  else if 97 ≤ n ∧ n ≤ 122 ∧ ¬ isRankLine then C Red (String.singleton char)
  else if n = 46 then C White "."
  else if 49 ≤ n ∧ n ≤ 56 then C Cyan (String.singleton char)
  else if n = 32 then C Reset " "
  else C Reset (String.singleton char)

/-- The loop of `RenderBoard` over the lines, from line number `i`. -/
def renderLines (w : World) : Nat → List String → World
  | _, [] => w
  | i, line :: rest =>
    if strings.TrimSpace line = "" then renderLines w (i + 1) rest
    else
      let isRankLine := (i == 0) || (i == 9)
      let w := line.data.foldl (fun w char => w.print (renderChar isRankLine char)) w
      let w := w.print "\n"
      renderLines w (i + 1) rest

/-- The function `RenderBoard`: renders an ASCII board with coloured pieces. -/
def RenderBoard (w : World) (asciiBoard : String) : World :=
  renderLines w 0 (splitLines asciiBoard.data [])

/-- The function `ColorForTurn`. -/
def ColorForTurn (turn : String) : String :=
  if turn = "w" then Blue ++ "White" ++ Reset else Red ++ "Black" ++ Reset

end display

namespace command

/-- The history loop of `showBoardHandler`, from move number `i`. -/
def printHistory (w : World) : Nat → List String → World
  | _, [] => w
  | i, move :: rest =>
    let w := if i > 0 then w.print " " else w
    let w :=
      if i % 2 = 0 then w.print (toString (i / 2 + 1) ++ "." ++ move)
      else w.print (" " ++ move)
    printHistory w (i + 1) rest

def showBoardHandler (svc : Service) (w : World) (_args : List String) : World × Option Error :=
  let gameID := w.s.GetCurrentGame
  if gameID = "" then (w, some "no current game, use 'new' or 'join <gameId>'")
  else
    let (w, r) := api.Client.GetGame svc w gameID
    match r with
    | .error err => (w, some err)
    | .ok game =>
      let (w, rb) := api.Client.GetBoard svc w gameID
      match rb with
      | .error err => (w, some err)
      | .ok board =>
        let s := w.s
        let s := s.SetLastMoveCount (game.Moves.length : Int)
        let s := s.SetGameState game
        let w := { w with s := s }
        let w := w.print "\n"
        let w := display.RenderBoard w board.Board
        let w := w.print ("\nFEN: " ++ game.FEN ++ "\n")
        let w := w.print ("Turn: " ++ display.ColorForTurn game.Turn ++ " | State: "
          ++ game.State ++ " | Moves: " ++ toString (game.Moves.length : Int) ++ "\n")
        let w :=
          if game.Moves.length > 0 then
            let w := w.print "\nHistory: "
            let w := printHistory w 0 game.Moves
            w.print "\n"
          else w
        let w :=
          match game.LastMove with
          | some lastMove =>
            let color := if lastMove.PlayerColor = "b" then "Black" else "White"
            let w := w.print ("Last move: " ++ lastMove.Move ++ " by " ++ color)
            let w :=
              if lastMove.Depth > 0 then
                w.print (" (depth " ++ toString lastMove.Depth ++ ", score "
                  ++ toString lastMove.Score ++ ")")
              else w
            w.print "\n"
          | none => w
        (w, none)

def pollHandler (svc : Service) (w : World) (_args : List String) : World × Option Error :=
  let gameID := w.s.GetCurrentGame
  if gameID = "" then (w, some "no current game, use 'new' or 'join <gameId>'")
  else
    let moveCount := w.s.GetLastMoveCount
    let w := display.Println w display.Cyan
      ("Long-polling for updates (move count: " ++ toString moveCount ++ ")...")
    let w := display.Println w display.Cyan "This may take up to 25 seconds"
    let (w, r) := api.Client.GetGameWithPoll svc w gameID moveCount
    match r with
    | .error err => (w, some err)
    | .ok resp =>
      let s := w.s
      let s := s.SetLastMoveCount (resp.Moves.length : Int)
      let s := s.SetGameState resp
      let w := { w with s := s }
      let w :=
        if (resp.Moves.length : Int) > moveCount then
          let w := display.Println w display.Green "Game updated! New moves detected"
          match resp.LastMove with
          | some lastMove => w.print ("Last move: " ++ lastMove.Move ++ "\n")
          | none => w
        else display.Println w display.Yellow "No updates (timeout)"
      (w, none)

/-! ## `client/command/auth.go` -/

/-- The function `readPassword` (`pass_native.go`): print the prompt and read a line
from the terminal without echo. -/
def readPassword (svc : Service) (w : World) (prompt : String) : World × Except Error String :=
  let w := w.print prompt
  let r := svc.ReadPassword w.calls
  let w := { w with calls := w.calls + 1, events := w.events ++ [Event.readPassword prompt] }
  let w := w.print "\n"
  (w, r)

def registerHandler (svc : Service) (w : World) (_args : List String) : World × Option Error :=
  let w := display.Print w display.Yellow "Username: "
  let (w, line) := w.scan
  let username := strings.TrimSpace line
  let (w, rp) := readPassword svc w (display.Yellow ++ "Password: " ++ display.Reset)
  match rp with
  | .error err => (w, some err)
  | .ok password =>
    let w := display.Print w display.Yellow "Email (optional): "
    let (w, line) := w.scan
    let email := strings.TrimSpace line
    let (w, r) := api.Client.Register svc w username password email
    match r with
    | .error err => (w, some err)
    | .ok resp =>
      let s := w.s
      let s := s.SetAuthToken resp.Token
      let s := s.SetCurrentUser resp.UserID
      let s := s.SetUsername resp.Username
      let s := { s with Client := s.Client.SetToken resp.Token }
      let w := { w with s := s }
      let w := display.Println w display.Green "Registered successfully"
      let w := w.print ("User ID: " ++ resp.UserID ++ "\n")
      let w := w.print ("Username: " ++ resp.Username ++ "\n")
      (w, none)

def loginHandler (svc : Service) (w : World) (_args : List String) : World × Option Error :=
  let w := display.Print w display.Yellow "Username or Email: "
  let (w, line) := w.scan
  let identifier := strings.TrimSpace line
  let (w, rp) := readPassword svc w (display.Yellow ++ "Password: " ++ display.Reset)
  match rp with
  | .error err => (w, some err)
  | .ok password =>
    let (w, r) := api.Client.Login svc w identifier password
    match r with
    | .error err => (w, some err)
    | .ok resp =>
      let s := w.s
      let s := s.SetAuthToken resp.Token
      let s := s.SetCurrentUser resp.UserID
      let s := s.SetUsername resp.Username
      let s := { s with Client := s.Client.SetToken resp.Token }
      let w := { w with s := s }
      let w := display.Println w display.Green "Logged in successfully"
      let w := w.print ("User ID: " ++ resp.UserID ++ "\n")
      let w := w.print ("Username: " ++ resp.Username ++ "\n")
      (w, none)

def logoutHandler (_svc : Service) (w : World) (_args : List String) : World × Option Error :=
  let s := w.s
  let s := s.SetAuthToken ""
  let s := s.SetCurrentUser ""
  let s := s.SetUsername ""
  let s := { s with Client := s.Client.SetToken "" }
  let w := { w with s := s }
  let w := display.Println w display.Green "Logged out"
  (w, none)

def setUserHandler (_svc : Service) (w : World) (args : List String) : World × Option Error :=
  match args with
  | [] => (w, some "usage: user <userId>")
  | userID :: _ =>
    let w := { w with s := w.s.SetCurrentUser userID }
    let w := display.Println w display.Cyan ("User ID set to: " ++ userID)
    let w := w.print "Note: This doesn't authenticate, just sets the ID for display\n"
    (w, none)

def whoamiHandler (svc : Service) (w : World) (_args : List String) : World × Option Error :=
  if w.s.GetAuthToken = "" then
    (display.Println w display.Yellow "Not authenticated", none)
  else
    let (w, r) := api.Client.GetCurrentUser svc w
    match r with
    | .error err => (w, some err)
    | .ok user =>
      let w := display.Println w display.Cyan "Current User:"
      let w := w.print ("  User ID:  " ++ user.UserID ++ "\n")
      let w := w.print ("  Username: " ++ user.Username ++ "\n")
      let w := if user.Email ≠ "" then w.print ("  Email:    " ++ user.Email ++ "\n") else w
      let w := w.print ("  Created:  " ++ svc.formatTime user.CreatedAt ++ "\n")
      let w :=
        match user.LastLogin with
        | some t => w.print ("  Last Login: " ++ svc.formatTime t ++ "\n")
        | none => w
      (w, none)

/-! ## `client/command/game.go`, continued -/

def gameStateHandler (svc : Service) (w : World) (_args : List String) : World × Option Error :=
  let gameID := w.s.GetCurrentGame
  if gameID = "" then (w, some "no current game, use 'new' or 'join <gameId>'")
  else
    let (w, r) := api.Client.GetGame svc w gameID
    match r with
    | .error err => (w, some err)
    | .ok resp =>
      let w := { w with s := w.s.SetLastMoveCount (resp.Moves.length : Int) }
      let w := display.Println w display.Cyan "Game State:"
      let w := w.print (svc.marshalIndent resp ++ "\n")
      (w, none)

def deleteGameHandler (svc : Service) (w : World) (args : List String) : World × Option Error :=
  let gameID := w.s.GetCurrentGame
  let gameID := match args with
    | [] => gameID
    | a :: _ => a
  if gameID = "" then (w, some "specify game ID or set current game")
  else
    let (w, r) := api.Client.DeleteGame svc w gameID
    match r with
    | some err => (w, some err)
    | none =>
      let w :=
        if gameID = w.s.GetCurrentGame then
          { w with s := (w.s.SetCurrentGame "").SetLastMoveCount 0 }
        else w
      let w := w.print (display.Green ++ "Game deleted: " ++ gameID ++ display.Reset ++ "\n")
      (w, none)

/-! ## `client/command/debug.go` -/

def healthHandler (svc : Service) (w : World) (_args : List String) : World × Option Error :=
  let (w, r) := api.Client.Health svc w
  match r with
  | .error err => (w, some err)
  | .ok resp =>
    let w := display.Println w display.Cyan "Server Health:"
    let w := w.print ("  Status:  " ++ resp.Status ++ "\n")
    let w := w.print ("  Time:    " ++ svc.formatTime resp.Time ++ "\n")
    let w := if resp.Storage ≠ "" then w.print ("  Storage: " ++ resp.Storage ++ "\n") else w
    (w, none)

def urlHandler (_svc : Service) (w : World) (args : List String) : World × Option Error :=
  match args with
  | [] => (w.print ("Current API URL: " ++ w.s.GetAPIBaseURL ++ "\n"), none)
  | a :: _ =>
    let url :=
      if !(strings.HasPrefix a "http://") && !(strings.HasPrefix a "https://") then "http://" ++ a
      else a
    let s := w.s.SetAPIBaseURL url
    let s := { s with Client := s.Client.SetBaseURL url }
    let w := { w with s := s }
    let w := display.Println w display.Cyan ("API URL set to: " ++ url)
    (w, none)

def rawRequestHandler (svc : Service) (w : World) (args : List String) : World × Option Error :=
  match args with
  | a0 :: a1 :: rest =>
    let method := strings.ToUpper a0
    let path := a1
    let body := if rest.length > 0 then strings.Join rest " " else ""
    api.Client.RawRequest svc w method path body
  | _ => (w, some "usage: raw <method> <path> [json-body]")

/-! ## `client/command/registry.go`: help, exit and `Execute` -/

/-- The format verb `%-10s`: left-justified in a field of ten characters. -/
def padRight10 (s : String) : String :=
  s ++ String.mk (List.replicate (10 - s.length) (Char.ofNat 32))

/-- The closure `printCommandGroup` of `helpHandler`. -/
def printCommandGroup (r : Registry) (w : World) (title : String)
    (cmds : List (String × String)) : World :=
  let w := display.Println w display.Yellow (title ++ ":")
  let w := cmds.foldl (fun w info =>
    match r.get info.1 with
    | some cmd =>
      let shortPart :=
        if info.2 ≠ "" then "[" ++ display.Cyan ++ info.2 ++ display.Reset ++ "] " else ""
      w.print ("  " ++ shortPart ++ padRight10 cmd.Name ++ " " ++ cmd.Description ++ "\n")
    | none => w) w
  w.print "\n"

def helpHandler (r : Registry) (w : World) (args : List String) : World × Option Error :=
  match args with
  | a :: _ =>
    match r.get a with
    | none => (w, some ("unknown command: " ++ a))
    | some cmd =>
      let w := w.print "\n"
      let w := display.Print w display.Cyan cmd.Name
      let w := display.Println w display.Reset (" - " ++ cmd.Description)
      let w :=
        if cmd.ShortName ≠ "" then display.Println w display.Cyan ("Short form: " ++ cmd.ShortName)
        else w
      let w := w.print ("Usage: " ++ cmd.Usage ++ "\n")
      (w, none)
  | [] =>
    let w := display.Println w display.Cyan "\nAvailable Commands:\n"
    let w := printCommandGroup r w "Game Commands"
      [("new", "n"), ("join", "j"), ("move", "m"), ("computer", "c"), ("undo", "u"),
       ("show", "h"), ("state", "s"), ("delete", "d"), ("poll", "p")]
    let w := printCommandGroup r w "Auth Commands"
      [("register", "r"), ("login", "l"), ("logout", "o"), ("whoami", "i"), ("user", "e")]
    let w := printCommandGroup r w "Utility Commands"
      [("health", "."), ("url", "/"), ("raw", ":"), ("help", "?"), ("exit", "x")]
    let w := display.Println w display.Reset "Type 'help <command>' for detailed usage"
    let w := display.Println w display.Reset "Add '-v' to any command for verbose output\n"
    (w, none)

def exitHandler (w : World) (_args : List String) : World × Option Error :=
  (display.Println w display.Cyan "Goodbye!\n", none)

/-- The function a handler name denotes; `helpHandler` is the method value
`r.helpHandler` and reads the registry it is registered in. -/
def runHandler (r : Registry) (svc : Service) : Handler → World → List String → World × Option Error
  | .newGameHandler => newGameHandler svc
  | .joinGameHandler => joinGameHandler svc
  | .moveHandler => moveHandler svc
  | .computerMoveHandler => computerMoveHandler svc
  | .undoHandler => undoHandler svc
  | .showBoardHandler => showBoardHandler svc
  | .gameStateHandler => gameStateHandler svc
  | .deleteGameHandler => deleteGameHandler svc
  | .pollHandler => pollHandler svc
  | .registerHandler => registerHandler svc
  | .loginHandler => loginHandler svc
  | .logoutHandler => logoutHandler svc
  | .whoamiHandler => whoamiHandler svc
  | .setUserHandler => setUserHandler svc
  | .healthHandler => healthHandler svc
  | .urlHandler => urlHandler svc
  | .rawRequestHandler => rawRequestHandler svc
  | .helpHandler => helpHandler r
  | .exitHandler => exitHandler

/-- The method `Registry.Execute`. -/
def Registry.Execute (r : Registry) (svc : Service) (w : World) (input : String) : World :=
  match r.dispatch input with
  | .empty => w
  | .unknown cmdName =>
    let w := display.Println w display.Red ("Unknown command: " ++ cmdName)
    display.Println w display.Reset "Type 'help' for available commands"
  | .invoke cmd args =>
    let w := { w with s := { w.s with Client := w.s.Client.SetVerbose w.s.IsVerbose } }
    match runHandler r svc cmd.Handler w args with
    | (w, some err) => display.Println w display.Red ("Error: " ++ err)
    | (w, none) => w

end command

open command

/-! ## `chess-client-cli/main.go`: the prompt

`buildPrompt` slices the game id by bytes, so the prompt is built as the bytes of the
Go string: `utf8` is the UTF-8 encoding Go strings carry. -/

/-- The UTF-8 bytes of one character. -/
def utf8Char (c : Char) : List Nat :=
  let n := c.toNat
  if n < 128 then [n]
  else if n < 2048 then [192 + n / 64, 128 + n % 64]
  else if n < 65536 then [224 + n / 4096, 128 + n / 64 % 64, 128 + n % 64]
  else [240 + n / 262144, 128 + n / 4096 % 64, 128 + n / 64 % 64, 128 + n % 64]

/-- The bytes of a Go string. -/
def utf8 (s : String) : List Nat :=
  s.data.flatMap utf8Char

/-- The slice expression `s[:n]` on the bytes of a string: `none` is the run-time panic
`slice bounds out of range`, raised when `n` exceeds the length. -/
def sliceTo (s : List Nat) (n : Nat) : Option (List Nat) :=
  if n ≤ s.length then some (s.take n) else none

namespace display

/-- Build creates a multi-colored string; the parts are kept as bytes. -/
structure Builder where
  parts : List (List Nat)
deriving DecidableEq, Repr

/-- The method `Builder.Add`: appends `C(color, text)`. -/
def Builder.Add (b : Builder) (color : String) (text : List Nat) : Builder :=
  { parts := b.parts ++ [utf8 color ++ text ++ utf8 Reset] }

/-- The method `Builder.String`: `strings.Join(b.parts, "")`. -/
def Builder.String (b : Builder) : List Nat :=
  b.parts.flatten

/-- Prompt returns a colored prompt string. -/
def Prompt (text : List Nat) : List Nat :=
  utf8 Yellow ++ text ++ utf8 Yellow ++ utf8 " > " ++ utf8 Reset

end display

/-- The part of `buildPrompt` after the game id: the player colour and the turn. -/
def promptColorAndTurn (s : Session) (b : display.Builder) : display.Builder :=
  let b :=
    if s.CurrentGameState ≠ none ∧ s.PlayerColor ≠ "" then
      if s.PlayerColor = "w" then (b.Add "" (utf8 " ")).Add display.Blue (utf8 "White")
      else (b.Add "" (utf8 " ")).Add display.Red (utf8 "Black")
    else b
  match s.CurrentGameState with
  | some state =>
    let turnInfo := " - Turn:"
    if state.Turn = "w" then
      let playerType := if state.Players.White.Type_ = 2 then "c" else "h"
      ((b.Add "" (utf8 turnInfo)).Add display.Blue (utf8 "White")).Add ""
        (utf8 ("(" ++ playerType ++ ")"))
    else
      let playerType := if state.Players.Black.Type_ = 2 then "c" else "h"
      ((b.Add "" (utf8 turnInfo)).Add display.Red (utf8 "Black")).Add ""
        (utf8 ("(" ++ playerType ++ ")"))
  | none => b

/-- The function `buildPrompt`: the bytes of the prompt, `none` when the slice
`s.CurrentGame[:8]` panics. -/
def buildPrompt (s : Session) : Option (List Nat) :=
  let b : display.Builder := { parts := [] }
  let b := b.Add "" (utf8 "chess")
  let b :=
    if s.Username ≠ "" then
      let b := (b.Add "" (utf8 " [")).Add display.Magenta (utf8 s.Username)
      if s.CurrentGame ≠ "" then b.Add display.Yellow (utf8 " - ") else b.Add "" (utf8 "]")
    else b
  if s.CurrentGame ≠ "" then
    let b := if s.Username = "" then b.Add "" (utf8 " [") else b
    match sliceTo (utf8 s.CurrentGame) 8 with
    | none => none
    | some id8 =>
      let b := b.Add display.White id8
      let b := b.Add "" (utf8 "]")
      some (display.Prompt (promptColorAndTurn s b).String)
  else
    some (display.Prompt (promptColorAndTurn s b).String)

/-! ## Vocabulary of the statements -/


/-- What alias equivalence needs of one command: its name and its alias hold no white
space, the name is not empty, and the registry maps both keys to the command itself. -/
def aliasOK (cmd : Command) : Prop :=
  cmd.Name ≠ "" ∧ (∀ c ∈ cmd.Name.data, unicode.IsSpace c = false) ∧
  (∀ c ∈ cmd.ShortName.data, unicode.IsSpace c = false) ∧
  NewRegistry.get cmd.Name = some cmd ∧
  (cmd.ShortName ≠ "" → NewRegistry.get cmd.ShortName = some cmd)

instance (cmd : Command) : Decidable (aliasOK cmd) := by
  unfold aliasOK; infer_instance

/-- A fetch that leaves the polling loop running: a failed fetch, or state `pending`. -/
def stillWaiting (r : Except Error api.GameResponse) : Prop :=
  match r with
  | .ok resp => resp.State = "pending"
  | .error _ => True

instance (r : Except Error api.GameResponse) : Decidable (stillWaiting r) := by
  unfold stillWaiting; cases r <;> infer_instance

/-- The effects of `n` rounds of the polling loop: a sleep, then a fetch. -/
def pollTrace (gameID : String) (n : Nat) : List Event :=
  (List.replicate n [Event.sleep 200, Event.call (.GetGame gameID)]).flatten

/-- Number of `GetGame` round trips in a trace. -/
def fetchCount : List Event → Nat
  | [] => 0
  | .call (.GetGame _) :: es => fetchCount es + 1
  | _ :: es => fetchCount es

/-- Total time slept in a trace, in milliseconds. -/
def sleepTotal : List Event → Nat
  | [] => 0
  | .sleep ms :: es => ms + sleepTotal es
  | _ :: es => sleepTotal es

/-- The round trips of a trace, in order. -/
def callsOf : List Event → List api.Request
  | [] => []
  | .call req :: es => req :: callsOf es
  | _ :: es => callsOf es

/-- The notification `pollHandler` prints when new moves have arrived. -/
def updateNotice : Event :=
  .print (display.C display.Green "Game updated! New moves detected" ++ "\n")

/-- The notification `pollHandler` prints when nothing has arrived. -/
def noUpdateNotice : Event :=
  .print (display.C display.Yellow "No updates (timeout)" ++ "\n")

/-- The two lines `pollHandler` prints before the request. -/
def pollBanner (moveCount : Int) : List Event :=
  [ .print (display.C display.Cyan
      ("Long-polling for updates (move count: " ++ toString moveCount ++ ")...") ++ "\n"),
    .print (display.C display.Cyan "This may take up to 25 seconds" ++ "\n") ]

/-- The line both move handlers print on checkmate, for the side to move `turn`. -/
def checkmateNotice (turn : String) : Event :=
  .print (display.C display.Green
    ("\nCHECKMATE! " ++ (if turn = "b" then "White" else "Black") ++ " wins!") ++ "\n")

/-- The derivation rule for `playerColor` as the specification words it: unset when
`currentUser` is empty; otherwise white when `currentUser` is the white player id, else
black when it is the black player id, else unset. -/
def specPlayerColor (currentUser : String) (snapshot : api.GameResponse) : String :=
  if currentUser = "" then ""
  else if currentUser = snapshot.Players.White.ID then "w"
  else if currentUser = snapshot.Players.Black.ID then "b"
  else ""

/-! ## Concrete sessions and services -/


namespace Sample

def client : api.Client :=
  { BaseURL := "http://localhost:8080", AuthToken := "", Verbose := false }

/-- The session `runClient` starts with. -/
def initial : Session :=
  { APIBaseURL := "http://localhost:8080", CurrentGame := "", CurrentUser := "", AuthToken := "",
    Username := "", LastMoveCount := 0, Client := client, Verbose := false,
    CurrentGameState := none, PlayerColor := "" }

/-- Game `g1`: user `u1` plays White against the computer. -/
def game (state turn : String) (moves : List String) (lastMove : Option api.MoveInfo) :
    api.GameResponse :=
  { GameID := "g1", FEN := "", Turn := turn, State := state, Moves := moves,
    Players := { White := { ID := "u1", Type_ := 1, Level := 0, SearchTime := 0 },
                 Black := { ID := "cpu", Type_ := 2, Level := 10, SearchTime := 1000 } },
    LastMove := lastMove }

/-- The game as created: White to move. -/
def fresh : api.GameResponse :=
  game "ongoing" "w" [] none

/-- After `e2e4` by White: Black (the computer) to move. -/
def afterE4 : api.GameResponse :=
  game "ongoing" "b" ["e2e4"] (some { Move := "e2e4", PlayerColor := "w", Score := 0, Depth := 0 })

/-- The same position while the computer is thinking. -/
def thinking : api.GameResponse :=
  game "pending" "b" ["e2e4"] (some { Move := "e2e4", PlayerColor := "w", Score := 0, Depth := 0 })

/-- After the reply `e7e5` of the computer. -/
def afterE5 : api.GameResponse :=
  game "ongoing" "w" ["e2e4", "e7e5"]
    (some { Move := "e7e5", PlayerColor := "b", Score := 12, Depth := 8 })

/-- White has just mated: Black is to move and has none. -/
def matedByWhite : api.GameResponse :=
  game "checkmate" "b" ["e2e4", "e7e5", "d1h5", "b8c6", "f1c4", "g8f6", "h5f7"]
    (some { Move := "h5f7", PlayerColor := "w", Score := 0, Depth := 0 })

/-- Black (the computer) has just mated: White is to move and has none. -/
def matedByBlack : api.GameResponse :=
  game "checkmate" "w" ["f2f3", "e7e5", "g2g4", "d8h4"]
    (some { Move := "d8h4", PlayerColor := "b", Score := 0, Depth := 6 })

/-- User `u1` in game `g1` after `e2e4`. -/
def inGame : Session :=
  { initial with CurrentGame := "g1", CurrentUser := "u1", Username := "ann", AuthToken := "t1",
                 Client := { client with AuthToken := "t1" },
                 LastMoveCount := 1, CurrentGameState := some afterE4, PlayerColor := "w" }

/-- The session `inGame` after `logout`: no user, the colour still set. -/
def loggedOut : Session :=
  { inGame with CurrentUser := "", Username := "", AuthToken := "", Client := client }

/-- The session `inGame` after `user u2`: a user who plays neither side, the colour still
set. -/
def stranger : Session :=
  { inGame with CurrentUser := "u2" }

/-- User `u1` logged in after joining `g1` anonymously: no colour was derived. -/
def uncoloured : Session :=
  { inGame with LastMoveCount := 0, CurrentGameState := some fresh, PlayerColor := "" }

def world (s : Session) (stdin : List String) : World :=
  { s := s, stdin := stdin, calls := 0, events := [] }

/-- A service that cannot be reached. -/
def down : Service :=
  { Health := fun _ => .error "connection refused"
    CreateGame := fun _ _ => .error "connection refused"
    GetGame := fun _ _ => .error "connection refused"
    GetGameWithPoll := fun _ _ _ => .error "connection refused"
    DeleteGame := fun _ _ => some "connection refused"
    MakeMove := fun _ _ _ => .error "connection refused"
    UndoMoves := fun _ _ _ => .error "connection refused"
    GetBoard := fun _ _ => .error "connection refused"
    Register := fun _ _ _ _ => .error "connection refused"
    Login := fun _ _ _ => .error "connection refused"
    GetCurrentUser := fun _ => .error "connection refused"
    RawRequest := fun _ _ _ _ => some "connection refused"
    ReadPassword := fun _ => .ok "secret"
    formatTime := fun _ => "1970-01-01 00:00:00"
    marshalIndent := fun _ => "{}" }

/-- A service whose every game answer is `g`. -/
def always (g : api.GameResponse) : Service :=
  { down with
    CreateGame := fun _ _ => .ok g
    GetGame := fun _ _ => .ok g
    GetGameWithPoll := fun _ _ _ => .ok g
    MakeMove := fun _ _ _ => .ok g
    UndoMoves := fun _ _ _ => .ok g }

/-- A service that answers `thinking` to the first `n` requests and `g` from then on. -/
def thinkingThen (n : Nat) (g : api.GameResponse) : Service :=
  { down with
    GetGame := fun i _ => if i < n then .ok thinking else .ok g
    MakeMove := fun i _ _ => if i < n then .ok thinking else .ok g }

end Sample

/-! ## Vocabulary of the later statements -/

/-- The text of a decimal integer: an optional sign followed by at least one digit. -/
def integerText (a : String) : Bool :=
  let cs := a.data
  let ds := if cs.head? == some (Char.ofNat 43) || cs.head? == some (Char.ofNat 45) then cs.tail
            else cs
  !ds.isEmpty && ds.all Char.isDigit

/-- The request `newGameHandler` sends: what it reads from standard input in world `w`. -/
def newGameRequest (w : World) : api.CreateGameRequest :=
  let white := askPlayer (display.Println w display.Cyan "\nCreating new game...")
    "White player type (h/c) [h]: "
  let black := askPlayer white.1 "Black player type (h/c) [h]: "
  { White := white.2, Black := black.2,
    FEN := strings.TrimSpace
      (display.Print black.1 display.Yellow "Starting position (FEN) [default]: ").scan.2 }

/-- The count `undoHandler` sends for its arguments, when it sends one: `1` without an
argument, else the first argument read by `strconv.Atoi`. -/
def undoCount (args : List String) : Option Int :=
  match args with
  | [] => some 1
  | a :: _ => if (strconv.Atoi a).2 = none then some (strconv.Atoi a).1 else none

/-- The game `deleteGameHandler` deletes: the first argument, else the current game. -/
def deleteTarget (s : Session) (args : List String) : String :=
  match args with
  | [] => s.CurrentGame
  | a :: _ => a

/-- The session invariant of the move count: a held snapshot has `LastMoveCount` moves. -/
def moveCountInSync (s : Session) : Prop :=
  match s.CurrentGameState with
  | none => True
  | some snapshot => s.LastMoveCount = (snapshot.Moves.length : Int)

instance (s : Session) : Decidable (moveCountInSync s) := by
  unfold moveCountInSync; cases s.CurrentGameState <;> infer_instance

/-- The session invariant of the game context: a held snapshot is the current game. -/
def snapshotBelongs (s : Session) : Prop :=
  match s.CurrentGameState with
  | none => True
  | some snapshot => snapshot.GameID = s.CurrentGame

instance (s : Session) : Decidable (snapshotBelongs s) := by
  unfold snapshotBelongs; cases s.CurrentGameState <;> infer_instance

/-- The assumption of the game-context invariant: the service answers each request for
the game of an id with a game of that id. -/
def answersRequestedId (svc : Service) : Prop :=
  (∀ n id resp, svc.GetGame n id = .ok resp → resp.GameID = id) ∧
  (∀ n id count resp, svc.GetGameWithPoll n id count = .ok resp → resp.GameID = id) ∧
  (∀ n id move resp, svc.MakeMove n id move = .ok resp → resp.GameID = id) ∧
  (∀ n id count resp, svc.UndoMoves n id count = .ok resp → resp.GameID = id)

/-- The line announcing a stalemate. -/
def stalemateNotice : Event :=
  .print (display.C display.Yellow "\nSTALEMATE! Game drawn." ++ "\n")

/-- The line announcing a draw. -/
def drawNotice : Event :=
  .print (display.C display.Yellow "\nDRAW! Game drawn." ++ "\n")

/-- The advisory line asking the user to let the computer move. -/
def promptToActNotice : Event :=
  .print (display.C display.Magenta
    "\nComputer's turn. Use 'computer' or 'c' to trigger move." ++ "\n")

/-- The classification of a state as the specification words it: checkmate announces
the winner, stalemate and draw a drawn game, ongoing with a computer-type player to move
the prompt to act; nothing otherwise. -/
def specClassification (snapshot : api.GameResponse) : List Event :=
  if snapshot.State = "checkmate" then [checkmateNotice snapshot.Turn]
  else if snapshot.State = "stalemate" then [stalemateNotice]
  else if snapshot.State = "draw" then [drawNotice]
  else if snapshot.State = "ongoing" then
    if (snapshot.Turn = "w" ∧ snapshot.Players.White.Type_ = 2) ∨
       (snapshot.Turn = "b" ∧ snapshot.Players.Black.Type_ = 2) then [promptToActNotice]
    else []
  else []

/-- The announcements of the end of a game only: the classification without the prompt
to act. -/
def gameEndNotes (snapshot : api.GameResponse) : List Event :=
  if snapshot.State = "checkmate" then [checkmateNotice snapshot.Turn]
  else if snapshot.State = "stalemate" then [stalemateNotice]
  else if snapshot.State = "draw" then [drawNotice]
  else []

/-- The report of the move the computer played, printed by the polling loop. -/
def computerPlayedNotes (snapshot : api.GameResponse) : List Event :=
  match snapshot.LastMove with
  | some lastMove =>
    [Event.print (display.C display.Magenta ("Computer played: " ++ lastMove.Move))]
    ++ (if lastMove.Depth > 0 then
          [Event.print (" (depth " ++ toString lastMove.Depth ++ ", score "
            ++ toString lastMove.Score ++ ")")]
        else [])
    ++ [Event.print "\n"]
  | none => []

namespace Sample

/-- A service that answers every game request number `i` with entry `i` of `answers`,
accepts every deletion, and fails past the end of the list. -/
def scripted (answers : List (Except Error api.GameResponse)) : Service :=
  { down with
    CreateGame := fun i _ => answers.getD i (.error "connection refused")
    GetGame := fun i _ => answers.getD i (.error "connection refused")
    GetGameWithPoll := fun i _ _ => answers.getD i (.error "connection refused")
    MakeMove := fun i _ _ => answers.getD i (.error "connection refused")
    UndoMoves := fun i _ _ => answers.getD i (.error "connection refused")
    DeleteGame := fun _ _ => none }

/-- A service that answers every request for the game of an id with the position after
1. e4 under that id. -/
def faithful : Service :=
  { down with
    GetGame := fun _ id => .ok { afterE4 with GameID := id }
    GetGameWithPoll := fun _ id _ => .ok { afterE4 with GameID := id }
    MakeMove := fun _ id _ => .ok { afterE4 with GameID := id }
    UndoMoves := fun _ id _ => .ok { afterE4 with GameID := id } }

/-- Game `g2`: computer against computer. -/
def computers (state turn : String) (moves : List String) (lastMove : Option api.MoveInfo) :
    api.GameResponse :=
  { GameID := "g2", FEN := "", Turn := turn, State := state, Moves := moves,
    Players := { White := { ID := "cpu1", Type_ := 2, Level := 5, SearchTime := 500 },
                 Black := { ID := "cpu2", Type_ := 2, Level := 5, SearchTime := 500 } },
    LastMove := lastMove }

/-- Game `g2` while the white computer is thinking about its first move. -/
def computersThinking : api.GameResponse :=
  computers "pending" "w" [] none

/-- Game `g2` after the first move of White: state `ongoing`, the black computer to
move. -/
def computersGame : api.GameResponse :=
  computers "ongoing" "b" ["e2e4"]
    (some { Move := "e2e4", PlayerColor := "w", Score := 20, Depth := 6 })

/-- A spectator of game `g2`, as joined before the first move. -/
def watching : Session :=
  { initial with CurrentGame := "g2", CurrentGameState := some (computers "ongoing" "w" [] none) }

/-- A game whose id has three bytes. -/
def shortIdGame : api.GameResponse :=
  { fresh with GameID := "abc" }

/-- A game whose id is a UUID, as created. -/
def uuidGame : api.GameResponse :=
  { fresh with GameID := "6f1d2c3b-aaaa-4bbb-8ccc-dddddddddddd" }

/-- A session answering `AuthResponse` for user `u1`. -/
def authOK : api.AuthResponse :=
  { Token := "t1", UserID := "u1", Username := "ann" }

/-- The service `down` with a working login and registration. -/
def authService : Service :=
  { down with
    Register := fun _ _ _ _ => .ok authOK
    Login := fun _ _ _ => .ok authOK }

/-- The service of the runs below: the first game request is answered with the game
after `e2e4`, the second with the game after `e2e4 e7e5`; deletions succeed. -/
def moving : Service :=
  scripted [.ok afterE4, .ok afterE5]

/-- The world after `join g1`, typed in the initial session. -/
def joined : World :=
  NewRegistry.Execute moving (world initial []) "join g1"

/-- The world after `join g1` and `state`. -/
def joinedThenState : World :=
  NewRegistry.Execute moving joined "state"

/-- The world after `join g1` and `delete`. -/
def joinedThenDeleted : World :=
  NewRegistry.Execute moving joined "delete"

/-- The world after `user u1`, `join g1` and `delete`. -/
def userJoinedThenDeleted : World :=
  NewRegistry.Execute (scripted [.ok afterE4])
    (NewRegistry.Execute (scripted [.ok afterE4])
      (NewRegistry.Execute (scripted [.ok afterE4]) (world initial []) "user u1")
      "join g1")
    "delete"

/-- The world after `join abc`, answered with the game of id `abc`. -/
def joinedShortId : World :=
  NewRegistry.Execute (always shortIdGame) (world initial []) "join abc"

/-- The world after `join 6f1d2c3b-aaaa-4bbb-8ccc-dddddddddddd`. -/
def joinedUuid : World :=
  NewRegistry.Execute (always uuidGame) (world initial [])
    "join 6f1d2c3b-aaaa-4bbb-8ccc-dddddddddddd"

/-- A service whose connection drops while the computer thinks: the trigger move and the
first fetch are answered `pending`, the second fetch fails in transport, the third is
refused by the service, the fourth returns the position after 1... e5. -/
def flaky : Service :=
  scripted [.ok thinking, .ok thinking, .error "connection refused",
    .error "request failed with status 500", .ok afterE5]

end Sample

/-! # Theorems -/

/-! ## Lemmas on the library functions and on the world -/


theorem strings.fieldsAux_word (w rest cur : List Char)
    (hw : ∀ c ∈ w, unicode.IsSpace c = false) (hne : cur ++ w ≠ []) :
    strings.fieldsAux (w ++ Char.ofNat 32 :: rest) cur
      = String.mk (cur ++ w) :: strings.fieldsAux rest [] := by
  induction w generalizing cur with
  | nil =>
    have hcur : cur ≠ [] := by simpa using hne
    have hsp : unicode.IsSpace (Char.ofNat 32) = true := by decide
    simp [strings.fieldsAux, hsp, hcur]
  | cons c cs ih =>
    have hc : unicode.IsSpace c = false := hw c (List.mem_cons_self _ _)
    have hcs : ∀ d ∈ cs, unicode.IsSpace d = false := fun d hd => hw d (List.mem_cons_of_mem _ hd)
    have := ih (cur ++ [c]) hcs (by simp)
    simp [strings.fieldsAux, hc] at this ⊢
    exact this

theorem strings.Fields_word (name args : String)
    (hw : ∀ c ∈ name.data, unicode.IsSpace c = false) (hne : name ≠ "") :
    strings.Fields (name ++ " " ++ args) = name :: strings.Fields args := by
  have hd : name.data ≠ [] := by
    intro h
    apply hne
    cases name
    simp_all
  have : (name ++ " " ++ args).data = name.data ++ Char.ofNat 32 :: args.data := by
    simp [String.data_append]
  unfold strings.Fields
  rw [this, strings.fieldsAux_word name.data args.data [] hw (by simpa using hd)]
  simp

theorem lookup_mem {α : Type} (l : List (String × α)) (k : String) (v : α)
    (h : l.lookup k = some v) : (k, v) ∈ l := by
  induction l with
  | nil => simp at h
  | cons p ps ih =>
    obtain ⟨k', v'⟩ := p
    by_cases hk : k = k'
    · subst hk
      simp [List.lookup] at h
      simp [h]
    · have hb : (k == k') = false := by simpa using hk
      simp [List.lookup, hb] at h
      exact List.mem_cons_of_mem _ (ih h)

theorem World.scan_s (v : World) : v.scan.1.s = v.s := by
  obtain ⟨s, stdin, calls, events⟩ := v
  cases stdin <;> rfl

theorem World.scan_calls (v : World) : v.scan.1.calls = v.calls := by
  obtain ⟨s, stdin, calls, events⟩ := v
  cases stdin <;> rfl

theorem World.scan_events (v : World) : v.scan.1.events = v.events := by
  obtain ⟨s, stdin, calls, events⟩ := v
  cases stdin <;> rfl

theorem World.scan_stdin (v : World) : v.scan.1.stdin = v.stdin.tail := by
  obtain ⟨s, stdin, calls, events⟩ := v
  cases stdin <;> rfl

theorem World.scan_line (v : World) : v.scan.2 = v.stdin.head?.getD "" := by
  obtain ⟨s, stdin, calls, events⟩ := v
  cases stdin <;> rfl

theorem fetchCount_append (xs ys : List Event) :
    fetchCount (xs ++ ys) = fetchCount xs + fetchCount ys := by
  induction xs with
  | nil => simp [fetchCount]
  | cons e es ih =>
    cases e with
    | call req =>
      cases req
      all_goals simp [fetchCount, ih]
      all_goals omega
    | sleep ms => simp [fetchCount, ih]
    | print t => simp [fetchCount, ih]
    | readPassword p => simp [fetchCount, ih]

theorem sleepTotal_append (xs ys : List Event) :
    sleepTotal (xs ++ ys) = sleepTotal xs + sleepTotal ys := by
  induction xs with
  | nil => simp [sleepTotal]
  | cons e es ih =>
    cases e with
    | call req => simp [sleepTotal, ih]
    | sleep ms => simp [sleepTotal, ih]; omega
    | print t => simp [sleepTotal, ih]
    | readPassword p => simp [sleepTotal, ih]

theorem callsOf_append (xs ys : List Event) : callsOf (xs ++ ys) = callsOf xs ++ callsOf ys := by
  induction xs with
  | nil => simp [callsOf]
  | cons e es ih => cases e <;> simp [callsOf, ih]

theorem fetchCount_prints (notes : List Event) (h : ∀ e ∈ notes, ∃ text, e = Event.print text) :
    fetchCount notes = 0 := by
  induction notes with
  | nil => rfl
  | cons e es ih =>
    obtain ⟨t, rfl⟩ := h e (List.mem_cons_self _ _)
    simp [fetchCount, ih (fun e he => h e (List.mem_cons_of_mem _ he))]

/-! ## The registry -/


set_option maxRecDepth 100000 in
theorem NewRegistry_aliasOK : ∀ p ∈ NewRegistry.commands, aliasOK p.2 := by
  decide

/-- Claim C1: for every command registered by `NewRegistry` that has a non-empty
`ShortName`, and every argument string `args`, `Execute` on `ShortName ++ " " ++ args` and on
`Name ++ " " ++ args` resolves to the same command and hands its handler the same argument
list, the fields of `args` in order: each run of `Execute` is the run of the handler of that
command on these arguments, from the world whose client has the verbose flag of the session,
followed by the error line when the handler returns an error; hence both runs of `Execute`
end in the same world. -/
theorem execute_alias_same_as_full_name (cmd : Command)
    (hreg : ∃ key, NewRegistry.get key = some cmd) (hshort : cmd.ShortName ≠ "")
    (args : String) :
    NewRegistry.dispatch (cmd.ShortName ++ " " ++ args) = .invoke cmd (strings.Fields args) ∧
    NewRegistry.dispatch (cmd.Name ++ " " ++ args) = .invoke cmd (strings.Fields args) ∧
    (∀ (svc : Service) (w : World),
      NewRegistry.Execute svc w (cmd.ShortName ++ " " ++ args)
        = NewRegistry.Execute svc w (cmd.Name ++ " " ++ args)) ∧
    (∀ (svc : Service) (w : World),
      NewRegistry.Execute svc w (cmd.ShortName ++ " " ++ args)
        = match runHandler NewRegistry svc cmd.Handler
            { w with s := { w.s with Client := w.s.Client.SetVerbose w.s.IsVerbose } }
            (strings.Fields args) with
          | (w', some err) => display.Println w' display.Red ("Error: " ++ err)
          | (w', none) => w') ∧
    (∀ (svc : Service) (w : World),
      NewRegistry.Execute svc w (cmd.Name ++ " " ++ args)
        = match runHandler NewRegistry svc cmd.Handler
            { w with s := { w.s with Client := w.s.Client.SetVerbose w.s.IsVerbose } }
            (strings.Fields args) with
          | (w', some err) => display.Println w' display.Red ("Error: " ++ err)
          | (w', none) => w') := by
  obtain ⟨key, hkey⟩ := hreg
  obtain ⟨hne, hname, hsn, hgetN, hgetS⟩ :=
    NewRegistry_aliasOK (key, cmd) (lookup_mem _ _ _ hkey)
  have h1 : NewRegistry.dispatch (cmd.ShortName ++ " " ++ args)
      = .invoke cmd (strings.Fields args) := by
    simp [Registry.dispatch, strings.Fields_word _ _ hsn hshort, hgetS hshort]
  have h2 : NewRegistry.dispatch (cmd.Name ++ " " ++ args)
      = .invoke cmd (strings.Fields args) := by
    simp [Registry.dispatch, strings.Fields_word _ _ hname hne, hgetN]
  refine ⟨h1, h2, ?_, ?_, ?_⟩
  · intro svc w
    simp only [Registry.Execute, h1, h2]
  · intro svc w
    simp only [Registry.Execute, h1]
  · intro svc w
    simp only [Registry.Execute, h2]

/-- Claim C1 at the `move` command with the argument `e2e4`, in the session `inGame` and
on the service that answers with the position after 1. e4: `m e2e4` and `move e2e4` both
resolve to the `move` command with the argument list `[e2e4]`, and both runs of `Execute`
are the run of `moveHandler` on that list, which makes the `MakeMove` round trip for
`e2e4`. -/
theorem execute_alias_witness :
    (∃ key, NewRegistry.get key = some
      { Name := "move", ShortName := "m", Description := "Make a move",
        Usage := "move <uci-move>", Handler := .moveHandler }) ∧
    NewRegistry.dispatch ("m" ++ " " ++ "e2e4")
      = .invoke { Name := "move", ShortName := "m", Description := "Make a move",
                  Usage := "move <uci-move>", Handler := .moveHandler } ["e2e4"] ∧
    NewRegistry.dispatch ("move" ++ " " ++ "e2e4")
      = .invoke { Name := "move", ShortName := "m", Description := "Make a move",
                  Usage := "move <uci-move>", Handler := .moveHandler } ["e2e4"] ∧
    NewRegistry.Execute (Sample.always Sample.afterE4) (Sample.world Sample.inGame [])
        ("m" ++ " " ++ "e2e4")
      = (moveHandler (Sample.always Sample.afterE4) (Sample.world Sample.inGame [])
          ["e2e4"]).1 ∧
    NewRegistry.Execute (Sample.always Sample.afterE4) (Sample.world Sample.inGame [])
        ("move" ++ " " ++ "e2e4")
      = (moveHandler (Sample.always Sample.afterE4) (Sample.world Sample.inGame [])
          ["e2e4"]).1 ∧
    callsOf (NewRegistry.Execute (Sample.always Sample.afterE4)
        (Sample.world Sample.inGame []) ("m" ++ " " ++ "e2e4")).events
      = [.MakeMove "g1" "e2e4"] :=
  have h := execute_alias_same_as_full_name
    { Name := "move", ShortName := "m", Description := "Make a move",
      Usage := "move <uci-move>", Handler := .moveHandler } ⟨"move", by decide⟩
    (by decide) "e2e4"
  have hm := h.2.2.2.1 (Sample.always Sample.afterE4) (Sample.world Sample.inGame [])
  have hn := h.2.2.2.2 (Sample.always Sample.afterE4) (Sample.world Sample.inGame [])
  ⟨⟨"move", by decide⟩, h.1, h.2.1, hm.trans (by decide), hn.trans (by decide),
   (congrArg (fun v => callsOf v.events) hm).trans (by decide)⟩

/-! ## The polling loop of `computerMoveHandler` -/


theorem pollTrace_succ (gameID : String) (n : Nat) :
    pollTrace gameID (n + 1)
      = Event.sleep 200 :: Event.call (.GetGame gameID) :: pollTrace gameID n := by
  simp [pollTrace, List.replicate_succ]

theorem fetchCount_pollTrace (gameID : String) (n : Nat) :
    fetchCount (pollTrace gameID n) = n := by
  induction n with
  | zero => simp [pollTrace, fetchCount]
  | succ n ih => rw [pollTrace_succ]; simp [fetchCount, ih]

theorem sleepTotal_pollTrace (gameID : String) (n : Nat) :
    sleepTotal (pollTrace gameID n) = 200 * n := by
  induction n with
  | zero => simp [pollTrace, sleepTotal]
  | succ n ih => rw [pollTrace_succ]; simp [sleepTotal, ih]; omega

theorem computerMoveLoop_waiting (svc : Service) (gameID : String) :
    ∀ (n : Nat) (w : World),
      (∀ j, j < n → stillWaiting (svc.GetGame (w.calls + j) gameID)) →
      computerMoveLoop svc gameID n w
        = ({ w with calls := w.calls + n, events := w.events ++ pollTrace gameID n },
           some "timeout waiting for computer move") := by
  intro n
  induction n with
  | zero => intro w _; simp [computerMoveLoop, pollTrace]
  | succ n ih =>
    intro w h
    have h0 := h 0 (Nat.succ_pos n)
    have hrest : ∀ j, j < n → stillWaiting (svc.GetGame (w.calls + 1 + j) gameID) := by
      intro j hj
      have := h (j + 1) (Nat.succ_lt_succ hj)
      rwa [show w.calls + (j + 1) = w.calls + 1 + j by omega] at this
    have key := ih
      { w with
        calls := w.calls + 1
        events := w.events ++ [Event.sleep 200, Event.call (.GetGame gameID)] } hrest
    simp only [Nat.add_zero] at h0
    rw [computerMoveLoop]
    simp only [time.Sleep, api.Client.GetGame, World.emit, World.roundTrip]
    cases hr : svc.GetGame w.calls gameID with
    | error e =>
      simp only [List.append_assoc, List.singleton_append] at key ⊢
      rw [key]
      simp [pollTrace_succ, Nat.add_assoc, Nat.add_comm 1 n]
    | ok r =>
      rw [hr] at h0
      have hp : r.State = "pending" := h0
      simp only [hp, ne_eq, not_true_eq_false, if_false, List.append_assoc, List.singleton_append] at key ⊢
      rw [key]
      simp [pollTrace_succ, Nat.add_assoc, Nat.add_comm 1 n]

theorem computerMoveDone_session (w : World) (r : api.GameResponse) :
    (computerMoveDone w r).s
      = { w.s with LastMoveCount := (r.Moves.length : Int), CurrentGameState := some r } := by
  unfold computerMoveDone
  cases r.LastMove <;> simp only [display.Println, display.Print, World.print, World.emit] <;>
    (repeat' split) <;> rfl

theorem computerMoveDone_events (w : World) (r : api.GameResponse) :
    ∃ notes, (computerMoveDone w r).events = w.events ++ notes ∧
      ∀ e ∈ notes, ∃ text, e = Event.print text := by
  unfold computerMoveDone
  cases r.LastMove <;> simp only [display.Println, display.Print, World.print, World.emit] <;>
    (repeat' split) <;> simp only [List.append_assoc] <;>
    first
      | exact ⟨_, rfl, by simp⟩
      | exact ⟨[], by simp, by simp⟩

theorem computerMoveDone_checkmate (w : World) (r : api.GameResponse)
    (h : r.State = "checkmate") :
    (computerMoveDone w r).events.getLast? = some (checkmateNotice r.Turn) := by
  unfold computerMoveDone
  cases r.LastMove <;>
    simp [display.Println, display.Print, World.print, World.emit, h, checkmateNotice]

theorem computerMoveLoop_found (svc : Service) (gameID : String) (r : api.GameResponse)
    (hr : r.State ≠ "pending") :
    ∀ (k n : Nat) (w : World), k < n →
      (∀ j, j < k → stillWaiting (svc.GetGame (w.calls + j) gameID)) →
      svc.GetGame (w.calls + k) gameID = .ok r →
      computerMoveLoop svc gameID n w
        = (computerMoveDone
            { w with
              calls := w.calls + (k + 1)
              events := w.events ++ pollTrace gameID (k + 1) } r, none) := by
  intro k
  induction k with
  | zero =>
    intro n w hn _ hget
    obtain ⟨m, rfl⟩ : ∃ m, n = m + 1 := ⟨n - 1, by omega⟩
    simp only [Nat.add_zero] at hget
    rw [computerMoveLoop]
    simp only [time.Sleep, api.Client.GetGame, World.emit, World.roundTrip, hget]
    simp [hr, pollTrace]
  | succ k ih =>
    intro n w hn hwait hget
    obtain ⟨m, rfl⟩ : ∃ m, n = m + 1 := ⟨n - 1, by omega⟩
    have h0 := hwait 0 (Nat.succ_pos k)
    simp only [Nat.add_zero] at h0
    have hrest : ∀ j, j < k → stillWaiting (svc.GetGame (w.calls + 1 + j) gameID) := by
      intro j hj
      have := hwait (j + 1) (Nat.succ_lt_succ hj)
      rwa [show w.calls + (j + 1) = w.calls + 1 + j by omega] at this
    have hget' : svc.GetGame (w.calls + 1 + k) gameID = .ok r := by
      rwa [show w.calls + (k + 1) = w.calls + 1 + k by omega] at hget
    have key := ih m
      { w with
        calls := w.calls + 1
        events := w.events ++ [Event.sleep 200, Event.call (.GetGame gameID)] }
      (by omega) hrest hget'
    rw [computerMoveLoop]
    simp only [time.Sleep, api.Client.GetGame, World.emit, World.roundTrip]
    cases hres : svc.GetGame w.calls gameID with
    | error e =>
      simp only [List.append_assoc, List.singleton_append] at key ⊢
      rw [key]
      simp [pollTrace_succ, Nat.add_assoc, Nat.add_comm 1 (k + 1)]
    | ok r0 =>
      rw [hres] at h0
      have hp : r0.State = "pending" := h0
      simp only [hp, ne_eq, not_true_eq_false, if_false, List.append_assoc,
        List.singleton_append] at key ⊢
      rw [key]
      simp [pollTrace_succ, Nat.add_assoc, Nat.add_comm 1 (k + 1)]

theorem computerMoveLoop_success (svc : Service) (gameID : String) :
    ∀ (n : Nat) (w w' : World), computerMoveLoop svc gameID n w = (w', none) →
      ∃ w2 r m, r.State ≠ "pending" ∧ svc.GetGame m gameID = .ok r ∧
        w' = computerMoveDone w2 r := by
  intro n
  induction n with
  | zero => intro w w' h; simp [computerMoveLoop] at h
  | succ n ih =>
    intro w w' h
    rw [computerMoveLoop] at h
    simp only [time.Sleep, api.Client.GetGame, World.emit, World.roundTrip] at h
    cases hr : svc.GetGame w.calls gameID with
    | error e =>
      rw [hr] at h
      exact ih _ _ h
    | ok r =>
      rw [hr] at h
      by_cases hp : r.State = "pending"
      · simp only [hp, ne_eq, not_true_eq_false, if_false] at h
        exact ih _ _ h
      · simp only [ne_eq, hp, not_false_eq_true, if_true, Prod.mk.injEq, and_true] at h
        exact ⟨_, r, w.calls, hp, hr, h.symm⟩

theorem computerMoveLoop_playerColor (svc : Service) (gameID : String) :
    ∀ (n : Nat) (w : World),
      (computerMoveLoop svc gameID n w).1.s.PlayerColor = w.s.PlayerColor := by
  intro n
  induction n with
  | zero => intro w; rfl
  | succ n ih =>
    intro w
    rw [computerMoveLoop]
    simp only [time.Sleep, api.Client.GetGame, World.emit, World.roundTrip]
    cases svc.GetGame w.calls gameID with
    | error e => exact ih _
    | ok r =>
      by_cases hp : r.State = "pending"
      · simp only [hp, ne_eq, not_true_eq_false, if_false]
        exact ih _
      · simp only [ne_eq, hp, not_false_eq_true, if_true, computerMoveDone_session]

/-- Claim C2: with a non-empty current game, when the trigger move `cccc` is answered
`pending` and every later `GetGame` is answered `pending`, `computerMoveHandler` returns the
timeout error after exactly 50 rounds of a 200 ms sleep followed by one fetch (10 s of sleep),
and the session, in particular the snapshot and `LastMoveCount`, is the one before the
command. -/
theorem computerMove_always_pending_times_out (svc : Service) (w : World) (args : List String)
    (resp : api.GameResponse)
    (hgame : w.s.CurrentGame ≠ "")
    (htrigger : svc.MakeMove w.calls w.s.CurrentGame "cccc" = .ok resp)
    (hpending : resp.State = "pending")
    (hfetch : ∀ n, w.calls < n →
      ∃ r, svc.GetGame n w.s.CurrentGame = .ok r ∧ r.State = "pending") :
    ∃ w', computerMoveHandler svc w args = (w', some "timeout waiting for computer move") ∧
      w'.events = w.events ++
        [Event.call (.MakeMove w.s.CurrentGame "cccc"),
         Event.print (display.Magenta ++ "Computer is thinking..." ++ display.Reset ++ "\n")]
        ++ pollTrace w.s.CurrentGame 50 ∧
      fetchCount w'.events = fetchCount w.events + 50 ∧
      sleepTotal w'.events = sleepTotal w.events + 10000 ∧
      w'.s.CurrentGameState = w.s.CurrentGameState ∧
      w'.s.LastMoveCount = w.s.LastMoveCount ∧
      w'.s = w.s := by
  have hloop := computerMoveLoop_waiting svc w.s.CurrentGame 50
    (display.Println (w.roundTrip (.MakeMove w.s.CurrentGame "cccc")) display.Magenta
      "Computer is thinking...")
    (by
      intro j _
      obtain ⟨r, h1, h2⟩ := hfetch (w.calls + 1 + j) (by omega)
      simp only [display.Println, World.print, World.emit, World.roundTrip, stillWaiting, h1]
      exact h2)
  have hrun : computerMoveHandler svc w args
      = computerMoveLoop svc w.s.CurrentGame 50
          (display.Println (w.roundTrip (.MakeMove w.s.CurrentGame "cccc")) display.Magenta
            "Computer is thinking...") := by
    simp only [computerMoveHandler, hgame, if_false, api.Client.MakeMove, htrigger, hpending,
      if_true]
  rw [hloop] at hrun
  refine ⟨_, hrun, ?_, ?_, ?_, ?_, ?_, ?_⟩
  all_goals
    simp [display.Println, display.C, World.print, World.emit, World.roundTrip,
      fetchCount_append, sleepTotal_append, fetchCount, sleepTotal, fetchCount_pollTrace,
      sleepTotal_pollTrace]

/-- Claim C2 on a service that always answers `pending`, from the session `inGame`. -/
theorem computerMove_timeout_witness :
    ∃ w', computerMoveHandler (Sample.always Sample.thinking) (Sample.world Sample.inGame []) []
        = (w', some "timeout waiting for computer move") ∧
      fetchCount w'.events = 50 ∧ sleepTotal w'.events = 10000 ∧ w'.s = Sample.inGame :=
  have h := computerMove_always_pending_times_out (Sample.always Sample.thinking)
    (Sample.world Sample.inGame []) [] Sample.thinking (by decide) rfl rfl
    (fun _ _ => ⟨Sample.thinking, rfl, rfl⟩)
  h.elim fun w' hw => ⟨w', hw.1, hw.2.2.1, hw.2.2.2.1, hw.2.2.2.2.2.2⟩

/-- Claim C3: with a non-empty current game, when the trigger move is answered `pending`,
the first `k < 50` fetches are answered `pending` and fetch `k + 1` is answered with another
state, `computerMoveHandler` succeeds after exactly `k + 1` rounds of sleep and fetch, followed
only by printed notifications; the snapshot is that response, `LastMoveCount` is the length
of its move list and no other session field changes. -/
theorem computerMove_first_non_pending_wins (svc : Service) (w : World) (args : List String)
    (resp r2 : api.GameResponse) (k : Nat)
    (hgame : w.s.CurrentGame ≠ "")
    (htrigger : svc.MakeMove w.calls w.s.CurrentGame "cccc" = .ok resp)
    (hpending : resp.State = "pending")
    (hk : k < 50)
    (hfirst : ∀ j, j < k →
      ∃ r, svc.GetGame (w.calls + 1 + j) w.s.CurrentGame = .ok r ∧ r.State = "pending")
    (hnext : svc.GetGame (w.calls + 1 + k) w.s.CurrentGame = .ok r2)
    (hdone : r2.State ≠ "pending") :
    ∃ w' notes, computerMoveHandler svc w args = (w', none) ∧
      w'.events = w.events ++
        [Event.call (.MakeMove w.s.CurrentGame "cccc"),
         Event.print (display.Magenta ++ "Computer is thinking..." ++ display.Reset ++ "\n")]
        ++ pollTrace w.s.CurrentGame (k + 1) ++ notes ∧
      (∀ e ∈ notes, ∃ text, e = Event.print text) ∧
      fetchCount w'.events = fetchCount w.events + (k + 1) ∧
      w'.s.CurrentGameState = some r2 ∧
      w'.s.LastMoveCount = (r2.Moves.length : Int) ∧
      w'.s = { w.s with LastMoveCount := (r2.Moves.length : Int), CurrentGameState := some r2 } := by
  obtain ⟨w1, hw1⟩ : ∃ w1, w1 = display.Println
      (w.roundTrip (.MakeMove w.s.CurrentGame "cccc")) display.Magenta
      "Computer is thinking..." := ⟨_, rfl⟩
  have hs1 : w1.s = w.s := by rw [hw1]; rfl
  have hc1 : w1.calls = w.calls + 1 := by rw [hw1]; rfl
  have he1 : w1.events = w.events ++
      [Event.call (.MakeMove w.s.CurrentGame "cccc"),
       Event.print (display.Magenta ++ "Computer is thinking..." ++ display.Reset ++ "\n")] := by
    rw [hw1]
    simp [display.Println, display.C, World.print, World.emit, World.roundTrip]
  have hrun : computerMoveHandler svc w args = computerMoveLoop svc w.s.CurrentGame 50 w1 := by
    rw [hw1]
    simp only [computerMoveHandler, hgame, if_false, api.Client.MakeMove, htrigger, hpending,
      if_true]
  have hloop := computerMoveLoop_found svc w.s.CurrentGame r2 hdone k 50 w1 hk
    (by
      intro j hj
      obtain ⟨r, h1, h2⟩ := hfirst j hj
      rw [hc1]
      simp only [stillWaiting, h1]
      exact h2)
    (by rw [hc1]; exact hnext)
  rw [hloop] at hrun
  obtain ⟨notes, hev, hnotes⟩ := computerMoveDone_events
    { w1 with
      calls := w1.calls + (k + 1)
      events := w1.events ++ pollTrace w.s.CurrentGame (k + 1) } r2
  refine ⟨_, notes, hrun, ?_, hnotes, ?_, ?_, ?_, ?_⟩
  · rw [hev]; simp [he1]
  · rw [hev]
    simp only [he1, fetchCount_append, fetchCount_pollTrace, fetchCount_prints notes hnotes]
    simp [fetchCount]
  · rw [computerMoveDone_session]
  · rw [computerMoveDone_session]
  · rw [computerMoveDone_session]
    simp [hs1]

/-- Claim C3 with `k = 3`: three fetches answered `pending`, the fourth `ongoing`. -/
theorem computerMove_first_non_pending_witness :
    ∃ w', computerMoveHandler (Sample.thinkingThen 4 Sample.afterE5)
        (Sample.world Sample.inGame []) [] = (w', none) ∧
      fetchCount w'.events = 4 ∧
      w'.s.CurrentGameState = some Sample.afterE5 ∧
      w'.s.LastMoveCount = 2 :=
  have h := computerMove_first_non_pending_wins (Sample.thinkingThen 4 Sample.afterE5)
    (Sample.world Sample.inGame []) [] Sample.thinking Sample.afterE5 3 (by decide) rfl rfl
    (by decide)
    (fun j hj => ⟨Sample.thinking,
      if_pos (show 0 + 1 + j < 4 by omega), rfl⟩)
    rfl (by decide)
  h.elim fun w' hw => hw.elim fun _ hn => ⟨w', hn.1, hn.2.2.2.1, hn.2.2.2.2.1, hn.2.2.2.2.2.1⟩

/-! ## `pollHandler` -/


theorem updateNotice_ne_banner (moveCount : Int) : updateNotice ∉ pollBanner moveCount := by
  have key : ∀ s : String, display.C display.Green "Game updated! New moves detected" ++ "\n"
      ≠ display.C display.Cyan s ++ "\n" := by
    intro s h
    have := congrArg String.data h
    simp [display.C, display.Green, display.Cyan, String.data_append] at this
  simp only [pollBanner, updateNotice, List.mem_cons, List.mem_singleton, Event.print.injEq,
    List.not_mem_nil, or_false, not_or]
  exact ⟨key _, key _⟩

/-- Claim C4 fails as stated: in the session `inGame` (snapshot `ongoing`, one move) a
long poll answered with the same single move but state `pending` succeeds, the move count
equals the baseline, and the snapshot held afterwards is the response, not the one before. -/
theorem poll_no_update_changes_snapshot :
    (Sample.always Sample.thinking).GetGameWithPoll 0 "g1" 1 = .ok Sample.thinking ∧
    (Sample.thinking.Moves.length : Int) = Sample.inGame.LastMoveCount ∧
    (pollHandler (Sample.always Sample.thinking) (Sample.world Sample.inGame []) []).2 = none ∧
    (pollHandler (Sample.always Sample.thinking) (Sample.world Sample.inGame []) []).1.s
      ≠ Sample.inGame ∧
    (pollHandler (Sample.always Sample.thinking) (Sample.world Sample.inGame [])
      []).1.s.CurrentGameState = some Sample.thinking ∧
    Sample.inGame.CurrentGameState = some Sample.afterE4 ∧
    Sample.thinking ≠ Sample.afterE4 := by
  refine ⟨rfl, ?_, ?_, ?_, ?_, ?_, ?_⟩ <;> decide

/-- Claim C4, amended: when the long poll succeeds with a move count equal to the baseline,
`pollHandler` succeeds, replaces the snapshot by the response and leaves every other session
field (`CurrentGame`, `LastMoveCount`, `PlayerColor`, the auth fields) unchanged; it prints
the banner and the no-update notice and never the update notification. -/
theorem poll_no_update_replaces_only_snapshot (svc : Service) (w : World) (args : List String)
    (resp : api.GameResponse)
    (hgame : w.s.CurrentGame ≠ "")
    (hresp : svc.GetGameWithPoll w.calls w.s.CurrentGame w.s.LastMoveCount = .ok resp)
    (hsame : (resp.Moves.length : Int) = w.s.LastMoveCount) :
    ∃ w', pollHandler svc w args = (w', none) ∧
      w'.s = { w.s with CurrentGameState := some resp } ∧
      w'.s.CurrentGame = w.s.CurrentGame ∧
      w'.s.LastMoveCount = w.s.LastMoveCount ∧
      w'.s.PlayerColor = w.s.PlayerColor ∧
      w'.s.CurrentGameState = some resp ∧
      w'.events = w.events ++ pollBanner w.s.LastMoveCount
        ++ [Event.call (.GetGameWithPoll w.s.CurrentGame w.s.LastMoveCount), noUpdateNotice] ∧
      updateNotice ∉ pollBanner w.s.LastMoveCount
        ++ [Event.call (.GetGameWithPoll w.s.CurrentGame w.s.LastMoveCount), noUpdateNotice] := by
  have hrun : pollHandler svc w args
      = ({ w with
           s := { w.s with CurrentGameState := some resp }
           calls := w.calls + 1
           events := w.events ++ pollBanner w.s.LastMoveCount
             ++ [Event.call (.GetGameWithPoll w.s.CurrentGame w.s.LastMoveCount),
                 noUpdateNotice] }, none) := by
    simp [pollHandler, Session.GetCurrentGame, Session.GetLastMoveCount, hgame,
      api.Client.GetGameWithPoll, display.Println, World.print, World.emit, World.roundTrip,
      hresp, hsame, Session.SetLastMoveCount, Session.SetGameState, pollBanner, noUpdateNotice]
  refine ⟨_, hrun, rfl, rfl, rfl, rfl, rfl, rfl, ?_⟩
  have h1 := updateNotice_ne_banner w.s.LastMoveCount
  simp only [List.mem_append, List.mem_cons, List.mem_singleton, List.not_mem_nil, or_false,
    not_or]
  refine ⟨h1, ?_, ?_⟩
  · simp [updateNotice]
  · simp only [updateNotice, noUpdateNotice, Event.print.injEq]
    decide

/-- The amended claim C4 in the session `inGame`. -/
theorem poll_no_update_witness :
    ∃ w', pollHandler (Sample.always Sample.thinking) (Sample.world Sample.inGame []) []
        = (w', none) ∧
      w'.s = { Sample.inGame with CurrentGameState := some Sample.thinking } ∧
      w'.s.CurrentGame = Sample.inGame.CurrentGame ∧
      w'.s.LastMoveCount = Sample.inGame.LastMoveCount ∧
      w'.s.PlayerColor = Sample.inGame.PlayerColor ∧
      w'.s.CurrentGameState = some Sample.thinking ∧
      w'.events = pollBanner 1 ++ [Event.call (.GetGameWithPoll "g1" 1), noUpdateNotice] ∧
      updateNotice ∉ pollBanner 1 ++ [Event.call (.GetGameWithPoll "g1" 1), noUpdateNotice] :=
  poll_no_update_replaces_only_snapshot (Sample.always Sample.thinking)
    (Sample.world Sample.inGame []) [] Sample.thinking (by decide) rfl (by decide)

/-- The usage guard of `pollHandler`: from the initial session (no current game) it makes
no request at all and returns the no-current-game error. -/
theorem poll_without_game_makes_no_request :
    callsOf (pollHandler (Sample.always Sample.afterE5) (Sample.world Sample.initial [])
      []).1.events = [] ∧
    (pollHandler (Sample.always Sample.afterE5) (Sample.world Sample.initial []) []).2
      = some "no current game, use 'new' or 'join <gameId>'" := by
  decide

/-- Claim C5: past its usage guard, that is with a current game to poll, `pollHandler`
makes exactly one round trip, `GetGameWithPoll` with the session's `LastMoveCount` as
baseline, whatever the answer; when the answer holds more moves than the baseline the handler
succeeds, the snapshot is the response, `LastMoveCount` is its move count, and the update
notification is printed, followed by the newest move when `LastMove` is present. -/
theorem poll_single_request_then_update (svc : Service) (w : World) (args : List String)
    (hgame : w.s.CurrentGame ≠ "") :
    callsOf (pollHandler svc w args).1.events
      = callsOf w.events ++ [.GetGameWithPoll w.s.CurrentGame w.s.LastMoveCount] ∧
    (pollHandler svc w args).1.calls = w.calls + 1 ∧
    ∀ resp, svc.GetGameWithPoll w.calls w.s.CurrentGame w.s.LastMoveCount = .ok resp →
      (resp.Moves.length : Int) > w.s.LastMoveCount →
      (pollHandler svc w args).2 = none ∧
      (pollHandler svc w args).1.s
        = { w.s with LastMoveCount := (resp.Moves.length : Int),
                     CurrentGameState := some resp } ∧
      (pollHandler svc w args).1.events
        = w.events ++ pollBanner w.s.LastMoveCount
          ++ [Event.call (.GetGameWithPoll w.s.CurrentGame w.s.LastMoveCount), updateNotice]
          ++ (match resp.LastMove with
              | some lastMove => [Event.print ("Last move: " ++ lastMove.Move ++ "\n")]
              | none => []) := by
  refine ⟨?_, ?_, ?_⟩
  · cases hr : svc.GetGameWithPoll w.calls w.s.CurrentGame w.s.LastMoveCount with
    | error e =>
      simp [pollHandler, Session.GetCurrentGame, Session.GetLastMoveCount, hgame,
        api.Client.GetGameWithPoll, display.Println, World.print, World.emit, World.roundTrip,
        hr, callsOf_append, callsOf]
    | ok resp =>
      cases hl : resp.LastMove <;>
      by_cases hgt : (resp.Moves.length : Int) > w.s.LastMoveCount <;>
      simp [pollHandler, Session.GetCurrentGame, Session.GetLastMoveCount, hgame,
        api.Client.GetGameWithPoll, display.Println, World.print, World.emit, World.roundTrip,
        hr, hl, hgt, callsOf_append, callsOf]
  · cases hr : svc.GetGameWithPoll w.calls w.s.CurrentGame w.s.LastMoveCount with
    | error e =>
      simp [pollHandler, Session.GetCurrentGame, Session.GetLastMoveCount, hgame,
        api.Client.GetGameWithPoll, display.Println, World.print, World.emit, World.roundTrip, hr]
    | ok resp =>
      cases hl : resp.LastMove <;>
      by_cases hgt : (resp.Moves.length : Int) > w.s.LastMoveCount <;>
      simp [pollHandler, Session.GetCurrentGame, Session.GetLastMoveCount, hgame,
        api.Client.GetGameWithPoll, display.Println, World.print, World.emit, World.roundTrip,
        hr, hl, hgt]
  · intro resp hr hgt
    cases hl : resp.LastMove <;>
    simp [pollHandler, Session.GetCurrentGame, Session.GetLastMoveCount, hgame,
      api.Client.GetGameWithPoll, display.Println, World.print, World.emit, World.roundTrip,
      hr, hl, hgt, Session.SetLastMoveCount, Session.SetGameState, pollBanner, updateNotice]

/-- Claim C5 in the session `inGame`, answered with two moves. -/
theorem poll_single_request_witness :
    callsOf (pollHandler (Sample.always Sample.afterE5) (Sample.world Sample.inGame [])
      []).1.events = [.GetGameWithPoll "g1" 1] ∧
    (pollHandler (Sample.always Sample.afterE5) (Sample.world Sample.inGame []) []).1.s
      = { Sample.inGame with LastMoveCount := 2, CurrentGameState := some Sample.afterE5 } ∧
    (pollHandler (Sample.always Sample.afterE5) (Sample.world Sample.inGame []) []).1.events
      = pollBanner 1 ++ [Event.call (.GetGameWithPoll "g1" 1), updateNotice,
          Event.print "Last move: e7e5\n"] :=
  have h := poll_single_request_then_update (Sample.always Sample.afterE5)
    (Sample.world Sample.inGame []) [] (by decide)
  ⟨h.1, (h.2.2 Sample.afterE5 rfl (by decide)).2.1, (h.2.2 Sample.afterE5 rfl (by decide)).2.2⟩

/-! ## Checkmate -/


theorem moveHandler_success (svc : Service) (w w' : World) (args : List String)
    (h : moveHandler svc w args = (w', none)) :
    ∃ move resp, args.head? = some move ∧
      svc.MakeMove w.calls w.s.CurrentGame move = .ok resp ∧
      w'.s = { w.s with LastMoveCount := (resp.Moves.length : Int),
                        CurrentGameState := some resp } ∧
      (resp.State = "checkmate" → w'.events.getLast? = some (checkmateNotice resp.Turn)) := by
  cases args with
  | nil => simp [moveHandler] at h
  | cons move rest =>
    by_cases hg : w.s.CurrentGame = ""
    · simp [moveHandler, hg] at h
    · cases hr : svc.MakeMove w.calls w.s.CurrentGame move with
      | error e => simp [moveHandler, hg, api.Client.MakeMove, hr] at h
      | ok resp =>
        simp only [moveHandler, hg, if_false, api.Client.MakeMove, hr, Prod.mk.injEq,
          and_true] at h
        refine ⟨move, resp, rfl, hr, ?_, ?_⟩
        · rw [← h]
          simp only [display.Println, World.print, World.emit, World.roundTrip]
          repeat' split
          all_goals rfl
        · intro hm
          rw [← h]
          simp [hm, display.Println, World.print, World.emit, checkmateNotice]

/-- Claim C6: when `moveHandler`, or `computerMoveHandler` after a `pending` trigger,
succeeds with a snapshot in state `checkmate`, the last thing printed is the checkmate line
computed from that snapshot: White wins when its turn is `b`, Black wins when it is `w`; and
that snapshot is the response just received, not the snapshot held before the call. -/
theorem checkmate_winner_is_side_not_to_move (svc : Service) (w w' : World)
    (args : List String) (snap : api.GameResponse)
    (hrun : moveHandler svc w args = (w', none) ∨
      (computerMoveHandler svc w args = (w', none) ∧
        ∃ resp, svc.MakeMove w.calls w.s.CurrentGame "cccc" = .ok resp ∧ resp.State = "pending"))
    (hsnap : w'.s.CurrentGameState = some snap)
    (hmate : snap.State = "checkmate") :
    w'.events.getLast? = some (checkmateNotice snap.Turn) ∧
    (snap.Turn = "b" → w'.events.getLast?
      = some (.print (display.C display.Green "\nCHECKMATE! White wins!" ++ "\n"))) ∧
    (snap.Turn = "w" → w'.events.getLast?
      = some (.print (display.C display.Green "\nCHECKMATE! Black wins!" ++ "\n"))) ∧
    ((∃ move, svc.MakeMove w.calls w.s.CurrentGame move = .ok snap) ∨
      (∃ n, svc.GetGame n w.s.CurrentGame = .ok snap)) := by
  have key : w'.events.getLast? = some (checkmateNotice snap.Turn) ∧
      ((∃ move, svc.MakeMove w.calls w.s.CurrentGame move = .ok snap) ∨
        (∃ n, svc.GetGame n w.s.CurrentGame = .ok snap)) := by
    rcases hrun with h | ⟨h, resp, htrig, hpend⟩
    · obtain ⟨move, resp, _, hmk, hs, hlast⟩ := moveHandler_success svc w w' args h
      have : resp = snap := by
        rw [hs] at hsnap
        simpa using hsnap
      subst this
      exact ⟨hlast hmate, Or.inl ⟨move, hmk⟩⟩
    · by_cases hg : w.s.CurrentGame = ""
      · simp [computerMoveHandler, hg] at h
      · simp only [computerMoveHandler, hg, if_false, api.Client.MakeMove, htrig, hpend,
          if_true] at h
        obtain ⟨w2, r, m, _, hget, hw'⟩ := computerMoveLoop_success svc _ _ _ _ h
        have : r = snap := by
          rw [hw', computerMoveDone_session] at hsnap
          simpa using hsnap
        subst this
        rw [hw']
        exact ⟨computerMoveDone_checkmate w2 r hmate, Or.inr ⟨m, hget⟩⟩
  refine ⟨key.1, ?_, ?_, key.2⟩
  · intro ht
    rw [key.1]
    simp [checkmateNotice, ht]
  · intro ht
    rw [key.1]
    simp [checkmateNotice, ht]

/-- Claim C6 on a mating move of White sent by `moveHandler`, and on a mating move of
Black found by the polling loop. -/
theorem checkmate_winner_witness :
    (moveHandler (Sample.always Sample.matedByWhite) (Sample.world Sample.inGame [])
      ["h5f7"]).1.events.getLast?
      = some (.print (display.C display.Green "\nCHECKMATE! White wins!" ++ "\n")) ∧
    (computerMoveHandler (Sample.thinkingThen 2 Sample.matedByBlack)
      (Sample.world Sample.inGame []) []).1.events.getLast?
      = some (.print (display.C display.Green "\nCHECKMATE! Black wins!" ++ "\n")) :=
  ⟨(checkmate_winner_is_side_not_to_move (Sample.always Sample.matedByWhite)
      (Sample.world Sample.inGame []) _ ["h5f7"] Sample.matedByWhite (Or.inl rfl) (by decide)
      (by decide)).2.1 (by decide),
   (checkmate_winner_is_side_not_to_move (Sample.thinkingThen 2 Sample.matedByBlack)
      (Sample.world Sample.inGame []) _ [] Sample.matedByBlack
      (Or.inr ⟨rfl, Sample.thinking, rfl, rfl⟩) (by decide) (by decide)).2.2.1 (by decide)⟩

/-! ## Authentication -/


/-- Claim C7: when the password prompt fails, or the `Login` round trip returns an error,
`loginHandler` returns that error and `AuthToken`, `CurrentUser`, `Username` and the bearer
token of the client keep their values; indeed the whole session does. -/
theorem login_failure_keeps_auth_fields (svc : Service) (w : World) (args : List String)
    (e : Error)
    (hfail : svc.ReadPassword w.calls = .error e ∨
      ∃ password, svc.ReadPassword w.calls = .ok password ∧
        svc.Login (w.calls + 1) (strings.TrimSpace w.scan.2) password = .error e) :
    (loginHandler svc w args).2 = some e ∧
    (loginHandler svc w args).1.s.AuthToken = w.s.AuthToken ∧
    (loginHandler svc w args).1.s.CurrentUser = w.s.CurrentUser ∧
    (loginHandler svc w args).1.s.Username = w.s.Username ∧
    (loginHandler svc w args).1.s.Client.AuthToken = w.s.Client.AuthToken ∧
    (loginHandler svc w args).1.s = w.s := by
  rcases hfail with h | ⟨password, h, hl⟩
  · simp [loginHandler, readPassword, display.Print, World.print, World.emit, World.scan_s,
      World.scan_calls, h]
  · rw [World.scan_line] at hl
    simp [loginHandler, readPassword, display.Print, World.print, World.emit, World.scan_s,
      World.scan_calls, World.scan_line, h, api.Client.Login, World.roundTrip, hl]

/-- Claim C7 on a service that cannot be reached. -/
theorem login_failure_witness :
    (loginHandler Sample.down (Sample.world Sample.inGame ["ann"]) []).2
      = some "connection refused" ∧
    (loginHandler Sample.down (Sample.world Sample.inGame ["ann"]) []).1.s = Sample.inGame :=
  have h := login_failure_keeps_auth_fields Sample.down (Sample.world Sample.inGame ["ann"]) []
    "connection refused" (Or.inr ⟨"secret", rfl, rfl⟩)
  ⟨h.1, h.2.2.2.2.2⟩

/-! ## Creating and joining a game -/


theorem askPlayer_frame (w : World) (p : String) :
    (askPlayer w p).1.s = w.s ∧ (askPlayer w p).1.calls = w.calls := by
  unfold askPlayer
  simp only [display.Print, World.print, World.emit]
  split_ifs <;> simp [World.scan_s, World.scan_calls]

section

attribute [local irreducible] askPlayer

theorem newGameHandler_success (svc : Service) (w w' : World) (args : List String)
    (h : newGameHandler svc w args = (w', none)) :
    ∃ req resp, svc.CreateGame w.calls req = .ok resp ∧
      w'.s.CurrentGame = resp.GameID ∧
      w'.s.LastMoveCount = (resp.Moves.length : Int) ∧
      w'.s.CurrentGameState = some resp ∧
      w'.s.CurrentUser = w.s.CurrentUser ∧
      w'.s.PlayerColor =
        (if w.s.CurrentUser ≠ "" then
          if resp.Players.White.ID = w.s.CurrentUser then "w"
          else if resp.Players.Black.ID = w.s.CurrentUser then "b"
          else w.s.PlayerColor
        else w.s.PlayerColor) := by
  unfold newGameHandler at h
  simp only [display.Println, display.Print, World.print, World.emit, api.Client.CreateGame,
    World.roundTrip, World.scan_s, World.scan_calls, askPlayer_frame] at h
  split at h
  · simp at h
  · rename_i resp hr
    simp only [Prod.mk.injEq, and_true] at h
    refine ⟨_, resp, hr, ?_⟩
    rw [← h]
    by_cases hu : w.s.CurrentUser = "" <;>
    by_cases hw : resp.Players.White.ID = w.s.CurrentUser <;>
    by_cases hb : resp.Players.Black.ID = w.s.CurrentUser <;>
    (repeat' split) <;> simp_all

end

theorem joinGameHandler_success (svc : Service) (w w' : World) (args : List String)
    (h : joinGameHandler svc w args = (w', none)) :
    ∃ gameID resp, args.head? = some gameID ∧ svc.GetGame w.calls gameID = .ok resp ∧
      w'.s.CurrentGame = gameID ∧
      w'.s.LastMoveCount = (resp.Moves.length : Int) ∧
      w'.s.CurrentGameState = some resp ∧
      w'.s.CurrentUser = w.s.CurrentUser ∧
      w'.s.PlayerColor =
        (if w.s.CurrentUser ≠ "" then
          if resp.Players.White.ID = w.s.CurrentUser then "w"
          else if resp.Players.Black.ID = w.s.CurrentUser then "b"
          else ""
        else w.s.PlayerColor) := by
  cases args with
  | nil => simp [joinGameHandler] at h
  | cons gameID rest =>
    cases hr : svc.GetGame w.calls gameID with
    | error e => simp [joinGameHandler, api.Client.GetGame, hr] at h
    | ok resp =>
      simp only [joinGameHandler, api.Client.GetGame, hr, Prod.mk.injEq, and_true] at h
      refine ⟨gameID, resp, rfl, hr, ?_⟩
      rw [← h]
      simp only [World.print, World.emit, World.roundTrip, Session.SetCurrentGame,
        Session.SetLastMoveCount, Session.SetGameState, Session.GetCurrentUser,
        Session.SetPlayerColor]
      by_cases hu : w.s.CurrentUser = "" <;>
      by_cases hw : resp.Players.White.ID = w.s.CurrentUser <;>
      by_cases hb : resp.Players.Black.ID = w.s.CurrentUser <;>
      simp [hu, hw, hb]

/-- Claim C8: after a successful `newGameHandler` or `joinGameHandler` the session holds
a snapshot, `LastMoveCount` is the length of its move list, and the snapshot is the response
the service has just given (to `CreateGame`, respectively to `GetGame` of the id joined). -/
theorem new_and_join_set_move_count_of_response (svc : Service) (w w' : World)
    (args : List String)
    (hrun : newGameHandler svc w args = (w', none) ∨ joinGameHandler svc w args = (w', none)) :
    ∃ resp, w'.s.CurrentGameState = some resp ∧
      w'.s.LastMoveCount = (resp.Moves.length : Int) ∧
      (newGameHandler svc w args = (w', none) →
        ∃ req, svc.CreateGame w.calls req = .ok resp) ∧
      (joinGameHandler svc w args = (w', none) →
        ∃ gameID, args.head? = some gameID ∧ svc.GetGame w.calls gameID = .ok resp) := by
  rcases hrun with h | h
  · obtain ⟨req, resp, hreq, _, hcount, hsnap, _, _⟩ := newGameHandler_success svc w w' args h
    refine ⟨resp, hsnap, hcount, fun _ => ⟨req, hreq⟩, ?_⟩
    intro hj
    obtain ⟨gameID, resp', hhead, hget, _, _, hsnap', _, _⟩ :=
      joinGameHandler_success svc w w' args hj
    have : resp' = resp := by
      rw [hsnap] at hsnap'
      simpa using hsnap'.symm
    exact ⟨gameID, hhead, this ▸ hget⟩
  · obtain ⟨gameID, resp, hhead, hget, _, hcount, hsnap, _, _⟩ :=
      joinGameHandler_success svc w w' args h
    refine ⟨resp, hsnap, hcount, ?_, fun _ => ⟨gameID, hhead, hget⟩⟩
    intro hn
    obtain ⟨req, resp', hreq, _, _, hsnap', _, _⟩ := newGameHandler_success svc w w' args hn
    have : resp' = resp := by
      rw [hsnap] at hsnap'
      simpa using hsnap'.symm
    exact ⟨req, this ▸ hreq⟩

/-- Claim C8 on joining game `g1` from the initial session. -/
theorem new_and_join_witness :
    ∃ resp,
      (joinGameHandler (Sample.always Sample.afterE5) (Sample.world Sample.initial [])
        ["g1"]).1.s.CurrentGameState = some resp ∧
      (joinGameHandler (Sample.always Sample.afterE5) (Sample.world Sample.initial [])
        ["g1"]).1.s.LastMoveCount = (resp.Moves.length : Int) :=
  have h := new_and_join_set_move_count_of_response (Sample.always Sample.afterE5)
    (Sample.world Sample.initial []) _ ["g1"] (Or.inr rfl)
  h.elim fun resp hr => ⟨resp, hr.1, hr.2.1⟩

theorem joinColor_eq_spec (user prior : String) (resp : api.GameResponse) (hu : user ≠ "") :
    (if user ≠ "" then
      if resp.Players.White.ID = user then "w"
      else if resp.Players.Black.ID = user then "b"
      else ""
    else prior) = specPlayerColor user resp := by
  unfold specPlayerColor
  by_cases hw : resp.Players.White.ID = user
  · simp [hu, hw]
  · have hw' : ¬ user = resp.Players.White.ID := fun h => hw h.symm
    by_cases hb : resp.Players.Black.ID = user
    · simp [hu, hw, hw', hb]
    · have hb' : ¬ user = resp.Players.Black.ID := fun h => hb h.symm
      simp [hu, hw, hw', hb, hb']

theorem newColor_eq_spec (user prior : String) (resp : api.GameResponse) (hu : user ≠ "")
    (hm : user = resp.Players.White.ID ∨ user = resp.Players.Black.ID) :
    (if user ≠ "" then
      if resp.Players.White.ID = user then "w"
      else if resp.Players.Black.ID = user then "b"
      else prior
    else prior) = specPlayerColor user resp := by
  unfold specPlayerColor
  by_cases hw : resp.Players.White.ID = user
  · simp [hu, hw]
  · have hw' : ¬ user = resp.Players.White.ID := fun h => hw h.symm
    have hb : resp.Players.Black.ID = user := by
      rcases hm with h | h
      · exact absurd h hw'
      · exact h.symm
    simp [hu, hw, hw', hb]

/-- Claim C9 fails as stated: joining with an empty `CurrentUser`, and creating a game as
a user who plays neither side, both succeed and keep the colour `w` held before, where the
derivation gives unset. -/
theorem join_and_new_keep_stale_color :
    (joinGameHandler (Sample.always Sample.afterE5)
      (Sample.world Sample.loggedOut []) ["g1"]).2 = none ∧
    (joinGameHandler (Sample.always Sample.afterE5)
      (Sample.world Sample.loggedOut []) ["g1"]).1.s.PlayerColor = "w" ∧
    specPlayerColor "" Sample.afterE5 = "" ∧
    (newGameHandler (Sample.always Sample.fresh)
      (Sample.world Sample.stranger []) []).2 = none ∧
    (newGameHandler (Sample.always Sample.fresh)
      (Sample.world Sample.stranger []) []).1.s.PlayerColor = "w" ∧
    (newGameHandler (Sample.always Sample.fresh)
      (Sample.world Sample.stranger []) []).1.s.CurrentGameState
        = some Sample.fresh ∧
    specPlayerColor "u2" Sample.fresh = "" := by
  decide

/-- Claim C9, amended: after a successful `newGameHandler` or `joinGameHandler` the
snapshot is the response the service has just given (to `CreateGame`, respectively to
`GetGame` of the id joined) and `CurrentUser` is unchanged; with an empty `CurrentUser` the
`PlayerColor` keeps its prior value; with a non-empty `CurrentUser` it equals the derivation
from `CurrentUser` and the new snapshot after `joinGameHandler`, and after `newGameHandler`
whenever `CurrentUser` is one of the two player ids. -/
theorem new_and_join_player_color (svc : Service) (w w' : World) (args : List String)
    (hrun : newGameHandler svc w args = (w', none) ∨ joinGameHandler svc w args = (w', none)) :
    ∃ resp, w'.s.CurrentGameState = some resp ∧
      (newGameHandler svc w args = (w', none) →
        ∃ req, svc.CreateGame w.calls req = .ok resp) ∧
      (joinGameHandler svc w args = (w', none) →
        ∃ gameID, args.head? = some gameID ∧ svc.GetGame w.calls gameID = .ok resp) ∧
      w'.s.CurrentUser = w.s.CurrentUser ∧
      (w.s.CurrentUser = "" → w'.s.PlayerColor = w.s.PlayerColor) ∧
      (w.s.CurrentUser ≠ "" →
        (joinGameHandler svc w args = (w', none) ∨
          w.s.CurrentUser = resp.Players.White.ID ∨ w.s.CurrentUser = resp.Players.Black.ID) →
        w'.s.PlayerColor = specPlayerColor w'.s.CurrentUser resp) := by
  have hjoin : ∀ resp, w'.s.CurrentGameState = some resp → w.s.CurrentUser ≠ "" →
      joinGameHandler svc w args = (w', none) →
      w'.s.PlayerColor = specPlayerColor w'.s.CurrentUser resp := by
    intro resp hsnap hu hj
    obtain ⟨_, resp', _, _, _, _, hsnap', huser, hcolor⟩ :=
      joinGameHandler_success svc w w' args hj
    have : resp' = resp := by
      rw [hsnap] at hsnap'
      simpa using hsnap'.symm
    subst this
    rw [hcolor, huser]
    exact joinColor_eq_spec _ _ _ hu
  have hcreate : ∀ resp, w'.s.CurrentGameState = some resp →
      newGameHandler svc w args = (w', none) →
      ∃ req, svc.CreateGame w.calls req = .ok resp := by
    intro resp hsnap hn
    obtain ⟨req, resp', hreq, _, _, hsnap', _, _⟩ := newGameHandler_success svc w w' args hn
    have : resp' = resp := by
      rw [hsnap] at hsnap'
      simpa using hsnap'.symm
    exact ⟨req, this ▸ hreq⟩
  have hget : ∀ resp, w'.s.CurrentGameState = some resp →
      joinGameHandler svc w args = (w', none) →
      ∃ gameID, args.head? = some gameID ∧ svc.GetGame w.calls gameID = .ok resp := by
    intro resp hsnap hj
    obtain ⟨gameID, resp', hhead, hg, _, _, hsnap', _, _⟩ :=
      joinGameHandler_success svc w w' args hj
    have : resp' = resp := by
      rw [hsnap] at hsnap'
      simpa using hsnap'.symm
    exact ⟨gameID, hhead, this ▸ hg⟩
  rcases hrun with h | h
  · obtain ⟨req, resp, _, _, _, hsnap, huser, hcolor⟩ := newGameHandler_success svc w w' args h
    refine ⟨resp, hsnap, hcreate resp hsnap, hget resp hsnap, huser, ?_, ?_⟩
    · intro hu
      rw [hcolor]; simp [hu]
    · intro hu hcase
      rcases hcase with hj | hm
      · exact hjoin resp hsnap hu hj
      · rw [hcolor, huser]
        exact newColor_eq_spec _ _ _ hu hm
  · obtain ⟨_, resp, _, _, _, _, hsnap, huser, hcolor⟩ := joinGameHandler_success svc w w' args h
    refine ⟨resp, hsnap, hcreate resp hsnap, hget resp hsnap, huser, ?_, ?_⟩
    · intro hu
      rw [hcolor]; simp [hu]
    · intro hu _
      exact hjoin resp hsnap hu h

/-- The amended claim C9 on joining `g1` as the user `u2`, who plays neither side: the
snapshot is the answer of the service to `GetGame` of `g1`, and the colour is the
derivation from `u2` and that snapshot, unset. -/
theorem new_and_join_player_color_witness :
    ∃ resp,
      (joinGameHandler (Sample.always Sample.afterE5) (Sample.world Sample.stranger [])
        ["g1"]).1.s.CurrentGameState = some resp ∧
      (∃ gameID, ["g1"].head? = some gameID ∧
        (Sample.always Sample.afterE5).GetGame 0 gameID = .ok resp) ∧
      (joinGameHandler (Sample.always Sample.afterE5) (Sample.world Sample.stranger [])
        ["g1"]).1.s.PlayerColor = specPlayerColor "u2" resp :=
  have h := new_and_join_player_color (Sample.always Sample.afterE5)
    (Sample.world Sample.stranger []) _ ["g1"] (Or.inr rfl)
  h.elim fun resp hr => ⟨resp, hr.1, hr.2.2.1 rfl, hr.2.2.2.2.2 (by decide) (Or.inl rfl)⟩

/-! ## The other commands and `PlayerColor` -/


theorem renderLines_s (lines : List String) :
    ∀ (w : World) (i : Nat), (display.renderLines w i lines).s = w.s := by
  induction lines with
  | nil => intro w i; rfl
  | cons line rest ih =>
    intro w i
    have hfold : ∀ (cs : List Char) (v : World) (b : Bool),
        (cs.foldl (fun w char => w.print (display.renderChar b char)) v).s = v.s := by
      intro cs
      induction cs with
      | nil => intro v b; rfl
      | cons c cs ihc => intro v b; rw [List.foldl_cons, ihc]; rfl
    rw [display.renderLines]
    split
    · exact ih _ _
    · simp only [World.print, World.emit] at hfold ⊢
      rw [ih, hfold]

theorem printHistory_s (moves : List String) :
    ∀ (w : World) (i : Nat), (printHistory w i moves).s = w.s := by
  induction moves with
  | nil => intro w i; rfl
  | cons move rest ih =>
    intro w i
    rw [printHistory]
    simp only [World.print, World.emit]
    rw [ih]
    split <;> split <;> rfl

/-- Claim C10 fails as stated: `logout` clears `CurrentUser` and keeps the colour `w`,
where the derivation gives unset; and `move` replaces the snapshot of a user who plays White
and keeps `PlayerColor` unset, where the derivation gives `w`. -/
theorem logout_and_move_keep_stale_color :
    (logoutHandler Sample.down (Sample.world Sample.inGame []) []).1.s.CurrentUser = "" ∧
    (logoutHandler Sample.down (Sample.world Sample.inGame []) []).1.s.CurrentGameState
      = some Sample.afterE4 ∧
    (logoutHandler Sample.down (Sample.world Sample.inGame []) []).1.s.PlayerColor = "w" ∧
    specPlayerColor "" Sample.afterE4 = "" ∧
    (moveHandler (Sample.always Sample.afterE4) (Sample.world Sample.uncoloured [])
      ["e2e4"]).2 = none ∧
    (moveHandler (Sample.always Sample.afterE4) (Sample.world Sample.uncoloured [])
      ["e2e4"]).1.s.CurrentUser = "u1" ∧
    (moveHandler (Sample.always Sample.afterE4) (Sample.world Sample.uncoloured [])
      ["e2e4"]).1.s.CurrentGameState = some Sample.afterE4 ∧
    (moveHandler (Sample.always Sample.afterE4) (Sample.world Sample.uncoloured [])
      ["e2e4"]).1.s.PlayerColor = "" ∧
    specPlayerColor "u1" Sample.afterE4 = "w" := by
  decide

/-- Claim C10, amended: none of `user`, `login`, `register`, `logout`, `move`,
`computer`, `undo`, `show` and `poll` writes `PlayerColor`: after each of them, whatever the
service answers, it has the value it had before the command (it is derived by `join` and
`new` only). -/
theorem other_commands_leave_player_color (svc : Service) (w : World) (args : List String) :
    (setUserHandler svc w args).1.s.PlayerColor = w.s.PlayerColor ∧
    (loginHandler svc w args).1.s.PlayerColor = w.s.PlayerColor ∧
    (registerHandler svc w args).1.s.PlayerColor = w.s.PlayerColor ∧
    (logoutHandler svc w args).1.s.PlayerColor = w.s.PlayerColor ∧
    (moveHandler svc w args).1.s.PlayerColor = w.s.PlayerColor ∧
    (computerMoveHandler svc w args).1.s.PlayerColor = w.s.PlayerColor ∧
    (undoHandler svc w args).1.s.PlayerColor = w.s.PlayerColor ∧
    (showBoardHandler svc w args).1.s.PlayerColor = w.s.PlayerColor ∧
    (pollHandler svc w args).1.s.PlayerColor = w.s.PlayerColor := by
  refine ⟨?_, ?_, ?_, ?_, ?_, ?_, ?_, ?_, ?_⟩
  · cases args <;> rfl
  · unfold loginHandler
    simp only [readPassword, display.Print, display.Println, World.print, World.emit,
      api.Client.Login, World.roundTrip, World.scan_s, World.scan_calls]
    repeat' split
    all_goals rfl
  · unfold registerHandler
    simp only [readPassword, display.Print, display.Println, World.print, World.emit,
      api.Client.Register, World.roundTrip, World.scan_s, World.scan_calls]
    repeat' split
    all_goals rfl
  · rfl
  · unfold moveHandler
    simp only [display.Println, World.print, World.emit, api.Client.MakeMove, World.roundTrip]
    repeat' split
    all_goals rfl
  · unfold computerMoveHandler
    simp only [display.Println, World.print, World.emit, api.Client.MakeMove, World.roundTrip]
    repeat' split
    all_goals first | rfl | exact computerMoveLoop_playerColor svc _ _ _
  · unfold undoHandler
    simp only [display.Println, World.print, World.emit, api.Client.UndoMoves, World.roundTrip]
    repeat' split
    all_goals rfl
  · unfold showBoardHandler
    simp only [World.print, World.emit, api.Client.GetGame, api.Client.GetBoard, World.roundTrip,
      display.RenderBoard]
    repeat' split
    all_goals first | rfl | simp [renderLines_s, printHistory_s, Session.SetLastMoveCount, Session.SetGameState]
  · unfold pollHandler
    simp only [display.Println, World.print, World.emit, api.Client.GetGameWithPoll,
      World.roundTrip]
    repeat' split
    all_goals rfl

/-! ## Unknown commands and usage errors -/

theorem strings.fieldsAux_eq_nil (cs cur : List Char) :
    strings.fieldsAux cs cur = [] ↔ cur = [] ∧ ∀ c ∈ cs, unicode.IsSpace c = true := by
  induction cs generalizing cur with
  | nil => simp [strings.fieldsAux]
  | cons c cs ih =>
    by_cases hc : unicode.IsSpace c = true
    · by_cases hcur : cur = []
      · simp [strings.fieldsAux, hc, hcur, ih]
      · simp [strings.fieldsAux, hc, hcur]
    · simp [strings.fieldsAux, hc, ih]

theorem strings.Fields_eq_nil (s : String) :
    strings.Fields s = [] ↔ ∀ c ∈ s.data, unicode.IsSpace c = true := by
  simp [strings.Fields, strings.fieldsAux_eq_nil]

/-- Claim C11: when the input has no token (it is empty or all white space), or its
first token is not a key of the registry, `Execute` resolves to no command (no handler
is invoked), and the world it returns has the session, transport client and verbose flag
included, the round-trip count and the unread input of the world it was given; the
service plays no part. -/
theorem execute_unknown_or_empty_is_inert (r : Registry) (svc : Service) (w : World)
    (input : String)
    (h : (∀ c ∈ input.data, unicode.IsSpace c = true) ∨
      ∃ cmdName args, strings.Fields input = cmdName :: args ∧ r.get cmdName = none) :
    (∀ cmd args, r.dispatch input ≠ .invoke cmd args) ∧
    (r.Execute svc w input).s = w.s ∧
    (r.Execute svc w input).s.Client = w.s.Client ∧
    (r.Execute svc w input).s.Client.Verbose = w.s.Client.Verbose ∧
    (r.Execute svc w input).calls = w.calls ∧
    (r.Execute svc w input).stdin = w.stdin ∧
    callsOf (r.Execute svc w input).events = callsOf w.events ∧
    (strings.Fields input = [] → r.Execute svc w input = w) ∧
    (∀ svc', r.Execute svc' w input = r.Execute svc w input) := by
  rcases h with h | ⟨cmdName, args, h, hget⟩
  · replace h := (strings.Fields_eq_nil input).2 h
    have hd : r.dispatch input = .empty := by simp [Registry.dispatch, h]
    have he : ∀ svc', r.Execute svc' w input = w := by
      intro svc'; simp [Registry.Execute, hd]
    refine ⟨?_, ?_, ?_, ?_, ?_, ?_, ?_, ?_, ?_⟩
    · intro cmd args; rw [hd]; simp
    all_goals simp [he]
  · have hd : r.dispatch input = .unknown cmdName := by simp [Registry.dispatch, h, hget]
    have he : ∀ svc', r.Execute svc' w input
        = display.Println (display.Println w display.Red ("Unknown command: " ++ cmdName))
            display.Reset "Type 'help' for available commands" := by
      intro svc'; simp [Registry.Execute, hd]
    refine ⟨?_, ?_, ?_, ?_, ?_, ?_, ?_, ?_, ?_⟩
    · intro cmd args; rw [hd]; simp
    · rw [he]; rfl
    · rw [he]; rfl
    · rw [he]; rfl
    · rw [he]; rfl
    · rw [he]; rfl
    · rw [he]
      simp [display.Println, World.print, World.emit, callsOf_append, callsOf]
    · intro h0; rw [h0] at h; simp at h
    · intro svc'; rw [he, he]

/-- Claim C11 on the inputs `frobnicate now` and a blank line, in the registry of
`NewRegistry`. -/
theorem execute_unknown_or_empty_witness :
    (NewRegistry.Execute (Sample.always Sample.afterE5) (Sample.world Sample.inGame [])
      "frobnicate now").s = Sample.inGame ∧
    NewRegistry.Execute (Sample.always Sample.afterE5) (Sample.world Sample.inGame [])
      "  \t " = Sample.world Sample.inGame [] :=
  ⟨(execute_unknown_or_empty_is_inert NewRegistry (Sample.always Sample.afterE5)
      (Sample.world Sample.inGame []) "frobnicate now"
      (Or.inr ⟨"frobnicate", ["now"], by decide, by decide⟩)).2.1,
   (execute_unknown_or_empty_is_inert NewRegistry (Sample.always Sample.afterE5)
      (Sample.world Sample.inGame []) "  \t " (Or.inl (by decide))).2.2.2.2.2.2.2.1
      (by decide)⟩

theorem integerText_rejected (a : String) (h : integerText a = false) :
    (strconv.Atoi a).2 ≠ none := by
  unfold integerText at h
  unfold strconv.Atoi
  simp only [Bool.and_eq_false_imp, Bool.not_eq_true', List.isEmpty_eq_true] at h
  by_cases hs : (a.data.head? == some (Char.ofNat 43) || a.data.head? == some (Char.ofNat 45))
      = true
  · have hs' : (a.data.head? == some (Char.ofNat 43)
        || a.data.head? == some (Char.ofNat 45)) = true := hs
    simp only [hs', if_true] at h
    by_cases he : a.data.tail = []
    · simp [hs', he]
    · have := h (by simpa using he)
      simp [hs', this]
  · have hs' : (a.data.head? == some (Char.ofNat 43)
        || a.data.head? == some (Char.ofNat 45)) = false := by simpa using hs
    simp only [hs', Bool.false_eq_true, if_false] at h
    by_cases he : a.data = []
    · simp [hs', he]
    · have := h (by simpa using he)
      simp [hs', this]

/-- Claim C12: usage errors have no side effect.  With an empty current game, `move`,
`computer`, `undo`, `show`, `state`, `poll` and `delete` without an argument return an
error; so do `join`, `move` and `user` without an argument, `raw` with fewer than two
arguments, and `undo` with a count that is not the text of an integer (or that
`strconv.Atoi` rejects otherwise).  In every case the world returned is the world given:
no round trip, nothing printed, the session unchanged. -/
theorem usage_errors_have_no_effect (svc : Service) (w : World) (args : List String) :
    (w.s.CurrentGame = "" →
      (∃ e, moveHandler svc w args = (w, some e)) ∧
      computerMoveHandler svc w args
        = (w, some "no current game, use 'new' or 'join <gameId>'") ∧
      undoHandler svc w args = (w, some "no current game, use 'new' or 'join <gameId>'") ∧
      showBoardHandler svc w args
        = (w, some "no current game, use 'new' or 'join <gameId>'") ∧
      gameStateHandler svc w args
        = (w, some "no current game, use 'new' or 'join <gameId>'") ∧
      pollHandler svc w args = (w, some "no current game, use 'new' or 'join <gameId>'") ∧
      deleteGameHandler svc w [] = (w, some "specify game ID or set current game")) ∧
    joinGameHandler svc w [] = (w, some "usage: join <gameId>") ∧
    moveHandler svc w [] = (w, some "usage: move <uci-move>") ∧
    setUserHandler svc w [] = (w, some "usage: user <userId>") ∧
    (args.length < 2 →
      rawRequestHandler svc w args = (w, some "usage: raw <method> <path> [json-body]")) ∧
    (∀ a rest, (strconv.Atoi a).2 ≠ none →
      ∃ e, undoHandler svc w (a :: rest) = (w, some e)) ∧
    (∀ a rest, integerText a = false → w.s.CurrentGame ≠ "" →
      undoHandler svc w (a :: rest) = (w, some ("invalid count: " ++ a))) := by
  have hundo : ∀ a rest, (strconv.Atoi a).2 ≠ none → w.s.CurrentGame ≠ "" →
      undoHandler svc w (a :: rest) = (w, some ("invalid count: " ++ a)) := by
    intro a rest ha hg
    unfold undoHandler
    simp only [Session.GetCurrentGame, hg, if_false]
    cases hA : strconv.Atoi a with
    | mk v err =>
      cases err with
      | none => rw [hA] at ha; exact absurd rfl ha
      | some m => rfl
  refine ⟨?_, rfl, rfl, rfl, ?_, ?_, ?_⟩
  · intro hg
    refine ⟨?_, ?_, ?_, ?_, ?_, ?_, ?_⟩
    · cases args with
      | nil => exact ⟨_, rfl⟩
      | cons a rest =>
        exact ⟨"no current game, use 'new' or 'join <gameId>'", by simp [moveHandler, hg]⟩
    · simp [computerMoveHandler, hg]
    · simp [undoHandler, Session.GetCurrentGame, hg]
    · simp [showBoardHandler, Session.GetCurrentGame, hg]
    · simp [gameStateHandler, Session.GetCurrentGame, hg]
    · simp [pollHandler, Session.GetCurrentGame, hg]
    · simp [deleteGameHandler, Session.GetCurrentGame, hg]
  · intro hlen
    match args, hlen with
    | [], _ => rfl
    | [_], _ => rfl
  · intro a rest ha
    by_cases hg : w.s.CurrentGame = ""
    · exact ⟨"no current game, use 'new' or 'join <gameId>'",
        by simp [undoHandler, Session.GetCurrentGame, hg]⟩
    · exact ⟨_, hundo a rest ha hg⟩
  · intro a rest ha hg
    exact hundo a rest (integerText_rejected a ha) hg

/-- Claim C12 in the initial session (no current game) and, for the count of `undo`, in
the session `inGame`. -/
theorem usage_errors_witness :
    pollHandler Sample.down (Sample.world Sample.initial []) []
      = (Sample.world Sample.initial [], some "no current game, use 'new' or 'join <gameId>'") ∧
    rawRequestHandler Sample.down (Sample.world Sample.initial []) ["GET"]
      = (Sample.world Sample.initial [], some "usage: raw <method> <path> [json-body]") ∧
    undoHandler Sample.down (Sample.world Sample.inGame []) ["two"]
      = (Sample.world Sample.inGame [], some "invalid count: two") :=
  have h := usage_errors_have_no_effect Sample.down (Sample.world Sample.initial []) ["GET"]
  have h' := usage_errors_have_no_effect Sample.down (Sample.world Sample.inGame []) []
  ⟨(h.1 rfl).2.2.2.2.2.1, h.2.2.2.2.1 (by decide),
   h'.2.2.2.2.2.2 "two" [] (by decide) (by decide)⟩

/-! ## `Register` -/

theorem Registry.get_set (r : Registry) (key key' : String) (cmd : Command) :
    (r.set key cmd).get key' = if key' = key then some cmd else r.get key' := by
  by_cases h : key' = key
  · subst h
    simp [Registry.get, Registry.set, List.lookup]
  · have hb : (key' == key) = false := by simpa using h
    simp [Registry.get, Registry.set, List.lookup, hb, h]

/-- Claim C16: `Register cmd` makes `cmd` the value of the key `cmd.Name` and, when
`cmd.ShortName` is not empty, of the key `cmd.ShortName`; every other key keeps its
mapping; and registering `cmd` after any earlier command replaces what the earlier one
had put under these keys (last write wins). -/
theorem register_maps_name_and_alias (r : Registry) (cmd : Command) :
    (r.Register cmd).get cmd.Name = some cmd ∧
    (cmd.ShortName ≠ "" → (r.Register cmd).get cmd.ShortName = some cmd) ∧
    (∀ key, key ≠ cmd.Name → (key ≠ cmd.ShortName ∨ cmd.ShortName = "") →
      (r.Register cmd).get key = r.get key) ∧
    (∀ earlier : Command,
      ((r.Register earlier).Register cmd).get cmd.Name = some cmd ∧
      (cmd.ShortName ≠ "" → ((r.Register earlier).Register cmd).get cmd.ShortName = some cmd)) := by
  have hname : ∀ q : Registry, (q.Register cmd).get cmd.Name = some cmd := by
    intro q
    unfold Registry.Register
    by_cases hs : cmd.ShortName = ""
    · simp [hs, Registry.get_set]
    · simp [hs, Registry.get_set]
  have hshort : ∀ q : Registry, cmd.ShortName ≠ "" →
      (q.Register cmd).get cmd.ShortName = some cmd := by
    intro q hs
    unfold Registry.Register
    simp [hs, Registry.get_set]
  refine ⟨hname r, hshort r, ?_, fun earlier => ⟨hname _, hshort _⟩⟩
  intro key hn hsk
  unfold Registry.Register
  by_cases hs : cmd.ShortName = ""
  · simp [hs, Registry.get_set, hn]
  · have hk : key ≠ cmd.ShortName := by
      rcases hsk with h | h
      · exact h
      · exact absurd h hs
    simp [hs, Registry.get_set, hn, hk]

/-- Claim C16 on two commands that share the alias `x`: the later one holds the alias,
the earlier one keeps its name. -/
theorem register_last_write_witness :
    (((Registry.mk []).Register Registry.exitCommand).Register
      { Registry.helpCommand with ShortName := "x" }).get "x"
      = some { Registry.helpCommand with ShortName := "x" } ∧
    (((Registry.mk []).Register Registry.exitCommand).Register
      { Registry.helpCommand with ShortName := "x" }).get "exit"
      = some Registry.exitCommand :=
  have h := register_maps_name_and_alias ((Registry.mk []).Register Registry.exitCommand)
    { Registry.helpCommand with ShortName := "x" }
  ⟨h.2.1 (by decide), (h.2.2.1 "exit" (by decide) (Or.inl (by decide))).trans (by decide)⟩

/-! ## Authentication, continued -/

/-- Claim C17: a successful `login` or `register` sets `AuthToken`, `CurrentUser` and
`Username` to the token, user id and username of the response and changes nothing else
but the bearer token of the client; `logout` sets the three to the empty string; after
each of them the bearer token of the client is the `AuthToken` of the session. -/
theorem auth_fields_follow_response (svc : Service) (w : World) (args : List String) :
    (∀ password resp, svc.ReadPassword w.calls = .ok password →
      svc.Login (w.calls + 1) (strings.TrimSpace w.scan.2) password = .ok resp →
      (loginHandler svc w args).2 = none ∧
      (loginHandler svc w args).1.s
        = { w.s with AuthToken := resp.Token, CurrentUser := resp.UserID,
                     Username := resp.Username,
                     Client := { w.s.Client with AuthToken := resp.Token } } ∧
      (loginHandler svc w args).1.s.Client.AuthToken = (loginHandler svc w args).1.s.AuthToken) ∧
    (∀ password resp, svc.ReadPassword w.calls = .ok password →
      svc.Register (w.calls + 1) (strings.TrimSpace w.scan.2) password
        (strings.TrimSpace w.scan.1.scan.2) = .ok resp →
      (registerHandler svc w args).2 = none ∧
      (registerHandler svc w args).1.s
        = { w.s with AuthToken := resp.Token, CurrentUser := resp.UserID,
                     Username := resp.Username,
                     Client := { w.s.Client with AuthToken := resp.Token } } ∧
      (registerHandler svc w args).1.s.Client.AuthToken
        = (registerHandler svc w args).1.s.AuthToken) ∧
    ((logoutHandler svc w args).2 = none ∧
      (logoutHandler svc w args).1.s
        = { w.s with AuthToken := "", CurrentUser := "", Username := "",
                     Client := { w.s.Client with AuthToken := "" } } ∧
      (logoutHandler svc w args).1.s.Client.AuthToken
        = (logoutHandler svc w args).1.s.AuthToken) := by
  refine ⟨?_, ?_, ?_⟩
  · intro password resp hp hl
    rw [World.scan_line] at hl
    simp [loginHandler, readPassword, display.Print, display.Println, World.print, World.emit,
      World.scan_s, World.scan_calls, World.scan_line, hp, api.Client.Login, World.roundTrip,
      hl, Session.SetAuthToken, Session.SetCurrentUser, Session.SetUsername,
      api.Client.SetToken]
  · intro password resp hp hl
    simp only [World.scan_line, World.scan_stdin] at hl
    simp at hl
    simp [registerHandler, readPassword, display.Print, display.Println, World.print,
      World.emit, World.scan_s, World.scan_calls, World.scan_line, World.scan_stdin, hp,
      api.Client.Register, World.roundTrip, hl, Session.SetAuthToken,
      Session.SetCurrentUser, Session.SetUsername, api.Client.SetToken]
  · exact ⟨rfl, rfl, rfl⟩

/-- Claim C17 on a login as `ann`, answered with user `u1` and token `t1`. -/
theorem auth_fields_witness :
    (loginHandler Sample.authService (Sample.world Sample.initial ["ann"]) []).2 = none ∧
    (loginHandler Sample.authService (Sample.world Sample.initial ["ann"]) []).1.s
      = { Sample.initial with AuthToken := "t1", CurrentUser := "u1", Username := "ann",
                              Client := { Sample.client with AuthToken := "t1" } } :=
  have h := (auth_fields_follow_response Sample.authService
    (Sample.world Sample.initial ["ann"]) []).1 "secret" Sample.authOK rfl rfl
  ⟨h.1, h.2.1⟩

/-! ## Transport errors -/

section

attribute [local irreducible] askPlayer

theorem newGameHandler_error (svc : Service) (w : World) (args : List String) (e : Error)
    (h : svc.CreateGame w.calls (newGameRequest w) = .error e) :
    (newGameHandler svc w args).2 = some e ∧ (newGameHandler svc w args).1.s = w.s := by
  unfold newGameRequest at h
  unfold newGameHandler
  simp only [display.Println, display.Print, World.print, World.emit, api.Client.CreateGame,
    World.roundTrip, World.scan_s, World.scan_calls, askPlayer_frame] at h ⊢
  rw [h]
  simp [World.scan_s, askPlayer_frame]

end

/-- Claim C13 fails as stated: in `computerMoveHandler` the second round trip, a fetch
of the polling loop, returns an error; the handler does not return it: it fetches again,
succeeds and stores the new snapshot. -/
theorem computer_skips_fetch_error :
    (Sample.scripted [.ok Sample.thinking, .error "connection refused",
      .ok Sample.afterE5]).GetGame 1 "g1" = .error "connection refused" ∧
    callsOf (computerMoveHandler (Sample.scripted [.ok Sample.thinking,
      .error "connection refused", .ok Sample.afterE5]) (Sample.world Sample.inGame [])
      []).1.events = [.MakeMove "g1" "cccc", .GetGame "g1", .GetGame "g1"] ∧
    (computerMoveHandler (Sample.scripted [.ok Sample.thinking,
      .error "connection refused", .ok Sample.afterE5]) (Sample.world Sample.inGame [])
      []).2 = none ∧
    (computerMoveHandler (Sample.scripted [.ok Sample.thinking,
      .error "connection refused", .ok Sample.afterE5]) (Sample.world Sample.inGame [])
      []).1.s.CurrentGameState = some Sample.afterE5 ∧
    (computerMoveHandler (Sample.scripted [.ok Sample.thinking,
      .error "connection refused", .ok Sample.afterE5]) (Sample.world Sample.inGame [])
      []).1.s ≠ Sample.inGame := by
  refine ⟨rfl, ?_, ?_, ?_, ?_⟩ <;> decide

/-- Claim C13, amended: in `new`, `join`, `move`, `undo`, `show` (game fetch, and board
fetch after a successful game fetch), `state`, `delete`, `poll`, `register` and `login`,
and for the trigger move of `computer`, a round trip that returns an error makes the
handler return that error with every session field at its value before the call. -/
theorem transport_error_is_returned (svc : Service) (w : World) (args : List String)
    (e : Error) :
    (svc.CreateGame w.calls (newGameRequest w) = .error e →
      (newGameHandler svc w args).2 = some e ∧ (newGameHandler svc w args).1.s = w.s) ∧
    (∀ gameID rest, args = gameID :: rest → svc.GetGame w.calls gameID = .error e →
      (joinGameHandler svc w args).2 = some e ∧ (joinGameHandler svc w args).1.s = w.s) ∧
    (∀ move rest, args = move :: rest → w.s.CurrentGame ≠ "" →
      svc.MakeMove w.calls w.s.CurrentGame move = .error e →
      (moveHandler svc w args).2 = some e ∧ (moveHandler svc w args).1.s = w.s) ∧
    (w.s.CurrentGame ≠ "" → svc.MakeMove w.calls w.s.CurrentGame "cccc" = .error e →
      (computerMoveHandler svc w args).2 = some e ∧
      (computerMoveHandler svc w args).1.s = w.s) ∧
    (∀ count, w.s.CurrentGame ≠ "" → undoCount args = some count →
      svc.UndoMoves w.calls w.s.CurrentGame count = .error e →
      (undoHandler svc w args).2 = some e ∧ (undoHandler svc w args).1.s = w.s) ∧
    (w.s.CurrentGame ≠ "" → svc.GetGame w.calls w.s.CurrentGame = .error e →
      (showBoardHandler svc w args).2 = some e ∧ (showBoardHandler svc w args).1.s = w.s) ∧
    (∀ game, w.s.CurrentGame ≠ "" → svc.GetGame w.calls w.s.CurrentGame = .ok game →
      svc.GetBoard (w.calls + 1) w.s.CurrentGame = .error e →
      (showBoardHandler svc w args).2 = some e ∧ (showBoardHandler svc w args).1.s = w.s) ∧
    (w.s.CurrentGame ≠ "" → svc.GetGame w.calls w.s.CurrentGame = .error e →
      (gameStateHandler svc w args).2 = some e ∧ (gameStateHandler svc w args).1.s = w.s) ∧
    (deleteTarget w.s args ≠ "" →
      svc.DeleteGame w.calls (deleteTarget w.s args) = some e →
      (deleteGameHandler svc w args).2 = some e ∧ (deleteGameHandler svc w args).1.s = w.s) ∧
    (w.s.CurrentGame ≠ "" →
      svc.GetGameWithPoll w.calls w.s.CurrentGame w.s.LastMoveCount = .error e →
      (pollHandler svc w args).2 = some e ∧ (pollHandler svc w args).1.s = w.s) ∧
    (∀ password, svc.ReadPassword w.calls = .ok password →
      svc.Register (w.calls + 1) (strings.TrimSpace w.scan.2) password
        (strings.TrimSpace w.scan.1.scan.2) = .error e →
      (registerHandler svc w args).2 = some e ∧ (registerHandler svc w args).1.s = w.s) ∧
    (∀ password, svc.ReadPassword w.calls = .ok password →
      svc.Login (w.calls + 1) (strings.TrimSpace w.scan.2) password = .error e →
      (loginHandler svc w args).2 = some e ∧ (loginHandler svc w args).1.s = w.s) := by
  refine ⟨newGameHandler_error svc w args e, ?_, ?_, ?_, ?_, ?_, ?_, ?_, ?_, ?_, ?_, ?_⟩
  · intro gameID rest ha hr
    subst ha
    simp [joinGameHandler, api.Client.GetGame, World.roundTrip, hr]
  · intro move rest ha hg hr
    subst ha
    simp [moveHandler, hg, api.Client.MakeMove, World.roundTrip, hr]
  · intro hg hr
    simp [computerMoveHandler, hg, api.Client.MakeMove, World.roundTrip, hr]
  · intro count hg hc hr
    cases args with
    | nil =>
      simp only [undoCount, Option.some.injEq] at hc
      subst hc
      simp [undoHandler, Session.GetCurrentGame, hg, api.Client.UndoMoves, World.roundTrip, hr]
    | cons a rest =>
      simp only [undoCount] at hc
      cases hA : strconv.Atoi a with
      | mk v err =>
        rw [hA] at hc
        cases err with
        | some m => simp at hc
        | none =>
          simp only [if_true, Option.some.injEq] at hc
          subst hc
          simp [undoHandler, Session.GetCurrentGame, hg, hA, api.Client.UndoMoves,
            World.roundTrip, hr]
  · intro hg hr
    simp [showBoardHandler, Session.GetCurrentGame, hg, api.Client.GetGame, World.roundTrip, hr]
  · intro game hg hr hb
    simp [showBoardHandler, Session.GetCurrentGame, hg, api.Client.GetGame,
      api.Client.GetBoard, World.roundTrip, hr, hb]
  · intro hg hr
    simp [gameStateHandler, Session.GetCurrentGame, hg, api.Client.GetGame, World.roundTrip, hr]
  · intro hg hr
    unfold deleteTarget at hg hr
    cases args with
    | nil =>
      simp only at hg hr
      simp [deleteGameHandler, Session.GetCurrentGame, hg, api.Client.DeleteGame,
        World.roundTrip, hr]
    | cons a rest =>
      simp only at hg hr
      simp [deleteGameHandler, Session.GetCurrentGame, hg, api.Client.DeleteGame,
        World.roundTrip, hr]
  · intro hg hr
    simp [pollHandler, Session.GetCurrentGame, Session.GetLastMoveCount, hg,
      api.Client.GetGameWithPoll, display.Println, World.print, World.emit, World.roundTrip, hr]
  · intro password hp hr
    simp only [World.scan_line, World.scan_stdin] at hr
    simp at hr
    simp [registerHandler, readPassword, display.Print, World.print, World.emit,
      World.scan_s, World.scan_calls, World.scan_line, World.scan_stdin, hp,
      api.Client.Register, World.roundTrip, hr]
  · intro password hp hr
    rw [World.scan_line] at hr
    simp [loginHandler, readPassword, display.Print, World.print, World.emit, World.scan_s,
      World.scan_calls, World.scan_line, hp, api.Client.Login, World.roundTrip, hr]

/-- The amended claim C13 on a service that cannot be reached: `show` in the session
`inGame` and `join g1` from the initial session. -/
theorem transport_error_witness :
    ((showBoardHandler Sample.down (Sample.world Sample.inGame []) []).2
      = some "connection refused" ∧
     (showBoardHandler Sample.down (Sample.world Sample.inGame []) []).1.s = Sample.inGame) ∧
    ((joinGameHandler Sample.down (Sample.world Sample.initial []) ["g1"]).2
      = some "connection refused" ∧
     (joinGameHandler Sample.down (Sample.world Sample.initial []) ["g1"]).1.s
      = Sample.initial) :=
  ⟨(transport_error_is_returned Sample.down (Sample.world Sample.inGame []) []
      "connection refused").2.2.2.2.2.1 (by decide) rfl,
   (transport_error_is_returned Sample.down (Sample.world Sample.initial []) ["g1"]
      "connection refused").2.1 "g1" [] rfl rfl⟩

/-! ## The session invariants -/

/-- Claim C14 at its failing inputs.  After `join g1` the move count is the length of
the snapshot's move list.  After `state`, answered with one more move, the snapshot is
still the one of `join` (one move) and `LastMoveCount` is 2.  After `delete` instead, the
snapshot is still held and `LastMoveCount` is 0. -/
theorem state_and_delete_break_move_count_sync :
    moveCountInSync Sample.joined.s ∧
    Sample.joined.s.CurrentGameState = some Sample.afterE4 ∧
    Sample.joinedThenState.s.CurrentGameState = some Sample.afterE4 ∧
    Sample.joinedThenState.s.LastMoveCount = 2 ∧
    ¬ moveCountInSync Sample.joinedThenState.s ∧
    Sample.joinedThenDeleted.s.CurrentGameState = some Sample.afterE4 ∧
    Sample.joinedThenDeleted.s.LastMoveCount = 0 ∧
    ¬ moveCountInSync Sample.joinedThenDeleted.s := by
  decide

/-- Claim C15 at its failing input.  After `user u1` and `join g1` the snapshot is the
current game `g1` and the colour is `w`; after `delete` the current game is empty and the
snapshot of `g1` and the colour `w` are still held. -/
theorem delete_keeps_snapshot_and_color :
    Sample.afterE4.GameID = "g1" ∧
    Sample.userJoinedThenDeleted.s.CurrentGame = "" ∧
    Sample.userJoinedThenDeleted.s.CurrentGameState = some Sample.afterE4 ∧
    Sample.userJoinedThenDeleted.s.PlayerColor = "w" ∧
    ¬ snapshotBelongs Sample.userJoinedThenDeleted.s := by
  decide

/-! ## The prompt -/

theorem buildPrompt_eq_none_iff (s : Session) :
    buildPrompt s = none ↔ s.CurrentGame ≠ "" ∧ (utf8 s.CurrentGame).length < 8 := by
  unfold buildPrompt sliceTo
  by_cases hg : s.CurrentGame = ""
  · simp [hg]
  · by_cases hl : 8 ≤ (utf8 s.CurrentGame).length
    · simp [hg, hl]
    · simp [hg, hl]
      omega

set_option maxRecDepth 100000 in
theorem buildPrompt_on_uuid :
    buildPrompt Sample.joinedUuid.s = some (utf8 (display.Yellow
      ++ "chess" ++ display.Reset ++ " [" ++ display.Reset
      ++ display.White ++ "6f1d2c3b" ++ display.Reset ++ "]" ++ display.Reset
      ++ " - Turn:" ++ display.Reset ++ display.Blue ++ "White" ++ display.Reset
      ++ "(h)" ++ display.Reset ++ display.Yellow ++ " > " ++ display.Reset)) := by
  decide

/-- Claim C20 at its failing input.  `join abc`, answered by the service with the game
of id `abc`, succeeds and makes `abc` the current game; `buildPrompt` on the session that
results slices three bytes to eight and panics.  So it does after `join g1`. -/
theorem buildPrompt_panics_on_short_id :
    (joinGameHandler (Sample.always Sample.shortIdGame) (Sample.world Sample.initial [])
      ["abc"]).2 = none ∧
    Sample.joinedShortId.s.CurrentGame = "abc" ∧
    utf8 "abc" = [97, 98, 99] ∧
    sliceTo (utf8 "abc") 8 = none ∧
    buildPrompt Sample.joinedShortId.s = none ∧
    buildPrompt Sample.joined.s = none := by
  decide


/-- A session that holds the response `resp` with its move count satisfies the invariant
of the move count. -/
theorem moveCountInSync_of_stored (s : Session) (resp : api.GameResponse)
    (hs : s.CurrentGameState = some resp) (hc : s.LastMoveCount = (resp.Moves.length : Int)) :
    moveCountInSync s := by
  unfold moveCountInSync
  rw [hs]
  exact hc

/-- The handlers `new`, `join` and `move` store the game fetched together with its move
count: they establish the invariant of the move count whenever they succeed. -/
theorem new_join_move_keep_move_count_sync (svc : Service) (w w' : World)
    (args : List String)
    (h : newGameHandler svc w args = (w', none) ∨ joinGameHandler svc w args = (w', none) ∨
      moveHandler svc w args = (w', none)) :
    moveCountInSync w'.s := by
  rcases h with h | h | h
  · obtain ⟨_, resp, _, _, hc, hs, _⟩ := newGameHandler_success svc w w' args h
    exact moveCountInSync_of_stored _ resp hs hc
  · obtain ⟨_, resp, _, _, _, hc, hs, _⟩ := joinGameHandler_success svc w w' args h
    exact moveCountInSync_of_stored _ resp hs hc
  · obtain ⟨_, resp, _, _, hs, _⟩ := moveHandler_success svc w w' args h
    rw [hs]
    exact moveCountInSync_of_stored _ resp rfl rfl

/-- The handler `computer` establishes the invariant of the move count whenever it
succeeds, on the direct path and after the polling loop. -/
theorem computer_keeps_move_count_sync (svc : Service) (w w' : World) (args : List String)
    (h : computerMoveHandler svc w args = (w', none)) :
    moveCountInSync w'.s := by
  unfold computerMoveHandler at h
  simp only [display.Println, World.print, World.emit, api.Client.MakeMove,
    World.roundTrip] at h
  split at h
  · simp at h
  · split at h
    · simp at h
    · rename_i resp hr
      split at h
      · obtain ⟨w2, r, _, _, _, hw⟩ := computerMoveLoop_success svc _ 50 _ _ h
        rw [hw, computerMoveDone_session]
        exact moveCountInSync_of_stored _ r rfl rfl
      · simp only [Prod.mk.injEq, and_true] at h
        rw [← h]
        exact moveCountInSync_of_stored _ resp rfl rfl

/-- The handlers `undo` and `poll` establish the invariant of the move count whenever they
succeed. -/
theorem undo_poll_keep_move_count_sync (svc : Service) (w w' : World) (args : List String)
    (h : undoHandler svc w args = (w', none) ∨ pollHandler svc w args = (w', none)) :
    moveCountInSync w'.s := by
  rcases h with h | h
  · unfold undoHandler at h
    simp only [display.Println, World.print, World.emit, api.Client.UndoMoves,
      World.roundTrip, Session.SetLastMoveCount, Session.SetGameState] at h
    repeat' split at h
    all_goals first
      | (simp at h; done)
      | (simp only [Prod.mk.injEq, and_true] at h
         rw [← h]
         exact moveCountInSync_of_stored _ _ rfl rfl)
  · unfold pollHandler at h
    simp only [display.Println, World.print, World.emit, api.Client.GetGameWithPoll,
      World.roundTrip, Session.SetLastMoveCount, Session.SetGameState] at h
    repeat' split at h
    all_goals first
      | (simp at h; done)
      | (simp only [Prod.mk.injEq, and_true] at h
         rw [← h]
         exact moveCountInSync_of_stored _ _ rfl rfl)

/-- The handler `show` establishes the invariant of the move count whenever it succeeds. -/
theorem show_keeps_move_count_sync (svc : Service) (w w' : World) (args : List String)
    (h : showBoardHandler svc w args = (w', none)) :
    moveCountInSync w'.s := by
  unfold showBoardHandler at h
  simp only [World.print, World.emit, api.Client.GetGame, api.Client.GetBoard, World.roundTrip,
    display.RenderBoard, Session.SetLastMoveCount, Session.SetGameState] at h
  split at h
  · simp at h
  · split at h
    · simp at h
    · split at h
      · simp at h
      · rename_i game _ _ board _
        simp only [Prod.mk.injEq, and_true] at h
        rw [← h]
        refine moveCountInSync_of_stored _ game ?_ ?_ <;>
          (repeat' split) <;>
          simp [renderLines_s, printHistory_s]

/-- A session that holds the response `resp` of the current game satisfies the invariant
of the game context. -/
theorem snapshotBelongs_of_stored (s : Session) (resp : api.GameResponse)
    (hs : s.CurrentGameState = some resp) (hg : resp.GameID = s.CurrentGame) :
    snapshotBelongs s := by
  unfold snapshotBelongs
  rw [hs]
  exact hg

theorem computerMoveLoop_belongs (svc : Service) (gameID : String)
    (hsvc : answersRequestedId svc) :
    ∀ (n : Nat) (w w' : World), w.s.CurrentGame = gameID →
      computerMoveLoop svc gameID n w = (w', none) → snapshotBelongs w'.s := by
  intro n
  induction n with
  | zero => intro w w' _ h; simp [computerMoveLoop] at h
  | succ n ih =>
    intro w w' hg h
    rw [computerMoveLoop] at h
    simp only [time.Sleep, api.Client.GetGame, World.emit, World.roundTrip] at h
    cases hr : svc.GetGame w.calls gameID with
    | error e =>
      rw [hr] at h
      exact ih _ w' (by exact hg) h
    | ok r =>
      rw [hr] at h
      by_cases hp : r.State = "pending"
      · simp only [hp, ne_eq, not_true_eq_false, if_false] at h
        exact ih _ w' (by exact hg) h
      · simp only [ne_eq, hp, not_false_eq_true, if_true, Prod.mk.injEq, and_true] at h
        rw [← h, computerMoveDone_session]
        exact snapshotBelongs_of_stored _ r rfl ((hsvc.1 _ _ _ hr).trans hg.symm)

/-- Under the assumption that the service answers with the game requested, the handlers
`new`, `join`, `move` and `computer` leave a snapshot that belongs to the current game
whenever they succeed. -/
theorem storing_handlers_keep_snapshot (svc : Service) (w w' : World) (args : List String)
    (hsvc : answersRequestedId svc)
    (h : newGameHandler svc w args = (w', none) ∨ joinGameHandler svc w args = (w', none) ∨
      moveHandler svc w args = (w', none) ∨ computerMoveHandler svc w args = (w', none)) :
    snapshotBelongs w'.s := by
  rcases h with h | h | h | h
  · obtain ⟨_, resp, _, hg, _, hs, _⟩ := newGameHandler_success svc w w' args h
    exact snapshotBelongs_of_stored _ resp hs hg.symm
  · obtain ⟨gameID, resp, _, hr, hg, _, hs, _⟩ := joinGameHandler_success svc w w' args h
    exact snapshotBelongs_of_stored _ resp hs ((hsvc.1 _ _ _ hr).trans hg.symm)
  · obtain ⟨_, resp, _, hr, hs, _⟩ := moveHandler_success svc w w' args h
    rw [hs]
    exact snapshotBelongs_of_stored _ resp rfl (hsvc.2.2.1 _ _ _ _ hr)
  · unfold computerMoveHandler at h
    simp only [display.Println, World.print, World.emit, api.Client.MakeMove,
      World.roundTrip] at h
    split at h
    · simp at h
    · split at h
      · simp at h
      · rename_i resp hr
        split at h
        · exact computerMoveLoop_belongs svc _ hsvc 50 _ _ rfl h
        · simp only [Prod.mk.injEq, and_true] at h
          rw [← h]
          exact snapshotBelongs_of_stored _ resp rfl (hsvc.2.2.1 _ _ _ _ hr)

theorem faithful_answersRequestedId : answersRequestedId Sample.faithful := by
  refine ⟨?_, ?_, ?_, ?_⟩
  · intro n id resp h
    cases h
    rfl
  · intro n id count resp h
    cases h
    rfl
  · intro n id move resp h
    cases h
    rfl
  · intro n id count resp h
    cases h
    rfl

/-- The invariant of the game context after `join g7` with the service that answers with
the game requested. -/
theorem join_keeps_snapshot_example :
    snapshotBelongs (joinGameHandler Sample.faithful (Sample.world Sample.initial [])
      ["g7"]).1.s :=
  storing_handlers_keep_snapshot Sample.faithful _ _ ["g7"] faithful_answersRequestedId
    (Or.inr (Or.inl rfl))

/-- Under the assumption that the service answers with the game requested, the handlers
`undo`, `poll` and `show` leave a snapshot that belongs to the current game whenever they
succeed. -/
theorem undo_poll_show_keep_snapshot (svc : Service) (w w' : World) (args : List String)
    (hsvc : answersRequestedId svc)
    (h : undoHandler svc w args = (w', none) ∨ pollHandler svc w args = (w', none) ∨
      showBoardHandler svc w args = (w', none)) :
    snapshotBelongs w'.s := by
  rcases h with h | h | h
  · unfold undoHandler at h
    simp only [display.Println, World.print, World.emit, api.Client.UndoMoves,
      World.roundTrip, Session.SetLastMoveCount, Session.SetGameState,
      Session.GetCurrentGame] at h
    repeat' split at h
    all_goals first
      | (simp at h; done)
      | (rename_i resp hr
         simp only [Prod.mk.injEq, and_true] at h
         rw [← h]
         exact snapshotBelongs_of_stored _ resp rfl (hsvc.2.2.2 _ _ _ _ hr))
  · unfold pollHandler at h
    simp only [display.Println, World.print, World.emit, api.Client.GetGameWithPoll,
      World.roundTrip, Session.SetLastMoveCount, Session.SetGameState,
      Session.GetCurrentGame, Session.GetLastMoveCount] at h
    split at h
    · simp at h
    · split at h
      · simp at h
      · rename_i resp hr
        have hg := hsvc.2.1 _ _ _ _ hr
        simp only [Prod.mk.injEq, and_true] at h
        rw [← h]
        (repeat' split) <;> exact snapshotBelongs_of_stored _ resp rfl hg
  · unfold showBoardHandler at h
    simp only [World.print, World.emit, api.Client.GetGame, api.Client.GetBoard,
      World.roundTrip, display.RenderBoard, Session.SetLastMoveCount, Session.SetGameState,
      Session.GetCurrentGame] at h
    split at h
    · simp at h
    · split at h
      · simp at h
      · rename_i game hr
        split at h
        · simp at h
        · simp only [Prod.mk.injEq, and_true] at h
          rw [← h]
          refine snapshotBelongs_of_stored _ game ?_ ?_
          · (repeat' split) <;> simp [renderLines_s, printHistory_s]
          · have hg := hsvc.1 _ _ _ hr
            rw [hg]
            (repeat' split) <;> simp [renderLines_s, printHistory_s]
/-! ## Notifications after a move -/

theorem moveHandler_trace (svc : Service) (w : World) (move : String) (rest : List String)
    (resp : api.GameResponse) (hg : w.s.CurrentGame ≠ "")
    (hr : svc.MakeMove w.calls w.s.CurrentGame move = .ok resp) :
    moveHandler svc w (move :: rest)
      = ({ w with
           s := { w.s with LastMoveCount := (resp.Moves.length : Int),
                           CurrentGameState := some resp }
           calls := w.calls + 1
           events := w.events ++
             [Event.call (.MakeMove w.s.CurrentGame move),
              Event.print (display.C display.Green "Move accepted" ++ "\n")]
             ++ specClassification resp }, none) := by
  simp only [moveHandler, hg, if_false, api.Client.MakeMove, hr, World.roundTrip,
    display.Println, World.print, World.emit, specClassification, checkmateNotice,
    stalemateNotice, drawNotice, promptToActNotice]
  by_cases h1 : resp.State = "checkmate"
  · simp [h1]
  · by_cases h2 : resp.State = "stalemate"
    · simp [h1, h2]
    · by_cases h3 : resp.State = "draw"
      · simp [h1, h2, h3]
      · by_cases h4 : resp.State = "ongoing"
        · by_cases hw : resp.Turn = "w" ∧ resp.Players.White.Type_ = 2
          · simp [h1, h2, h3, h4, hw]
          · by_cases hb : resp.Turn = "b" ∧ resp.Players.Black.Type_ = 2
            · simp [h1, h2, h3, h4, hw, hb]
            · simp [h1, h2, h3, h4, hw, hb]
        · simp [h1, h2, h3, h4]

theorem computerMoveDone_trace (w : World) (r : api.GameResponse) :
    (computerMoveDone w r).events = w.events ++ computerPlayedNotes r ++ gameEndNotes r := by
  unfold computerMoveDone computerPlayedNotes gameEndNotes
  cases r.LastMove <;>
    simp only [display.Println, display.Print, World.print, World.emit, checkmateNotice,
      stalemateNotice, drawNotice] <;>
    (repeat' split) <;> simp

theorem computerMoveLoop_success_trace (svc : Service) (gameID : String) :
    ∀ (n : Nat) (w w' : World), computerMoveLoop svc gameID n w = (w', none) →
      ∃ k r, k < n ∧ svc.GetGame (w.calls + k) gameID = .ok r ∧ r.State ≠ "pending" ∧
        w' = computerMoveDone
          { w with
            calls := w.calls + (k + 1)
            events := w.events ++ pollTrace gameID (k + 1) } r := by
  intro n
  induction n with
  | zero => intro w w' h; simp [computerMoveLoop] at h
  | succ n ih =>
    intro w w' h
    rw [computerMoveLoop] at h
    simp only [time.Sleep, api.Client.GetGame, World.emit, World.roundTrip] at h
    have hstep : ∀ v : World, v = { w with
          calls := w.calls + 1
          events := w.events ++ [Event.sleep 200] ++ [Event.call (.GetGame gameID)] } →
        computerMoveLoop svc gameID n v = (w', none) →
        ∃ k r, k < n + 1 ∧ svc.GetGame (w.calls + k) gameID = .ok r ∧ r.State ≠ "pending" ∧
          w' = computerMoveDone
            { w with
              calls := w.calls + (k + 1)
              events := w.events ++ pollTrace gameID (k + 1) } r := by
      intro v hv hloop
      obtain ⟨k, r, hk, hget, hp, hw'⟩ := ih v w' hloop
      subst hv
      refine ⟨k + 1, r, by omega, ?_, hp, ?_⟩
      · simpa [Nat.add_assoc, Nat.add_comm 1 k] using hget
      · rw [hw']
        simp [pollTrace_succ, Nat.add_assoc, Nat.add_comm 1 (k + 1)]
    cases hr : svc.GetGame w.calls gameID with
    | error e =>
      rw [hr] at h
      exact hstep _ rfl h
    | ok r =>
      rw [hr] at h
      by_cases hp : r.State = "pending"
      · simp only [hp, ne_eq, not_true_eq_false, if_false] at h
        exact hstep _ rfl h
      · simp only [ne_eq, hp, not_false_eq_true, if_true, Prod.mk.injEq, and_true] at h
        refine ⟨0, r, by omega, by simpa using hr, hp, ?_⟩
        rw [← h]
        simp [pollTrace]

theorem promptToAct_not_in_loop_notes (resp : api.GameResponse) :
    promptToActNotice ∉ computerPlayedNotes resp ++ gameEndNotes resp := by
  have h1 : ∀ mv : String, promptToActNotice
      ≠ Event.print (display.C display.Magenta ("Computer played: " ++ mv)) := by
    intro mv h
    have := congrArg String.data (Event.print.inj h)
    simp [display.C, display.Magenta, String.data_append] at this
  have h2 : ∀ d sc : Int, promptToActNotice
      ≠ Event.print (" (depth " ++ toString d ++ ", score " ++ toString sc ++ ")") := by
    intro d sc h
    have := congrArg String.data (Event.print.inj h)
    simp [display.C, display.Magenta, String.data_append] at this
  have h3 : promptToActNotice ≠ Event.print "\n" := by decide
  have h4 : ∀ turn : String, promptToActNotice ≠ checkmateNotice turn := by
    intro turn h
    have := congrArg String.data (Event.print.inj h)
    simp [checkmateNotice, display.C, display.Magenta, display.Green, String.data_append]
      at this
  have h5 : promptToActNotice ≠ stalemateNotice := by decide
  have h6 : promptToActNotice ≠ drawNotice := by decide
  unfold computerPlayedNotes gameEndNotes
  cases resp.LastMove with
  | none =>
    simp only [List.nil_append]
    repeat' split
    all_goals simp [h4, h5, h6]
  | some lastMove =>
    simp only [List.mem_append, not_or]
    refine ⟨?_, ?_⟩
    · repeat' split
      all_goals simp [h1, h2, h3]
    · repeat' split
      all_goals simp [h4, h5, h6]

/-- The polling loop in a game of two computers: `computerMoveHandler` succeeds with a
snapshot in state `ongoing` and a computer to move; the classification asks for the prompt
to act, and the handler prints the move played and nothing else. -/
theorem reconciliation_prints_no_prompt_to_act :
    (computerMoveHandler (Sample.scripted [.ok Sample.computersThinking,
      .ok Sample.computersGame]) (Sample.world Sample.watching []) []).2 = none ∧
    (computerMoveHandler (Sample.scripted [.ok Sample.computersThinking,
      .ok Sample.computersGame]) (Sample.world Sample.watching []) []).1.s.CurrentGameState
      = some Sample.computersGame ∧
    specClassification Sample.computersGame = [promptToActNotice] ∧
    (computerMoveHandler (Sample.scripted [.ok Sample.computersThinking,
      .ok Sample.computersGame]) (Sample.world Sample.watching []) []).1.events
      = [Event.call (.MakeMove "g2" "cccc"),
         Event.print (display.C display.Magenta "Computer is thinking..." ++ "\n"),
         Event.sleep 200, Event.call (.GetGame "g2"),
         Event.print (display.C display.Magenta "Computer played: e2e4"),
         Event.print " (depth 6, score 20)", Event.print "\n"] ∧
    promptToActNotice ∉ (computerMoveHandler (Sample.scripted [.ok Sample.computersThinking,
      .ok Sample.computersGame]) (Sample.world Sample.watching []) []).1.events := by
  decide

/-- What two of the three paths print, for every service.  A successful `moveHandler` has
made one round trip and printed `Move accepted` followed by the classification of the
snapshot it stored: the winner on checkmate, a drawn game on stalemate and draw, the prompt
to act when the game is ongoing with a computer to move; no round trip follows.  A
successful polling loop of `computerMoveHandler` has printed, after its last fetch, the move
played (when `LastMove` is present) and the announcement of checkmate, stalemate or draw of
the snapshot it stored, and never the prompt to act. -/
theorem notifications_after_a_move (svc : Service) (w w' : World) (args : List String) :
    (moveHandler svc w args = (w', none) →
      ∃ move resp, args.head? = some move ∧
        svc.MakeMove w.calls w.s.CurrentGame move = .ok resp ∧
        w'.s.CurrentGameState = some resp ∧
        w'.events = w.events ++
          [Event.call (.MakeMove w.s.CurrentGame move),
           Event.print (display.C display.Green "Move accepted" ++ "\n")]
          ++ specClassification resp ∧
        callsOf w'.events = callsOf w.events ++ [.MakeMove w.s.CurrentGame move]) ∧
    (computerMoveHandler svc w args = (w', none) →
      (∃ trigger, svc.MakeMove w.calls w.s.CurrentGame "cccc" = .ok trigger ∧
        trigger.State = "pending") →
      ∃ k resp, k < 50 ∧ svc.GetGame (w.calls + 1 + k) w.s.CurrentGame = .ok resp ∧
        resp.State ≠ "pending" ∧
        w'.s.CurrentGameState = some resp ∧
        w'.events = w.events ++
          [Event.call (.MakeMove w.s.CurrentGame "cccc"),
           Event.print (display.C display.Magenta "Computer is thinking..." ++ "\n")]
          ++ pollTrace w.s.CurrentGame (k + 1)
          ++ computerPlayedNotes resp ++ gameEndNotes resp ∧
        promptToActNotice ∉ computerPlayedNotes resp ++ gameEndNotes resp) := by
  refine ⟨?_, ?_⟩
  · intro h
    cases args with
    | nil => simp [moveHandler] at h
    | cons move rest =>
      by_cases hg : w.s.CurrentGame = ""
      · simp [moveHandler, hg] at h
      · cases hr : svc.MakeMove w.calls w.s.CurrentGame move with
        | error e => simp [moveHandler, hg, api.Client.MakeMove, hr] at h
        | ok resp =>
          rw [moveHandler_trace svc w move rest resp hg hr] at h
          simp only [Prod.mk.injEq, and_true] at h
          refine ⟨move, resp, rfl, hr, ?_, ?_, ?_⟩
          · rw [← h]
          · rw [← h]
          · rw [← h]
            have hc : callsOf (specClassification resp) = [] := by
              unfold specClassification checkmateNotice stalemateNotice drawNotice
                promptToActNotice
              repeat' split
              all_goals rfl
            simp [callsOf_append, callsOf, hc]
  · intro h ⟨trigger, htrig, hpend⟩
    by_cases hg : w.s.CurrentGame = ""
    · simp [computerMoveHandler, hg] at h
    · simp only [computerMoveHandler, hg, if_false, api.Client.MakeMove, htrig, hpend,
        if_true] at h
      obtain ⟨k, resp, hk, hget, hp, hw'⟩ := computerMoveLoop_success_trace svc _ _ _ _ h
      refine ⟨k, resp, hk, ?_, hp, ?_, ?_, ?_⟩
      · simpa [display.Println, World.print, World.emit, World.roundTrip] using hget
      · rw [hw', computerMoveDone_session]
      · rw [hw', computerMoveDone_trace]
        simp [display.Println, World.print, World.emit, World.roundTrip]
      · exact promptToAct_not_in_loop_notes resp

/-- The two paths on a move answered `ongoing` with the black computer to move, and on a
mating move of Black found by the polling loop. -/
theorem notifications_after_a_move_witness :
    (moveHandler (Sample.always Sample.afterE4) (Sample.world Sample.uncoloured [])
      ["e2e4"]).1.events
      = [Event.call (.MakeMove "g1" "e2e4"),
         Event.print (display.C display.Green "Move accepted" ++ "\n"), promptToActNotice] ∧
    ∃ k, (computerMoveHandler (Sample.thinkingThen 2 Sample.matedByBlack)
      (Sample.world Sample.inGame []) []).1.events
      = [Event.call (.MakeMove "g1" "cccc"),
         Event.print (display.C display.Magenta "Computer is thinking..." ++ "\n")]
        ++ pollTrace "g1" (k + 1)
        ++ computerPlayedNotes Sample.matedByBlack ++ gameEndNotes Sample.matedByBlack := by
  have h1 := (notifications_after_a_move (Sample.always Sample.afterE4)
    (Sample.world Sample.uncoloured [])
    (moveHandler (Sample.always Sample.afterE4) (Sample.world Sample.uncoloured [])
      ["e2e4"]).1 ["e2e4"]).1 rfl
  have h2 := (notifications_after_a_move (Sample.thinkingThen 2 Sample.matedByBlack)
    (Sample.world Sample.inGame [])
    (computerMoveHandler (Sample.thinkingThen 2 Sample.matedByBlack)
      (Sample.world Sample.inGame []) []).1 []).2 rfl ⟨Sample.thinking, rfl, rfl⟩
  refine ⟨?_, ?_⟩
  · obtain ⟨move, resp, hm, hr, _, hev, _⟩ := h1
    have hmove : move = "e2e4" := by simpa using hm.symm
    have hresp : resp = Sample.afterE4 := (Except.ok.inj hr).symm
    subst hmove hresp
    exact hev.trans (by decide)
  · obtain ⟨k, resp, _, _, _, hs, hev, _⟩ := h2
    have hresp : resp = Sample.matedByBlack := by
      have : (computerMoveHandler (Sample.thinkingThen 2 Sample.matedByBlack)
          (Sample.world Sample.inGame []) []).1.s.CurrentGameState
          = some Sample.matedByBlack := by decide
      rw [this] at hs
      simpa using hs.symm
    subst hresp
    exact ⟨k, hev.trans (by simp [Sample.world, Sample.inGame])⟩

/-- The answer of `computerMoveHandler` to a trigger answered at once with a checkmate:
`Move triggered` and no announcement. -/
theorem computer_direct_answer_trace :
    (computerMoveHandler (Sample.always Sample.matedByBlack) (Sample.world Sample.inGame [])
      []).1.events
      = [Event.call (.MakeMove "g1" "cccc"),
         Event.print (display.C display.Green "Move triggered" ++ "\n")] := by
  decide

/-- The third path, for every service: when the trigger move of `computerMoveHandler` is
answered at once with a state other than `pending`, the handler stores the answer, prints
`Move triggered` and nothing else, whatever the state of the answer. -/
theorem computerMove_direct_trace (svc : Service) (w : World) (args : List String)
    (resp : api.GameResponse) (hg : w.s.CurrentGame ≠ "")
    (hr : svc.MakeMove w.calls w.s.CurrentGame "cccc" = .ok resp)
    (hp : resp.State ≠ "pending") :
    computerMoveHandler svc w args
      = ({ w with
           s := { w.s with LastMoveCount := (resp.Moves.length : Int),
                           CurrentGameState := some resp }
           calls := w.calls + 1
           events := w.events ++
             [Event.call (.MakeMove w.s.CurrentGame "cccc"),
              Event.print (display.C display.Green "Move triggered" ++ "\n")] }, none) := by
  simp [computerMoveHandler, hg, api.Client.MakeMove, hr, hp, World.roundTrip,
    display.Println, World.print, World.emit]

/-- Claim C18 at its failing inputs.  With the trigger of `computer` answered at once with
a checkmate by Black, `computerMoveHandler` succeeds and stores that snapshot; the
classification of the snapshot announces the winner, and the handler prints `Move
triggered` and no announcement, where `moveHandler` given the same answer prints it.  In a
game of two computers, with the trigger answered `pending` and the first fetch answered
`ongoing` with the black computer to move, `computerMoveHandler` succeeds and stores that
snapshot; the classification is the prompt to act, and the handler prints the move played
and no prompt, where `moveHandler` given the same answer prints it. -/
theorem computer_paths_skip_classification :
    (computerMoveHandler (Sample.always Sample.matedByBlack) (Sample.world Sample.inGame [])
      []).2 = none ∧
    (computerMoveHandler (Sample.always Sample.matedByBlack) (Sample.world Sample.inGame [])
      []).1.s.CurrentGameState = some Sample.matedByBlack ∧
    specClassification Sample.matedByBlack = [checkmateNotice "w"] ∧
    (computerMoveHandler (Sample.always Sample.matedByBlack) (Sample.world Sample.inGame [])
      []).1.events
      = [Event.call (.MakeMove "g1" "cccc"),
         Event.print (display.C display.Green "Move triggered" ++ "\n")] ∧
    checkmateNotice "w" ∉ (computerMoveHandler (Sample.always Sample.matedByBlack)
      (Sample.world Sample.inGame []) []).1.events ∧
    (moveHandler (Sample.always Sample.matedByBlack) (Sample.world Sample.inGame [])
      ["d8h4"]).1.events
      = [Event.call (.MakeMove "g1" "d8h4"),
         Event.print (display.C display.Green "Move accepted" ++ "\n"),
         checkmateNotice "w"] ∧
    (computerMoveHandler (Sample.scripted [.ok Sample.computersThinking,
      .ok Sample.computersGame]) (Sample.world Sample.watching []) []).2 = none ∧
    (computerMoveHandler (Sample.scripted [.ok Sample.computersThinking,
      .ok Sample.computersGame]) (Sample.world Sample.watching []) []).1.s.CurrentGameState
      = some Sample.computersGame ∧
    specClassification Sample.computersGame = [promptToActNotice] ∧
    (computerMoveHandler (Sample.scripted [.ok Sample.computersThinking,
      .ok Sample.computersGame]) (Sample.world Sample.watching []) []).1.events
      = [Event.call (.MakeMove "g2" "cccc"),
         Event.print (display.C display.Magenta "Computer is thinking..." ++ "\n"),
         Event.sleep 200, Event.call (.GetGame "g2"),
         Event.print (display.C display.Magenta "Computer played: e2e4"),
         Event.print " (depth 6, score 20)", Event.print "\n"] ∧
    promptToActNotice ∉ (computerMoveHandler (Sample.scripted [.ok Sample.computersThinking,
      .ok Sample.computersGame]) (Sample.world Sample.watching []) []).1.events ∧
    (moveHandler (Sample.always Sample.computersGame) (Sample.world Sample.watching [])
      ["e2e4"]).1.events
      = [Event.call (.MakeMove "g2" "e2e4"),
         Event.print (display.C display.Green "Move accepted" ++ "\n"),
         promptToActNotice] := by
  decide

/-! ## `moveHandler` and the state `pending` -/

/-- Claim C19 fails as stated: a move answered with state `pending` makes `moveHandler`
succeed at once, without a sleep or a fetch, and the snapshot it stores has state
`pending`. -/
theorem move_answered_pending_is_stored :
    (moveHandler (Sample.always Sample.thinking) (Sample.world Sample.uncoloured [])
      ["e2e4"]).2 = none ∧
    (moveHandler (Sample.always Sample.thinking) (Sample.world Sample.uncoloured [])
      ["e2e4"]).1.s.CurrentGameState = some Sample.thinking ∧
    Sample.thinking.State = "pending" ∧
    (moveHandler (Sample.always Sample.thinking) (Sample.world Sample.uncoloured [])
      ["e2e4"]).1.events
      = [Event.call (.MakeMove "g1" "e2e4"),
         Event.print (display.C display.Green "Move accepted" ++ "\n")] := by
  decide

/-- Claim C19, amended: `moveHandler` never runs the reconciliation protocol.  Whatever
the service answers it neither sleeps nor fetches the game and makes at most one round
trip; a move answered with state `pending` is stored as the snapshot, with its move
count, and the handler succeeds having printed `Move accepted` only. -/
theorem move_never_polls (svc : Service) (w : World) (args : List String) :
    sleepTotal (moveHandler svc w args).1.events = sleepTotal w.events ∧
    fetchCount (moveHandler svc w args).1.events = fetchCount w.events ∧
    (moveHandler svc w args).1.calls ≤ w.calls + 1 ∧
    (∀ move rest resp, args = move :: rest → w.s.CurrentGame ≠ "" →
      svc.MakeMove w.calls w.s.CurrentGame move = .ok resp → resp.State = "pending" →
      moveHandler svc w args
        = ({ w with
             s := { w.s with LastMoveCount := (resp.Moves.length : Int),
                             CurrentGameState := some resp }
             calls := w.calls + 1
             events := w.events ++
               [Event.call (.MakeMove w.s.CurrentGame move),
                Event.print (display.C display.Green "Move accepted" ++ "\n")] }, none)) := by
  have hprints : ∀ resp : api.GameResponse,
      sleepTotal (specClassification resp) = 0 ∧ fetchCount (specClassification resp) = 0 := by
    intro resp
    unfold specClassification checkmateNotice stalemateNotice drawNotice promptToActNotice
    repeat' split
    all_goals exact ⟨rfl, rfl⟩
  have hcases : (moveHandler svc w args).1 = w ∨
      (∃ move, (moveHandler svc w args).1 = w.roundTrip (.MakeMove w.s.CurrentGame move)) ∨
      ∃ move rest resp, args = move :: rest ∧ w.s.CurrentGame ≠ "" ∧
        svc.MakeMove w.calls w.s.CurrentGame move = .ok resp := by
    cases args with
    | nil => exact Or.inl rfl
    | cons move rest =>
      by_cases hg : w.s.CurrentGame = ""
      · exact Or.inl (by simp [moveHandler, hg])
      · cases hr : svc.MakeMove w.calls w.s.CurrentGame move with
        | error e =>
          exact Or.inr (Or.inl ⟨move, by simp [moveHandler, hg, api.Client.MakeMove, hr]⟩)
        | ok resp => exact Or.inr (Or.inr ⟨move, rest, resp, rfl, hg, hr⟩)
  refine ⟨?_, ?_, ?_, ?_⟩
  · rcases hcases with h | ⟨move, h⟩ | ⟨move, rest, resp, ha, hg, hr⟩
    · rw [h]
    · rw [h]; simp [World.roundTrip, sleepTotal_append, sleepTotal]
    · subst ha
      rw [moveHandler_trace svc w move rest resp hg hr]
      simp [sleepTotal_append, sleepTotal, (hprints resp).1]
  · rcases hcases with h | ⟨move, h⟩ | ⟨move, rest, resp, ha, hg, hr⟩
    · rw [h]
    · rw [h]; simp [World.roundTrip, fetchCount_append, fetchCount]
    · subst ha
      rw [moveHandler_trace svc w move rest resp hg hr]
      simp [fetchCount_append, fetchCount, (hprints resp).2]
  · rcases hcases with h | ⟨move, h⟩ | ⟨move, rest, resp, ha, hg, hr⟩
    · rw [h]; omega
    · rw [h]; simp [World.roundTrip]
    · subst ha
      rw [moveHandler_trace svc w move rest resp hg hr]
  · intro move rest resp ha hg hr hp
    subst ha
    rw [moveHandler_trace svc w move rest resp hg hr]
    have : specClassification resp = [] := by
      simp [specClassification, hp]
    rw [this]
    simp

/-- The amended claim C19 on a move answered `pending`. -/
theorem move_never_polls_witness :
    sleepTotal (moveHandler (Sample.always Sample.thinking)
      (Sample.world Sample.uncoloured []) ["e2e4"]).1.events = 0 ∧
    fetchCount (moveHandler (Sample.always Sample.thinking)
      (Sample.world Sample.uncoloured []) ["e2e4"]).1.events = 0 ∧
    (moveHandler (Sample.always Sample.thinking) (Sample.world Sample.uncoloured [])
      ["e2e4"]).1.s.CurrentGameState = some Sample.thinking :=
  have h := move_never_polls (Sample.always Sample.thinking)
    (Sample.world Sample.uncoloured []) ["e2e4"]
  ⟨h.1, h.2.1,
   congrArg (fun p => p.1.s.CurrentGameState)
     (h.2.2.2 "e2e4" [] Sample.thinking rfl (by decide) rfl rfl)⟩


/-! ## Fetch errors in the polling loop -/

theorem sleepTotal_prints (notes : List Event) (h : ∀ e ∈ notes, ∃ text, e = Event.print text) :
    sleepTotal notes = 0 := by
  induction notes with
  | nil => rfl
  | cons e es ih =>
    obtain ⟨t, rfl⟩ := h e (List.mem_cons_self _ _)
    simp only [sleepTotal]
    exact ih (fun e he => h e (List.mem_cons_of_mem _ he))

/-- An answer that ends the wait is a game in a state other than `pending`. -/
theorem not_stillWaiting (r : Except Error api.GameResponse) (h : ¬ stillWaiting r) :
    ∃ r2, r = .ok r2 ∧ r2.State ≠ "pending" := by
  cases r with
  | error e => exact absurd trivial h
  | ok r2 => exact ⟨r2, rfl, h⟩

/-- One round of the polling loop whose fetch fails: the loop goes on with one iteration
less, from the same session, after one sleep and one round trip. -/
theorem computerMoveLoop_error_step (svc : Service) (gameID : String) (n : Nat) (w : World)
    (e : Error) (h : svc.GetGame w.calls gameID = .error e) :
    computerMoveLoop svc gameID (n + 1) w
      = computerMoveLoop svc gameID n
          { w with
            calls := w.calls + 1
            events := w.events ++ [Event.sleep 200, Event.call (.GetGame gameID)] } := by
  rw [computerMoveLoop]
  simp only [time.Sleep, api.Client.GetGame, World.emit, World.roundTrip, h, List.append_assoc,
    List.singleton_append]

/-- The polling loop after `i` rounds of waiting: `n` iterations are left, the session is
the same, and `i` rounds of sleep and fetch have been made. -/
theorem computerMoveLoop_skip (svc : Service) (gameID : String) :
    ∀ (i n : Nat) (w : World),
      (∀ j, j < i → stillWaiting (svc.GetGame (w.calls + j) gameID)) →
      computerMoveLoop svc gameID (i + n) w
        = computerMoveLoop svc gameID n
            { w with calls := w.calls + i, events := w.events ++ pollTrace gameID i } := by
  intro i
  induction i with
  | zero => intro n w _; simp [pollTrace]
  | succ i ih =>
    intro n w h
    have h0 := h 0 (Nat.succ_pos i)
    simp only [Nat.add_zero] at h0
    have hrest : ∀ j, j < i → stillWaiting (svc.GetGame (w.calls + 1 + j) gameID) := by
      intro j hj
      have := h (j + 1) (Nat.succ_lt_succ hj)
      rwa [show w.calls + (j + 1) = w.calls + 1 + j by omega] at this
    have key := ih n
      { w with
        calls := w.calls + 1
        events := w.events ++ [Event.sleep 200, Event.call (.GetGame gameID)] } hrest
    rw [show i + 1 + n = (i + n) + 1 by omega, computerMoveLoop]
    simp only [time.Sleep, api.Client.GetGame, World.emit, World.roundTrip]
    cases hres : svc.GetGame w.calls gameID with
    | error e =>
      simp only [List.append_assoc, List.singleton_append] at key ⊢
      rw [key]
      simp [pollTrace_succ, Nat.add_assoc, Nat.add_comm 1 i]
    | ok r0 =>
      rw [hres] at h0
      have hp : r0.State = "pending" := h0
      simp only [hp, ne_eq, not_true_eq_false, if_false, List.append_assoc,
        List.singleton_append] at key ⊢
      rw [key]
      simp [pollTrace_succ, Nat.add_assoc, Nat.add_comm 1 i]

/-- The fetches of a run of the polling loop either all leave it waiting, or there is a
first one that returns a state other than `pending`. -/
theorem first_answer_or_all_waiting (svc : Service) (gameID : String) (c n : Nat) :
    (∀ k, k < n → stillWaiting (svc.GetGame (c + k) gameID)) ∨
    ∃ k r, k < n ∧ (∀ j, j < k → stillWaiting (svc.GetGame (c + j) gameID)) ∧
      svc.GetGame (c + k) gameID = .ok r ∧ r.State ≠ "pending" := by
  by_cases hall : ∀ k, k < n → stillWaiting (svc.GetGame (c + k) gameID)
  · exact Or.inl hall
  · right
    have hex : ∃ k, k < n ∧ ¬ stillWaiting (svc.GetGame (c + k) gameID) := by
      by_contra hno
      apply hall
      intro k hk
      by_contra hw
      exact hno ⟨k, hk, hw⟩
    obtain ⟨hlt, hnot⟩ := Nat.find_spec hex
    obtain ⟨r, hr, hp⟩ := not_stillWaiting _ hnot
    refine ⟨Nat.find hex, r, hlt, ?_, hr, hp⟩
    intro j hj
    by_contra hw
    exact Nat.find_min hex hj ⟨Nat.lt_trans hj hlt, hw⟩

/-- The handler `computerMoveHandler` whose trigger move is answered `pending` is the
polling loop of 50 iterations, run after the round trip of the trigger and the line
`Computer is thinking...`. -/
theorem computerMove_pending_is_loop (svc : Service) (w : World) (args : List String)
    (resp : api.GameResponse)
    (hgame : w.s.CurrentGame ≠ "")
    (htrigger : svc.MakeMove w.calls w.s.CurrentGame "cccc" = .ok resp)
    (hpending : resp.State = "pending") :
    computerMoveHandler svc w args
      = computerMoveLoop svc w.s.CurrentGame 50
          { w with
            calls := w.calls + 1
            events := w.events ++
              [Event.call (.MakeMove w.s.CurrentGame "cccc"),
               Event.print (display.Magenta ++ "Computer is thinking..." ++ display.Reset
                 ++ "\n")] } := by
  simp only [computerMoveHandler, hgame, if_false, api.Client.MakeMove, htrigger, hpending,
    if_true, display.Println, display.C, World.print, World.emit, World.roundTrip,
    List.append_assoc, List.singleton_append]

/-- The run of `computerMoveHandler` whose fetch `k + 1` is the first to return a state
other than `pending`, the earlier ones being answered `pending` or with an error. -/
theorem computerMove_found_after_waiting (svc : Service) (w : World) (args : List String)
    (resp r2 : api.GameResponse) (k : Nat)
    (hgame : w.s.CurrentGame ≠ "")
    (htrigger : svc.MakeMove w.calls w.s.CurrentGame "cccc" = .ok resp)
    (hpending : resp.State = "pending")
    (hk : k < 50)
    (hfirst : ∀ j, j < k → stillWaiting (svc.GetGame (w.calls + 1 + j) w.s.CurrentGame))
    (hnext : svc.GetGame (w.calls + 1 + k) w.s.CurrentGame = .ok r2)
    (hdone : r2.State ≠ "pending") :
    ∃ w' notes, computerMoveHandler svc w args = (w', none) ∧
      w'.events = w.events ++
        [Event.call (.MakeMove w.s.CurrentGame "cccc"),
         Event.print (display.Magenta ++ "Computer is thinking..." ++ display.Reset ++ "\n")]
        ++ pollTrace w.s.CurrentGame (k + 1) ++ notes ∧
      (∀ e ∈ notes, ∃ text, e = Event.print text) ∧
      w'.s = { w.s with LastMoveCount := (r2.Moves.length : Int),
                        CurrentGameState := some r2 } := by
  have hrun := computerMove_pending_is_loop svc w args resp hgame htrigger hpending
  have hloop := computerMoveLoop_found svc w.s.CurrentGame r2 hdone k 50
    { w with
      calls := w.calls + 1
      events := w.events ++
        [Event.call (.MakeMove w.s.CurrentGame "cccc"),
         Event.print (display.Magenta ++ "Computer is thinking..." ++ display.Reset ++ "\n")] }
    hk hfirst hnext
  rw [hloop] at hrun
  obtain ⟨notes, hev, hnotes⟩ := computerMoveDone_events
    { s := w.s, stdin := w.stdin, calls := w.calls + 1 + (k + 1),
      events := (w.events ++
        [Event.call (.MakeMove w.s.CurrentGame "cccc"),
         Event.print (display.Magenta ++ "Computer is thinking..." ++ display.Reset ++ "\n")])
        ++ pollTrace w.s.CurrentGame (k + 1) } r2
  refine ⟨_, notes, hrun, ?_, hnotes, ?_⟩
  · rw [hev]
  · rw [computerMoveDone_session]

/-- The run of `computerMoveHandler` whose 50 fetches are all answered `pending` or with
an error. -/
theorem computerMove_timeout_after_waiting (svc : Service) (w : World) (args : List String)
    (resp : api.GameResponse)
    (hgame : w.s.CurrentGame ≠ "")
    (htrigger : svc.MakeMove w.calls w.s.CurrentGame "cccc" = .ok resp)
    (hpending : resp.State = "pending")
    (hall : ∀ k, k < 50 → stillWaiting (svc.GetGame (w.calls + 1 + k) w.s.CurrentGame)) :
    computerMoveHandler svc w args
      = ({ w with
           calls := w.calls + 1 + 50
           events := w.events ++
             [Event.call (.MakeMove w.s.CurrentGame "cccc"),
              Event.print (display.Magenta ++ "Computer is thinking..." ++ display.Reset
                ++ "\n")]
             ++ pollTrace w.s.CurrentGame 50 },
         some "timeout waiting for computer move") := by
  have hrun := computerMove_pending_is_loop svc w args resp hgame htrigger hpending
  have hloop := computerMoveLoop_waiting svc w.s.CurrentGame 50
    { w with
      calls := w.calls + 1
      events := w.events ++
        [Event.call (.MakeMove w.s.CurrentGame "cccc"),
         Event.print (display.Magenta ++ "Computer is thinking..." ++ display.Reset ++ "\n")] }
    hall
  rw [hloop] at hrun
  exact hrun

/-- Claim C21: with a non-empty current game and the trigger move answered `pending`, let
fetch `i + 1` of the polling loop return an error, the fetches before it being answered
`pending` or with an error.  The command does not end there: the handler is the rest of the
loop, with `50 - (i + 1)` iterations left, run from the unchanged session after `i + 1`
rounds of sleep and fetch.  When a fetch among the 50 is the first to return a state other
than `pending`, it comes after the failed one and the handler succeeds with its response as
the snapshot, having slept and fetched once for every attempt, the failed ones included; so
the handler succeeds as soon as some fetch among the 50 returns such a state.  When none
does, the handler returns the timeout error after 50 rounds with the session unchanged.  The
result is always success or the timeout error: the error of the fetch is never returned. -/
theorem computerMove_fetch_error_is_skipped (svc : Service) (w : World) (args : List String)
    (resp : api.GameResponse) (e : Error) (i : Nat)
    (hgame : w.s.CurrentGame ≠ "")
    (htrigger : svc.MakeMove w.calls w.s.CurrentGame "cccc" = .ok resp)
    (hpending : resp.State = "pending")
    (hi : i < 50)
    (hbefore : ∀ j, j < i → stillWaiting (svc.GetGame (w.calls + 1 + j) w.s.CurrentGame))
    (herr : svc.GetGame (w.calls + 1 + i) w.s.CurrentGame = .error e) :
    (∃ wi, computerMoveHandler svc w args
          = computerMoveLoop svc w.s.CurrentGame (50 - (i + 1)) wi ∧
        wi.s = w.s ∧ wi.calls = w.calls + 1 + (i + 1) ∧
        wi.events = w.events ++
          [Event.call (.MakeMove w.s.CurrentGame "cccc"),
           Event.print (display.Magenta ++ "Computer is thinking..." ++ display.Reset ++ "\n")]
          ++ pollTrace w.s.CurrentGame (i + 1)) ∧
    (∀ k r2, k < 50 →
        (∀ j, j < k → stillWaiting (svc.GetGame (w.calls + 1 + j) w.s.CurrentGame)) →
        svc.GetGame (w.calls + 1 + k) w.s.CurrentGame = .ok r2 → r2.State ≠ "pending" →
        i < k ∧ ∃ w' notes, computerMoveHandler svc w args = (w', none) ∧
          w'.events = w.events ++
            [Event.call (.MakeMove w.s.CurrentGame "cccc"),
             Event.print (display.Magenta ++ "Computer is thinking..." ++ display.Reset
               ++ "\n")]
            ++ pollTrace w.s.CurrentGame (k + 1) ++ notes ∧
          (∀ n ∈ notes, ∃ text, n = Event.print text) ∧
          fetchCount w'.events = fetchCount w.events + (k + 1) ∧
          sleepTotal w'.events = sleepTotal w.events + 200 * (k + 1) ∧
          w'.s = { w.s with LastMoveCount := (r2.Moves.length : Int),
                            CurrentGameState := some r2 }) ∧
    ((∃ k r2, k < 50 ∧ svc.GetGame (w.calls + 1 + k) w.s.CurrentGame = .ok r2 ∧
          r2.State ≠ "pending") →
        ∃ w', computerMoveHandler svc w args = (w', none)) ∧
    ((∀ k, k < 50 → stillWaiting (svc.GetGame (w.calls + 1 + k) w.s.CurrentGame)) →
        ∃ w', computerMoveHandler svc w args
            = (w', some "timeout waiting for computer move") ∧
          w'.s = w.s ∧
          fetchCount w'.events = fetchCount w.events + 50 ∧
          sleepTotal w'.events = sleepTotal w.events + 10000) ∧
    (∃ w', computerMoveHandler svc w args = (w', none) ∨
        computerMoveHandler svc w args = (w', some "timeout waiting for computer move")) ∧
    (e ≠ "timeout waiting for computer move" →
        ∀ w', computerMoveHandler svc w args ≠ (w', some e)) := by
  have hrun := computerMove_pending_is_loop svc w args resp hgame htrigger hpending
  have hsplit := first_answer_or_all_waiting svc w.s.CurrentGame (w.calls + 1) 50
  have hcases : ∃ w', computerMoveHandler svc w args = (w', none) ∨
      computerMoveHandler svc w args = (w', some "timeout waiting for computer move") := by
    rcases hsplit with hall | ⟨k, r, hk, hfirst, hnext, hdone⟩
    · exact ⟨_, Or.inr (computerMove_timeout_after_waiting svc w args resp hgame htrigger
        hpending hall)⟩
    · obtain ⟨w', _, hw', _⟩ := computerMove_found_after_waiting svc w args resp r k hgame
        htrigger hpending hk hfirst hnext hdone
      exact ⟨w', Or.inl hw'⟩
  refine ⟨?_, ?_, ?_, ?_, hcases, ?_⟩
  · have hwait : ∀ j, j < i + 1 →
        stillWaiting (svc.GetGame (w.calls + 1 + j) w.s.CurrentGame) := by
      intro j hj
      by_cases hji : j < i
      · exact hbefore j hji
      · have hje : j = i := by omega
        rw [hje, herr]
        trivial
    have hskip := computerMoveLoop_skip svc w.s.CurrentGame (i + 1) (50 - (i + 1))
      { w with
        calls := w.calls + 1
        events := w.events ++
          [Event.call (.MakeMove w.s.CurrentGame "cccc"),
           Event.print (display.Magenta ++ "Computer is thinking..." ++ display.Reset ++ "\n")] }
      hwait
    rw [show i + 1 + (50 - (i + 1)) = 50 by omega] at hskip
    rw [hskip] at hrun
    exact ⟨_, hrun, rfl, rfl, rfl⟩
  · intro k r2 hk hfirst hnext hdone
    have hik : i < k := by
      by_contra hle
      by_cases hki : k = i
      · rw [hki, herr] at hnext
        cases hnext
      · have hw := hbefore k (by omega)
        rw [hnext] at hw
        exact hdone hw
    obtain ⟨w', notes, hw', hev, hnotes, hs⟩ := computerMove_found_after_waiting svc w args
      resp r2 k hgame htrigger hpending hk hfirst hnext hdone
    refine ⟨hik, w', notes, hw', hev, hnotes, ?_, ?_, hs⟩
    · rw [hev]
      simp only [fetchCount_append, fetchCount_pollTrace, fetchCount_prints notes hnotes]
      simp [fetchCount]
    · rw [hev]
      simp only [sleepTotal_append, sleepTotal_pollTrace, sleepTotal_prints notes hnotes]
      simp [sleepTotal]
  · rintro ⟨k, r2, hk, hnext, hdone⟩
    rcases hsplit with hall | ⟨k', r, hk', hfirst, hnext', hdone'⟩
    · have hw := hall k hk
      rw [hnext] at hw
      exact absurd hw hdone
    · obtain ⟨w', _, hw', _⟩ := computerMove_found_after_waiting svc w args resp r k' hgame
        htrigger hpending hk' hfirst hnext' hdone'
      exact ⟨w', hw'⟩
  · intro hall
    refine ⟨_, computerMove_timeout_after_waiting svc w args resp hgame htrigger hpending
      hall, rfl, ?_, ?_⟩
    · simp [fetchCount_append, fetchCount_pollTrace, fetchCount]
    · simp [sleepTotal_append, sleepTotal_pollTrace, sleepTotal]
  · intro hne w' hw'
    obtain ⟨w2, h2 | h2⟩ := hcases
    · rw [h2] at hw'
      cases hw'
    · rw [h2] at hw'
      injection hw' with _ h3
      injection h3 with h4
      exact hne h4.symm

/-- Claim C21 at two inputs, from the session `inGame`.  On the service `flaky` the second
fetch fails in transport and the third is refused; the fourth returns the position after
1... e5, and the handler succeeds with it after four rounds of sleep and fetch.  On the
service that answers the trigger `pending` and then fails every fetch, the handler returns
the timeout error after 50 rounds, with the session unchanged. -/
theorem computerMove_fetch_error_witness :
    Sample.flaky.GetGame 2 "g1" = .error "connection refused" ∧
    Sample.flaky.GetGame 3 "g1" = .error "request failed with status 500" ∧
    (∃ w', computerMoveHandler Sample.flaky (Sample.world Sample.inGame []) [] = (w', none) ∧
      fetchCount w'.events = 4 ∧ sleepTotal w'.events = 800 ∧
      w'.s = { Sample.inGame with LastMoveCount := 2,
                                  CurrentGameState := some Sample.afterE5 }) ∧
    (∃ w', computerMoveHandler (Sample.scripted [.ok Sample.thinking])
        (Sample.world Sample.inGame []) [] = (w', some "timeout waiting for computer move") ∧
      w'.s = Sample.inGame ∧ fetchCount w'.events = 50 ∧ sleepTotal w'.events = 10000) :=
  have h := computerMove_fetch_error_is_skipped Sample.flaky (Sample.world Sample.inGame [])
    [] Sample.thinking "connection refused" 1 (by decide) rfl rfl (by decide) (by decide) rfl
  have hrun := h.2.1 3 Sample.afterE5 (by decide) (by decide) rfl (by decide)
  have h0 := computerMove_fetch_error_is_skipped (Sample.scripted [.ok Sample.thinking])
    (Sample.world Sample.inGame []) [] Sample.thinking "connection refused" 0 (by decide) rfl
    rfl (by decide) (by decide) rfl
  ⟨rfl, rfl,
   hrun.2.elim fun w' hn => hn.elim fun _ hw =>
    ⟨w', hw.1, hw.2.2.2.1, hw.2.2.2.2.1, hw.2.2.2.2.2⟩,
   h0.2.2.2.1 (by decide)⟩

end ChessClient
